import Mathlib

/-! # MediTrack: resource matching and alerting core

A shallow embedding of the server code of the repository
(`server/utils/thresholds.js`, `server/utils/distance.js`,
`server/services/twilio.js`, `server/routes/beds.js`,
`server/routes/blood.js`, `server/routes/ambulance.js`,
`server/routes/alerts.js`, the socket handlers of `server/server.js`) and of
one function of the client (`client/src/utils/helpers.js`), and theorems about
them.

Conventions of the embedding.

* JavaScript numbers read from a parsed JSON document are `JsNum`: a finite
  value (every finite double is a rational) or one of the two infinities
  (`JSON.parse` turns an overflowing literal such as `1e999` into `Infinity`).
  JSON has no literal for NaN, so NaN is not a member.
* The collaborators outside the process (the relational store, the SMS
  gateway, the socket server) are a `World` value that is passed along
  explicitly; their possible failures are switches of an `Env` value.
* An `async` function that may throw is a function
  `World → Except Thrown α × World`.
* A number that a computation produces is a `JsDouble`: NaN, an infinity, the
  negative zero or a finite value. A quotient, product or difference of
  finite doubles is the exact rational result rounded to the nearest double,
  ties to even (`roundNearest`), an infinity when the rounded value reaches
  `2^1024` (`JsDouble.ofExact`); the comparisons are false on NaN.
* The library functions of `calculateDistance` (`Math.sin`, `Math.cos`,
  `Math.sqrt`, `Math.atan2`, `Math.round`) are the fields of a parameter
  `JsArith`; what a theorem needs of them is a hypothesis that lists the laws
  used. In the route the distance is a field of the parameter `Numerics`, a
  double that may be NaN.
* `Array.prototype.sort` is the stable sort of ECMAScript when the comparator
  returns no NaN on the elements; otherwise the order is the one of the
  engine, a field of `Numerics`, which the examples fill with the sort of V8.
* The socket library is the state `Sockets`: the rooms are pairs of a socket
  id and the value that names the room, `socket.join` takes one room or an
  array of rooms, `io.to(room).emit` reaches the sockets in the room.
-/

set_option autoImplicit false

namespace MediTrack

/-! ## JavaScript values -/

/-- A JavaScript number as a parsed JSON document can hold it. -/
inductive JsNum where
  | negInf
  | fin (q : ℚ)
  | posInf
  deriving DecidableEq, Repr

namespace JsNum

instance : Inhabited JsNum := ⟨.fin 0⟩

instance : Coe ℚ JsNum := ⟨JsNum.fin⟩

instance (n : Nat) : OfNat JsNum n := ⟨.fin n⟩

/-- The JavaScript `a < b` on numbers. -/
def blt : JsNum → JsNum → Bool
  | .negInf, .negInf => false
  | .negInf, _ => true
  | .fin _, .negInf => false
  | .fin a, .fin b => decide (a < b)
  | .fin _, .posInf => true
  | .posInf, _ => false

/-- The JavaScript `a <= b` on numbers. -/
def ble : JsNum → JsNum → Bool
  | .negInf, _ => true
  | .fin _, .negInf => false
  | .fin a, .fin b => decide (a ≤ b)
  | .fin _, .posInf => true
  | .posInf, .posInf => true
  | .posInf, _ => false

instance : LT JsNum := ⟨fun a b => blt a b = true⟩
instance : LE JsNum := ⟨fun a b => ble a b = true⟩
instance (a b : JsNum) : Decidable (a < b) := inferInstanceAs (Decidable (blt a b = true))
instance (a b : JsNum) : Decidable (a ≤ b) := inferInstanceAs (Decidable (ble a b = true))

end JsNum

/-- A value of a parsed JSON document; `undefined` is what reading an absent
property gives. Objects and arrays are not told apart (`obj`): the code only
tests them for truthiness. -/
inductive JsVal where
  | undefined
  | null
  | bool (b : Bool)
  | num (n : JsNum)
  | str (s : String)
  | obj
  deriving DecidableEq, Repr

namespace JsVal

instance : Inhabited JsVal := ⟨.undefined⟩

/-- JavaScript truthiness: `undefined`, `null`, `false`, `0` and `''` are falsy
(NaN, the remaining falsy value, is not a JSON value). -/
def truthy : JsVal → Bool
  | .undefined => false
  | .null => false
  | .bool b => b
  | .num n => decide (n ≠ JsNum.fin 0)
  | .str s => decide (s ≠ "")
  | .obj => true

/-- The test `typeof v === 'number'`. -/
def isNumber : JsVal → Bool
  | .num _ => true
  | _ => false

/-- A property is absent from the JSON body when reading it gives `undefined`. -/
def absent (v : JsVal) : Prop := v = .undefined

instance (v : JsVal) : Decidable v.absent := inferInstanceAs (Decidable (v = .undefined))

end JsVal

/-- Falsiness of an environment variable: unset, or set to the empty string. -/
def envFalsy : Option String → Bool
  | none => true
  | some s => decide (s = "")

/-! ## The world outside the process -/

/-- The text of an alert, one constructor for each template literal of
`thresholds.js`:
`CRITICAL: Only ${availableBeds} ICU bed(s) available at ${hospitalName}`,
`WARNING: Only ${availableBeds} ICU beds available at ${hospitalName}`,
`CRITICAL: ${bedType} beds are completely full at ${hospitalName}`,
`CRITICAL: ${bloodGroup} blood completely out of stock at ${hospitalName}`,
`WARNING: Only ${unitsAvailable} unit(s) of ${bloodGroup} blood at ${hospitalName}`. -/
inductive AlertMessage where
  | icuCritical (availableBeds : JsNum) (hospitalName : String)
  | icuWarning (availableBeds : JsNum) (hospitalName : String)
  | bedsFull (bedType : String) (hospitalName : String)
  | bloodOut (bloodGroup : String) (hospitalName : String)
  | bloodWarning (unitsAvailable : JsNum) (bloodGroup : String) (hospitalName : String)
  deriving DecidableEq, Repr

/-- A row of the `alerts` table as `createAlert` inserts it; `id` stands for the
columns the store fills in itself. The columns `resolved_by` and `resolved_at`
are empty (`null`) until the resolve route writes them; `created_at` is filled
in by the store from its own clock, which is not part of the world, so a row
inserted by `createAlert` carries the empty timestamp. -/
structure Alert where
  id : Nat
  hospital_id : String
  alert_type : String
  message : AlertMessage
  severity : String
  is_resolved : Bool
  resolved_by : Option String := none
  resolved_at : Option String := none
  created_at : String := ""
  deriving DecidableEq, Repr

/-- The second argument of `sendCriticalAlert`, one constructor for each
template literal passed in `thresholds.js`:
`Only ${availableBeds} ICU bed(s) remaining. Immediate action required.`,
`${bedType} beds are completely full. No capacity available.`,
`${bloodGroup} blood is OUT OF STOCK. Urgent replenishment needed.`. -/
inductive EscalationText where
  | icuRemaining (availableBeds : JsNum)
  | bedsFull (bedType : String)
  | bloodOutOfStock (bloodGroup : String)
  deriving DecidableEq, Repr

/-- A message handed to the SMS gateway by `sendSMS`; the body is
`🚨 CRITICAL ALERT - ${hospitalName}\n\n${alertMessage}\n\nMediTrack System`. -/
structure Sms where
  toPhone : String
  fromPhone : Option String
  hospitalName : String
  alertMessage : EscalationText
  deriving DecidableEq, Repr

/-- A row of the `hospitals` table (the columns the core reads). -/
structure Hospital where
  id : String
  name : String
  address : String
  city : String
  phone : String
  latitude : JsVal
  longitude : JsVal
  is_active : Bool
  deriving DecidableEq, Repr

/-- A row of the `bed_inventory` table. -/
structure BedRow where
  id : String
  hospital_id : String
  bed_type : String
  total_beds : JsNum
  available_beds : JsNum
  last_updated : String
  updated_by : Option String
  deriving DecidableEq, Repr

/-- A row of the `blood_inventory` table. -/
structure BloodRow where
  id : String
  hospital_id : String
  blood_group : String
  units_available : JsNum
  units_reserved : JsNum
  last_updated : String
  updated_by : Option String
  deriving DecidableEq, Repr

/-- A row of the `update_logs` table. -/
structure UpdateLog where
  hospital_id : String
  update_type : String
  field_changed : String
  old_value : JsNum
  new_value : JsNum
  changed_by : String
  deriving DecidableEq, Repr

/-- The payload of a socket event. -/
inductive Payload where
  | bedUpdated (hospital_id hospital_name bed_type : String)
      (available_beds total_beds : JsNum)
  | alertCreated (hospital_name : String) (message : AlertMessage) (severity : String)
  | bloodUpdated (hospital_id hospital_name blood_group : String)
      (units_available units_reserved : JsNum)
  deriving DecidableEq, Repr

/-- One `io.to(room).emit(event, payload)`; the room is `none` when the
expression given to `io.to` evaluates to `undefined`. -/
structure Emit where
  room : Option String
  event : String
  payload : Payload
  deriving DecidableEq, Repr

/-- Everything a request can observe or change outside the process. -/
structure World where
  hospitals : List Hospital
  bed_inventory : List BedRow
  blood_inventory : List BloodRow
  update_logs : List UpdateLog
  alerts : List Alert
  sms : List Sms
  emitted : List Emit
  deriving DecidableEq, Repr

/-- Configuration of the process and the failures of its collaborators. -/
structure Env where
  /-- The variable `process.env.DISTRICT_OFFICER_PHONE`. -/
  DISTRICT_OFFICER_PHONE : Option String
  /-- The variable `process.env.TWILIO_PHONE_NUMBER`. -/
  TWILIO_PHONE_NUMBER : Option String
  /-- Whether `client` of `twilio.js` was initialised (is not `null`). -/
  client : Bool
  /-- When set, `client.messages.create` rejects with this message. -/
  smsError : Option String
  /-- Whether the store answers a `select` with an error. -/
  selectError : Bool
  /-- Whether the store answers an `update` with an error. -/
  updateError : Bool
  /-- Whether the store answers an insert into `update_logs` with an error. -/
  logError : Bool
  /-- Whether the store answers the insert of the alert that would get this id with an error. -/
  alertError : Nat → Bool
  /-- Whether `req.app.get('io')` is set. -/
  io : Bool

/-- What an `async` function of the server throws. -/
inductive Thrown where
  | storeError
  | typeError
  deriving DecidableEq, Repr

deriving instance DecidableEq for Except

/-- An `async` function with effects on the world that may throw. -/
def Eff (α : Type) : Type := World → Except Thrown α × World

instance : Monad Eff where
  pure a := fun w => (.ok a, w)
  bind m f := fun w =>
    match m w with
    | (.ok a, w') => f a w'
    | (.error e, w') => (.error e, w')

/-- The statement `throw e`. -/
def Eff.throw {α : Type} (e : Thrown) : Eff α := fun w => (.error e, w)

/-! ## `services/twilio.js` -/

/-- The object `sendSMS` resolves to: `{ success: true, sid }` or
`{ success: false, error }`. -/
inductive SmsResult where
  | sent
  | failed (error : String)
  deriving DecidableEq, Repr

/-- The function `sendSMS(to, message)`. -/
def sendSMS (env : Env) (toPhone : String) (hospitalName : String) (alertMessage : EscalationText) :
    World → SmsResult × World := fun w =>
  if !env.client then
    (.failed "Twilio not configured", w)
  else
    match env.smsError with
    | some msg => (.failed msg, w)
    | none =>
      (.sent, { w with sms := w.sms ++ [{ toPhone := toPhone, fromPhone := env.TWILIO_PHONE_NUMBER,
                                          hospitalName := hospitalName,
                                          alertMessage := alertMessage }] })

/-- The function `sendCriticalAlert(hospitalName, alertMessage)`; `none` is the
`undefined` of the bare `return`. -/
def sendCriticalAlert (env : Env) (hospitalName : String) (alertMessage : EscalationText) :
    World → Option SmsResult × World := fun w =>
  match env.DISTRICT_OFFICER_PHONE with
  | none => (none, w)
  | some districtOfficerPhone =>
    if envFalsy (some districtOfficerPhone) then (none, w)
    else
      let r := sendSMS env districtOfficerPhone hospitalName alertMessage w
      (some r.1, r.2)

/-! ## `utils/thresholds.js` -/

/-- The constant `THRESHOLDS.ICU_CRITICAL`. -/
def THRESHOLDS.ICU_CRITICAL : JsNum := 2
/-- The constant `THRESHOLDS.ICU_HIGH`. -/
def THRESHOLDS.ICU_HIGH : JsNum := 5
/-- The constant `THRESHOLDS.BLOOD_CRITICAL`. -/
def THRESHOLDS.BLOOD_CRITICAL : JsNum := 0
/-- The constant `THRESHOLDS.BLOOD_HIGH`. -/
def THRESHOLDS.BLOOD_HIGH : JsNum := 3
/-- The constant `THRESHOLDS.ANY_BED_CRITICAL`. -/
def THRESHOLDS.ANY_BED_CRITICAL : JsNum := 0

/-- The function `createAlert(hospitalId, alertType, message, severity)`: inserts
the row and returns it as stored, or throws the error of the store. -/
def createAlert (env : Env) (hospitalId alertType : String) (message : AlertMessage)
    (severity : String) : Eff Alert := fun w =>
  if env.alertError w.alerts.length then
    (.error .storeError, w)
  else
    let data : Alert :=
      { id := w.alerts.length, hospital_id := hospitalId, alert_type := alertType,
        message := message, severity := severity, is_resolved := false }
    (.ok data, { w with alerts := w.alerts ++ [data] })

/-- The function `checkBedThresholds(hospitalId, bedType, availableBeds, hospitalName)`. -/
def checkBedThresholds (env : Env) (hospitalId bedType : String) (availableBeds : JsNum)
    (hospitalName : String) : Eff (List Alert) := do
  let alerts : List Alert := []
  -- ICU critical threshold, else ICU high threshold
  let alerts ←
    if bedType = "ICU" ∧ availableBeds < THRESHOLDS.ICU_CRITICAL then do
      let alert ← createAlert env hospitalId "bed_shortage"
        (.icuCritical availableBeds hospitalName) "critical"
      let _ ← (fun w => (.ok (), (sendCriticalAlert env hospitalName
        (.icuRemaining availableBeds) w).2) : Eff Unit)
      pure (alerts ++ [alert])
    else if bedType = "ICU" ∧ availableBeds < THRESHOLDS.ICU_HIGH then do
      let alert ← createAlert env hospitalId "bed_shortage"
        (.icuWarning availableBeds hospitalName) "high"
      pure (alerts ++ [alert])
    else pure alerts
  -- Any bed type completely full
  if availableBeds = THRESHOLDS.ANY_BED_CRITICAL then do
    let alert ← createAlert env hospitalId "bed_full"
      (.bedsFull bedType hospitalName) "critical"
    let _ ← (fun w => (.ok (), (sendCriticalAlert env hospitalName
      (.bedsFull bedType) w).2) : Eff Unit)
    pure (alerts ++ [alert])
  else pure alerts

/-- The function `checkBloodThresholds(hospitalId, bloodGroup, unitsAvailable, hospitalName)`. -/
def checkBloodThresholds (env : Env) (hospitalId bloodGroup : String) (unitsAvailable : JsNum)
    (hospitalName : String) : Eff (List Alert) := do
  let alerts : List Alert := []
  if unitsAvailable = THRESHOLDS.BLOOD_CRITICAL then do
    let alert ← createAlert env hospitalId "blood_shortage"
      (.bloodOut bloodGroup hospitalName) "critical"
    let _ ← (fun w => (.ok (), (sendCriticalAlert env hospitalName
      (.bloodOutOfStock bloodGroup) w).2) : Eff Unit)
    pure (alerts ++ [alert])
  else if unitsAvailable ≤ THRESHOLDS.BLOOD_HIGH then do
    let alert ← createAlert env hospitalId "blood_shortage"
      (.bloodWarning unitsAvailable bloodGroup hospitalName) "high"
    pure (alerts ++ [alert])
  else pure alerts

/-! ## `routes/beds.js`: `PATCH /api/beds/:id` -/

/-- The embedded `hospitals(...)` object of a selected inventory row: `name` is
always selected, `city` is `none` (reads as `undefined`) when the select list
does not name it. -/
structure HospitalEmbed where
  name : String
  city : Option String
  deriving DecidableEq, Repr

/-- The row `select('*, hospitals(name)')` gives for a bed record; `hospitals`
is `none` (`null`) when the hospital of the record does not exist. -/
structure CurrentBed where
  row : BedRow
  hospitals : Option HospitalEmbed
  deriving DecidableEq, Repr

/-- The query `from('bed_inventory').select('*, hospitals(name)').eq('id', id).single()`:
an error unless exactly one row has the id. -/
def selectBedSingle (env : Env) (id : String) : Eff CurrentBed := fun w =>
  if env.selectError then (.error .storeError, w)
  else
    match w.bed_inventory.filter (fun r => r.id = id) with
    | [r] =>
      (.ok { row := r,
             hospitals := (w.hospitals.find? (fun h => h.id = r.hospital_id)).map
               (fun h => { name := h.name, city := none }) }, w)
    | _ => (.error .storeError, w)

/-- The query `from('bed_inventory').update({ available_beds, updated_by })
.eq('id', id).select().single()`: on success the rows with the id carry the new
values and the updated row is returned; on an error nothing is written. -/
def updateBedSingle (env : Env) (id : String) (available_beds : JsNum) (updated_by : String) :
    Eff BedRow := fun w =>
  if env.updateError then (.error .storeError, w)
  else
    match w.bed_inventory.filter (fun r => r.id = id) with
    | [r] =>
      (.ok { r with available_beds := available_beds, updated_by := some updated_by },
       { w with bed_inventory := w.bed_inventory.map (fun x =>
           if x.id = id then
             { x with available_beds := available_beds, updated_by := some updated_by }
           else x) })
    | _ => (.error .storeError, w)

/-- The call `supabase.from('update_logs').insert(entry)`; its result is not
inspected by the routes, so a failure is silent. -/
def insertUpdateLog (env : Env) (entry : UpdateLog) : Eff Unit := fun w =>
  if env.logError then (.ok (), w)
  else (.ok (), { w with update_logs := w.update_logs ++ [entry] })

/-- The call `io.to(room).emit(event, payload)`. -/
def emit (room : Option String) (event : String) (payload : Payload) : Eff Unit := fun w =>
  (.ok (), { w with emitted := w.emitted ++ [{ room := room, event := event, payload := payload }] })

/-- The loop `alerts.forEach(alert => io.to(room).emit('alert_created', ...))`. -/
def emitAlerts (room : Option String) (hospital_name : String) : List Alert → Eff Unit
  | [] => pure ()
  | alert :: rest => do
    emit room "alert_created" (.alertCreated hospital_name alert.message alert.severity)
    emitAlerts room hospital_name rest

/-- The request as the handler of `PATCH /api/beds/:id` sees it, after the
middleware `authenticateUser` and `requireHospitalStaff` set `req.user` and
`req.staff`. -/
structure BedPatchRequest where
  /-- The route parameter `req.params.id`. -/
  id : String
  /-- The body property `req.body.available_beds`. -/
  available_beds : JsVal
  /-- The hospital of the acting principal, `req.staff.hospital_id`. -/
  staff_hospital_id : String
  /-- The acting principal, `req.user.id`. -/
  user_id : String
  deriving DecidableEq, Repr

/-- The `error` property of an error response: a literal, or the template
`Available beds (${available_beds}) cannot exceed total beds (${total_beds})`. -/
inductive ErrorText where
  | text (s : String)
  | exceedsTotal (available_beds total_beds : JsNum)
  deriving DecidableEq, Repr

/-- The response of `PATCH /api/beds/:id`: `res.status(status).json({ error })`
or `res.json({ success: true, data, alerts })`. -/
inductive BedPatchResponse where
  | error (status : Nat) (error : ErrorText)
  | success (data : BedRow) (alerts : List Alert)
  deriving DecidableEq, Repr

/-- The `try` block of the handler after the update has been written: the log
entry, the threshold check, the socket events and the response. -/
def patchBedNotify (env : Env) (req : BedPatchRequest) (available_beds : JsNum)
    (currentBed : CurrentBed) (updatedBed : BedRow) : Eff BedPatchResponse := do
  -- Log the update
  insertUpdateLog env
    { hospital_id := currentBed.row.hospital_id, update_type := "bed",
      field_changed := currentBed.row.bed_type, old_value := currentBed.row.available_beds,
      new_value := available_beds, changed_by := req.user_id }
  -- Check thresholds and create alerts if needed
  match currentBed.hospitals with
  | none => Eff.throw .typeError
  | some hospitals => do
    let alerts ← checkBedThresholds env currentBed.row.hospital_id currentBed.row.bed_type
      available_beds hospitals.name
    -- Emit socket event
    if env.io then do
      emit hospitals.city "bed_updated"
        (.bedUpdated currentBed.row.hospital_id hospitals.name currentBed.row.bed_type
          available_beds currentBed.row.total_beds)
      emitAlerts hospitals.city hospitals.name alerts
      pure (.success updatedBed alerts)
    else
      pure (.success updatedBed alerts)

/-- The `try` block of the handler from the store read on, for a numeric
`available_beds`. -/
def patchBedTry (env : Env) (req : BedPatchRequest) (available_beds : JsNum) :
    Eff BedPatchResponse := do
  -- Get current bed data
  let currentBed ← selectBedSingle env req.id
  -- Verify staff belongs to this hospital
  if currentBed.row.hospital_id ≠ req.staff_hospital_id then
    pure (.error 403 (.text "Not authorized to update this hospital"))
  -- Check if available_beds exceeds total_beds
  else if available_beds > currentBed.row.total_beds then
    pure (.error 400 (.exceedsTotal available_beds currentBed.row.total_beds))
  else do
    -- Update bed inventory
    let updatedBed ← updateBedSingle env req.id available_beds req.user_id
    patchBedNotify env req available_beds currentBed updatedBed

/-- The handler of `PATCH /api/beds/:id`. -/
def patchBed (env : Env) (req : BedPatchRequest) : World → BedPatchResponse × World := fun w =>
  match req.available_beds with
  | .num available_beds =>
    if available_beds < 0 then
      (.error 400 (.text "Invalid available_beds value"), w)
    else
      match patchBedTry env req available_beds w with
      | (.ok response, w') => (response, w')
      | (.error _, w') => (.error 500 (.text "Failed to update bed inventory"), w')
  | _ => (.error 400 (.text "Invalid available_beds value"), w)

/-- The invariant of a bed inventory record, `0 ≤ available ≤ total`. -/
def BedRow.wellFormed (r : BedRow) : Prop :=
  0 ≤ r.available_beds ∧ r.available_beds ≤ r.total_beds

instance (r : BedRow) : Decidable r.wellFormed :=
  inferInstanceAs (Decidable (_ ∧ _))

/-! ## `routes/blood.js`: `PATCH /api/blood/:id` -/

/-- The row `select('*, hospitals(name, city)')` gives for a blood record;
`hospitals` is `none` (`null`) when the hospital of the record does not exist. -/
structure CurrentBlood where
  row : BloodRow
  hospitals : Option HospitalEmbed
  deriving DecidableEq, Repr

/-- The query `from('blood_inventory').select('*, hospitals(name, city)')
.eq('id', id).single()`: an error unless exactly one row has the id. -/
def selectBloodSingle (env : Env) (id : String) : Eff CurrentBlood := fun w =>
  if env.selectError then (.error .storeError, w)
  else
    match w.blood_inventory.filter (fun r => r.id = id) with
    | [r] =>
      (.ok { row := r,
             hospitals := (w.hospitals.find? (fun h => h.id = r.hospital_id)).map
               (fun h => { name := h.name, city := some h.city }) }, w)
    | _ => (.error .storeError, w)

/-- The object `updateData` written by the blood route: `units_available` and
`updated_by` always, `units_reserved` when it was set. -/
structure BloodUpdateData where
  units_available : JsNum
  updated_by : String
  units_reserved : Option JsNum
  deriving DecidableEq, Repr

/-- The row after `update(updateData)`. -/
def BloodUpdateData.apply (updateData : BloodUpdateData) (r : BloodRow) : BloodRow :=
  { r with units_available := updateData.units_available,
           updated_by := some updateData.updated_by,
           units_reserved := updateData.units_reserved.getD r.units_reserved }

/-- The query `from('blood_inventory').update(updateData).eq('id', id).select()
.single()`: on success the rows with the id carry the new values and the updated
row is returned; on an error nothing is written. -/
def updateBloodSingle (env : Env) (id : String) (updateData : BloodUpdateData) :
    Eff BloodRow := fun w =>
  if env.updateError then (.error .storeError, w)
  else
    match w.blood_inventory.filter (fun r => r.id = id) with
    | [r] =>
      (.ok (updateData.apply r),
       { w with blood_inventory := w.blood_inventory.map (fun x =>
           if x.id = id then updateData.apply x else x) })
    | _ => (.error .storeError, w)

/-- The request as the handler of `PATCH /api/blood/:id` sees it, after the
middleware `authenticateUser` and `requireHospitalStaff` set `req.user` and
`req.staff`. -/
structure BloodPatchRequest where
  /-- The route parameter `req.params.id`. -/
  id : String
  /-- The body property `req.body.units_available`. -/
  units_available : JsVal
  /-- The body property `req.body.units_reserved`. -/
  units_reserved : JsVal
  /-- The hospital of the acting principal, `req.staff.hospital_id`. -/
  staff_hospital_id : String
  /-- The acting principal, `req.user.id`. -/
  user_id : String
  deriving DecidableEq, Repr

/-- The response of `PATCH /api/blood/:id`: `res.status(status).json({ error })`
or `res.json({ success: true, data, alerts })`. -/
inductive BloodPatchResponse where
  | error (status : Nat) (error : ErrorText)
  | success (data : BloodRow) (alerts : List Alert)
  deriving DecidableEq, Repr

/-- The lines that build `updateData`: `units_reserved` is taken over when
`typeof units_reserved === 'number' && units_reserved >= 0`. -/
def bloodUpdateData (req : BloodPatchRequest) (units_available : JsNum) : BloodUpdateData :=
  { units_available := units_available,
    updated_by := req.user_id,
    units_reserved :=
      match req.units_reserved with
      | .num units_reserved => if 0 ≤ units_reserved then some units_reserved else none
      | _ => none }

/-- The expression `updateData.units_reserved || currentBlood.units_reserved`. -/
def reservedOrCurrent (updateData : BloodUpdateData) (currentBlood : CurrentBlood) : JsNum :=
  match updateData.units_reserved with
  | some units_reserved =>
    if (JsVal.num units_reserved).truthy then units_reserved
    else currentBlood.row.units_reserved
  | none => currentBlood.row.units_reserved

/-- The `try` block of the blood handler after the update has been written: the
log entry, the threshold check, the socket events and the response. -/
def patchBloodNotify (env : Env) (req : BloodPatchRequest) (units_available : JsNum)
    (currentBlood : CurrentBlood) (updateData : BloodUpdateData) (updatedBlood : BloodRow) :
    Eff BloodPatchResponse := do
  -- Log the update
  insertUpdateLog env
    { hospital_id := currentBlood.row.hospital_id, update_type := "blood",
      field_changed := currentBlood.row.blood_group,
      old_value := currentBlood.row.units_available,
      new_value := units_available, changed_by := req.user_id }
  -- Check thresholds and create alerts if needed
  match currentBlood.hospitals with
  | none => Eff.throw .typeError
  | some hospitals => do
    let alerts ← checkBloodThresholds env currentBlood.row.hospital_id
      currentBlood.row.blood_group units_available hospitals.name
    -- Emit socket event
    if env.io then do
      emit hospitals.city "blood_updated"
        (.bloodUpdated currentBlood.row.hospital_id hospitals.name currentBlood.row.blood_group
          units_available (reservedOrCurrent updateData currentBlood))
      emitAlerts hospitals.city hospitals.name alerts
      pure (.success updatedBlood alerts)
    else
      pure (.success updatedBlood alerts)

/-- The `try` block of the blood handler from the store read on, for a numeric
`units_available`. -/
def patchBloodTry (env : Env) (req : BloodPatchRequest) (units_available : JsNum) :
    Eff BloodPatchResponse := do
  -- Get current blood data
  let currentBlood ← selectBloodSingle env req.id
  -- Verify staff belongs to this hospital
  if currentBlood.row.hospital_id ≠ req.staff_hospital_id then
    pure (.error 403 (.text "Not authorized to update this hospital"))
  else do
    let updateData := bloodUpdateData req units_available
    -- Update blood inventory
    let updatedBlood ← updateBloodSingle env req.id updateData
    patchBloodNotify env req units_available currentBlood updateData updatedBlood

/-- The handler of `PATCH /api/blood/:id`. -/
def patchBlood (env : Env) (req : BloodPatchRequest) : World → BloodPatchResponse × World :=
  fun w =>
  match req.units_available with
  | .num units_available =>
    if units_available < 0 then
      (.error 400 (.text "Invalid units_available value"), w)
    else
      match patchBloodTry env req units_available w with
      | (.ok response, w') => (response, w')
      | (.error _, w') => (.error 500 (.text "Failed to update blood inventory"), w')
  | _ => (.error 400 (.text "Invalid units_available value"), w)

/-! ## Doubles: the numbers of JavaScript arithmetic -/

/-- The number of binary digits of `n` after the first, `⌊log₂ n⌋` for `n > 0`,
by halving at most `fuel` times. -/
def log2Fuel : Nat → Nat → Nat
  | 0, _ => 0
  | fuel + 1, n => if n < 2 then 0 else log2Fuel fuel (n / 2) + 1

/-- The binary exponent `⌊log₂ |x|⌋` of a rational `x ≠ 0`. -/
def floorLog2 (x : ℚ) : ℤ :=
  let d : ℤ := (log2Fuel x.num.natAbs x.num.natAbs : ℤ) - (log2Fuel x.den x.den : ℤ)
  if (2 : ℚ) ^ d ≤ |x| then d else d - 1

/-- Rounding to the nearest integer, a tie going to the even one. -/
def roundHalfEven (x : ℚ) : ℤ :=
  let f := ⌊x⌋
  let r := x - f
  if r < 1 / 2 then f
  else if 1 / 2 < r then f + 1
  else if f % 2 = 0 then f
  else f + 1

/-- The rounding step of IEEE 754 binary64 (round to nearest, ties to even): the
value nearest to `x` with 53 significant bits and an exponent not below that of
the subnormals. The exponent has no upper bound here: `JsDouble.ofExact` turns
a rounded value that reaches `2^1024` into an infinity. -/
def roundNearest (x : ℚ) : ℚ :=
  if x = 0 then 0
  else
    let e := max (floorLog2 x) (-1022)
    let ulp := (2 : ℚ) ^ (e - 52)
    (roundHalfEven (x / ulp) : ℚ) * ulp

/-- A JavaScript number as a computation produces it, an IEEE 754 double: NaN,
an infinity, the negative zero, or a finite value (`fin 0` is the positive
zero). -/
inductive JsDouble where
  | nan
  | negInf
  | negZero
  | fin (q : ℚ)
  | posInf
  deriving DecidableEq, Repr

namespace JsDouble

instance : Inhabited JsDouble := ⟨.fin 0⟩

/-- The test `Number.isNaN`. -/
def isNaN : JsDouble → Bool
  | nan => true
  | _ => false

/-- The sign bit of a number that is not NaN. -/
def negative : JsDouble → Bool
  | negInf => true
  | negZero => true
  | fin q => decide (q < 0)
  | _ => false

/-- The value of a finite number; both zeros have the value 0. -/
def finite? : JsDouble → Option ℚ
  | negZero => some 0
  | fin q => some q
  | _ => none

/-- The test `Number.isFinite`. -/
def isFinite (d : JsDouble) : Bool := d.finite?.isSome

/-- The value the comparisons `<` and `<=` see; NaN has none. -/
def value? : JsDouble → Option JsNum
  | nan => none
  | negInf => some .negInf
  | negZero => some (.fin 0)
  | fin q => some (.fin q)
  | posInf => some .posInf

/-- The JavaScript `a < b`: false when an operand is NaN. -/
def lt (a b : JsDouble) : Bool :=
  match a.value?, b.value? with
  | some x, some y => JsNum.blt x y
  | _, _ => false

/-- The JavaScript `a <= b`: false when an operand is NaN. -/
def le (a b : JsDouble) : Bool :=
  match a.value?, b.value? with
  | some x, some y => JsNum.ble x y
  | _, _ => false

instance : LT JsDouble := ⟨fun a b => lt a b = true⟩
instance : LE JsDouble := ⟨fun a b => le a b = true⟩
instance (a b : JsDouble) : Decidable (a < b) := inferInstanceAs (Decidable (lt a b = true))
instance (a b : JsDouble) : Decidable (a ≤ b) := inferInstanceAs (Decidable (le a b = true))

/-- The infinity of a sign. -/
def signedInf (negative : Bool) : JsDouble := if negative then negInf else posInf

/-- The zero of a sign. -/
def signedZero (negative : Bool) : JsDouble := if negative then negZero else fin 0

/-- The double an arithmetic operation returns when its exact result is `x`
(IEEE 754, round to nearest, ties to even): an infinity when the rounded value
reaches `2^1024`, a zero when it is 0 (of the sign of `x`, or of the sign
`negative` that the operation gives an exact 0), and the rounded value
otherwise. -/
def ofExact (x : ℚ) (negative : Bool) : JsDouble :=
  let r := roundNearest x
  if (2 : ℚ) ^ 1024 ≤ |r| then signedInf (decide (r < 0))
  else if r = 0 then signedZero (if x = 0 then negative else decide (x < 0))
  else fin r

/-- The JavaScript `a / b` on numbers. -/
def div (a b : JsDouble) : JsDouble :=
  if a.isNaN || b.isNaN then nan
  else
    let negative := xor a.negative b.negative
    match a.finite?, b.finite? with
    | none, none => nan
    | none, some _ => signedInf negative
    | some _, none => signedZero negative
    | some x, some y =>
      if y = 0 then (if x = 0 then nan else signedInf negative)
      else ofExact (x / y) negative

/-- The JavaScript `a * b` on numbers. -/
def mul (a b : JsDouble) : JsDouble :=
  if a.isNaN || b.isNaN then nan
  else
    let negative := xor a.negative b.negative
    match a.finite?, b.finite? with
    | none, none => signedInf negative
    | none, some y => if y = 0 then nan else signedInf negative
    | some x, none => if x = 0 then nan else signedInf negative
    | some x, some y => ofExact (x * y) negative

/-- The JavaScript `a - b` on numbers. -/
def sub (a b : JsDouble) : JsDouble :=
  if a.isNaN || b.isNaN then nan
  else
    match a.finite?, b.finite? with
    | none, none => if a = b then nan else a
    | none, some _ => a
    | some _, none => signedInf (!b.negative)
    | some x, some y => ofExact (x - y) (a.negative && !b.negative)

/-- The function `Math.ceil`. -/
def ceil : JsDouble → JsDouble
  | fin q => if -1 < q ∧ q < 0 then negZero else fin (⌈q⌉ : ℤ)
  | d => d

/-- The extended real a rounded value stands for once the range of the doubles
is taken into account. -/
def clamp (r : ℚ) : JsNum :=
  if (2 : ℚ) ^ 1024 ≤ |r| then (if r < 0 then .negInf else .posInf) else .fin r

/-- The value of an operation that keeps an infinity and returns the double of
the exact result `f x` at a finite `x`. -/
def lift (f : ℚ → ℚ) : JsNum → JsNum
  | .fin x => clamp (roundNearest (f x))
  | v => v

/-- The value of `Math.ceil`. -/
def ceilValue : JsNum → JsNum
  | .fin x => .fin (⌈x⌉ : ℤ)
  | v => v

end JsDouble

/-! ## `utils/distance.js` and `routes/ambulance.js`: `POST /api/ambulance/nearest` -/

/-- The function `calculateTravelTime(distanceKm, avgSpeed = 40)` on numbers:
the division and the multiplication are those of the doubles, with their
rounding, their infinities and NaN. -/
def calculateTravelTime (distanceKm : JsDouble) (avgSpeed : JsDouble := .fin 40) : JsDouble :=
  let hours := distanceKm.div avgSpeed
  let minutes := (hours.mul (.fin 60)).ceil
  minutes

/-- The arithmetic of JavaScript numbers that `calculateDistance` uses, taken
as a parameter: the values `F` (doubles, with NaN and the infinities), the
integer literals, `Math.PI`, the four operations, negation and the functions
`Math.sin`, `Math.cos`, `Math.sqrt`, `Math.atan2` and `Math.round`, with the
tests `Number.isFinite` and `<=`. -/
structure JsArith (F : Type) where
  lit : ℤ → F
  PI : F
  add : F → F → F
  sub : F → F → F
  mul : F → F → F
  div : F → F → F
  neg : F → F
  sin : F → F
  cos : F → F
  sqrt : F → F
  atan2 : F → F → F
  round : F → F
  isFinite : F → Bool
  le : F → F → Bool

/-- The function `toRad(degrees)`. -/
def toRad {F : Type} (A : JsArith F) (degrees : F) : F :=
  A.mul degrees (A.div A.PI (A.lit 180))

/-- The error the specification names for a coordinate out of range; no
statement of `utils/distance.js` throws it, or anything else. -/
inductive DistanceError where
  | InvalidCoordinate
  deriving DecidableEq, Repr

/-- The function `calculateDistance(lat1, lon1, lat2, lon2)`: it has no `throw`
and no test of its arguments, so every call returns. -/
def calculateDistance {F : Type} (A : JsArith F) (lat1 lon1 lat2 lon2 : F) :
    Except DistanceError F :=
  let R := A.lit 6371
  let dLat := toRad A (A.sub lat2 lat1)
  let dLon := toRad A (A.sub lon2 lon1)
  let a :=
    A.add
      (A.mul (A.sin (A.div dLat (A.lit 2))) (A.sin (A.div dLat (A.lit 2))))
      (A.mul
        (A.mul (A.mul (A.cos (toRad A lat1)) (A.cos (toRad A lat2)))
          (A.sin (A.div dLon (A.lit 2))))
        (A.sin (A.div dLon (A.lit 2))))
  let c := A.mul (A.lit 2) (A.atan2 (A.sqrt a) (A.sqrt (A.sub (A.lit 1) a)))
  let distance := A.mul R c
  .ok (A.div (A.round (A.mul distance (A.lit 10))) (A.lit 10))

/-- Facts of IEEE 754 arithmetic and of the `Math` functions on which the
distance of a point to itself rests: `x - x` is `0` for a finite `x`, a product
of `0` with `0`, with `π / 180`, with 2, 10 or 6371 or with the square of a
cosine is `0`, `0 + 0`, `0 / 2`,
`0 / 10`, `sin 0`, `sqrt 0`, `atan2(0, 1)` and `round 0` are `0`, `1 - 0` and
`sqrt 1` are `1`, a value between two finite values is finite, and scaling by
`π / 180` keeps a value finite. -/
structure JsArith.ZeroLaws {F : Type} (A : JsArith F) : Prop where
  finite_lit : ∀ n : ℤ, n.natAbs ≤ 6371 → A.isFinite (A.lit n) = true
  finite_of_between : ∀ lo x hi, A.isFinite lo = true → A.isFinite hi = true →
    A.le lo x = true → A.le x hi = true → A.isFinite x = true
  finite_toRad : ∀ x, A.isFinite x = true → A.isFinite (toRad A x) = true
  sub_self : ∀ x, A.isFinite x = true → A.sub x x = A.lit 0
  toRad_zero : toRad A (A.lit 0) = A.lit 0
  zero_div_two : A.div (A.lit 0) (A.lit 2) = A.lit 0
  sin_zero : A.sin (A.lit 0) = A.lit 0
  zero_mul_zero : A.mul (A.lit 0) (A.lit 0) = A.lit 0
  cos_sq_mul_zero : ∀ x, A.isFinite x = true →
    A.mul (A.mul (A.cos x) (A.cos x)) (A.lit 0) = A.lit 0
  zero_add_zero : A.add (A.lit 0) (A.lit 0) = A.lit 0
  sqrt_zero : A.sqrt (A.lit 0) = A.lit 0
  one_sub_zero : A.sub (A.lit 1) (A.lit 0) = A.lit 1
  sqrt_one : A.sqrt (A.lit 1) = A.lit 1
  atan2_zero_one : A.atan2 (A.lit 0) (A.lit 1) = A.lit 0
  two_mul_zero : A.mul (A.lit 2) (A.lit 0) = A.lit 0
  radius_mul_zero : A.mul (A.lit 6371) (A.lit 0) = A.lit 0
  zero_mul_ten : A.mul (A.lit 0) (A.lit 10) = A.lit 0
  round_zero : A.round (A.lit 0) = A.lit 0
  zero_div_ten : A.div (A.lit 0) (A.lit 10) = A.lit 0

/-- Facts of IEEE 754 arithmetic and of the `Math` functions on which the
symmetry of the distance rests: the difference of two distinct values changes
sign when they are exchanged, a product and a quotient change sign with one
operand, a product of two negated values is the product of the values, the
product is commutative, and `Math.sin` is odd. -/
structure JsArith.SignLaws {F : Type} (A : JsArith F) : Prop where
  sub_swap : ∀ x y, x ≠ y → A.sub x y = A.neg (A.sub y x)
  neg_mul : ∀ x k, A.mul (A.neg x) k = A.neg (A.mul x k)
  mul_neg : ∀ k x, A.mul k (A.neg x) = A.neg (A.mul k x)
  neg_div : ∀ x k, A.div (A.neg x) k = A.neg (A.div x k)
  neg_mul_neg : ∀ x y, A.mul (A.neg x) (A.neg y) = A.mul x y
  mul_comm : ∀ x y, A.mul x y = A.mul y x
  sin_neg : ∀ x, A.sin (A.neg x) = A.neg (A.sin x)

/-- The result of `getGoogleMapsLink(fromLat, fromLon, toLat, toLon)`, the template
`https://www.google.com/maps/dir/?api=1&origin=${fromLat},${fromLon}&destination=${toLat},${toLon}&travelmode=driving`. -/
structure MapsLink where
  fromLat : JsVal
  fromLon : JsVal
  toLat : JsDouble
  toLon : JsDouble
  deriving DecidableEq, Repr

/-- The function `getGoogleMapsLink`, at the arguments the route passes: the
coordinates of the request body and two results of `parseFloat`. -/
def getGoogleMapsLink (fromLat fromLon : JsVal) (toLat toLon : JsDouble) : MapsLink :=
  { fromLat := fromLat, fromLon := fromLon, toLat := toLat, toLon := toLon }

/-- The resource properties of a candidate or result row, selected in the source by
`resource_type`: `{ bed_type, available_beds, total_beds }` for `'bed'` and
`{ blood_group, units_available }` for `'blood'`. -/
inductive Resource where
  | bed (bed_type : String) (available_beds total_beds : JsNum)
  | blood (blood_group : String) (units_available : JsNum)
  deriving DecidableEq, Repr

/-- The property `resource_type`. -/
def Resource.resource_type : Resource → String
  | .bed _ _ _ => "bed"
  | .blood _ _ => "blood"

/-- The resource figure of a row: `available_beds` or `units_available`. -/
def Resource.figure : Resource → JsNum
  | .bed _ available_beds _ => available_beds
  | .blood _ units_available => units_available

/-- The requested kind of a row, as a JSON value: its `bed_type` or `blood_group`. -/
def Resource.kind : Resource → JsVal
  | .bed bed_type _ _ => .str bed_type
  | .blood blood_group _ => .str blood_group

/-- An element of the array `hospitals` of the route: an inventory row with
its embedded hospital, which is `none` (`null`) when the filter
`hospitals.is_active = true` of the embedding leaves no hospital. -/
structure Candidate where
  hospital : Option Hospital
  resource : Resource
  last_updated : String
  deriving DecidableEq, Repr

/-- An element of the `data` array of the response. -/
structure NearestRow where
  hospital_id : String
  hospital_name : String
  address : String
  city : String
  phone : String
  distance_km : JsDouble
  estimated_minutes : JsDouble
  google_maps_link : MapsLink
  resource : Resource
  last_updated : String
  deriving DecidableEq, Repr

/-- What the route takes from the platform, which is not embedded.

* `calculateDistance` of `utils/distance.js` at the arguments the route passes
  (the coordinates of the request body, two results of `parseFloat`): the
  haversine distance in kilometres rounded to one decimal, a double that is
  NaN when a coordinate is not a number or when rounding takes the haversine
  term of a pair of nearly antipodal points above 1.
* The built-in `parseFloat`, whose result is a double or NaN.
* `sortInconsistent`, the order in which `Array.prototype.sort` leaves the rows
  when the comparator of the route returns NaN for some pair of them:
  ECMAScript leaves that order to the implementation.

The two laws hold of every engine: its sort rearranges the array, and a
finite double is a whole multiple of `2^-1074`, the spacing of the smallest
doubles. -/
structure Numerics where
  calculateDistance : JsVal → JsVal → JsDouble → JsDouble → JsDouble
  parseFloat : JsVal → JsDouble
  sortInconsistent : List NearestRow → List NearestRow
  sort_perm : ∀ rows, (sortInconsistent rows).Perm rows
  distance_double : ∀ lat1 lon1 lat2 lon2 q,
    calculateDistance lat1 lon1 lat2 lon2 = .fin q → ∃ n : ℤ, q = n * (2 : ℚ) ^ (-1074 : ℤ)

/-- The body of `POST /api/ambulance/nearest`. `min_available` is `none` when
absent and a number otherwise, as the route documents it. -/
structure NearestRequest where
  latitude : JsVal
  longitude : JsVal
  need_type : JsVal
  blood_group : JsVal
  min_available : Option JsNum
  deriving DecidableEq, Repr

/-- The embedding `hospitals(*)` under the filter `.eq('hospitals.is_active', true)`:
a filter on an embedded resource empties the embedding (`hospitals: null`) and
keeps the inventory row. -/
def activeHospital (w : World) (hospital_id : String) : Option Hospital :=
  w.hospitals.find? (fun h => h.id = hospital_id ∧ h.is_active = true)

/-- The blood query of the route,
`.eq('blood_group', blood_group).gte('units_available', min_available)`,
followed by the `data.map` that builds the candidates. A `blood_group` that is
not a string equals no group of the table. -/
def queryBlood (env : Env) (w : World) (blood_group : JsVal) (min_available : JsNum) :
    Except Thrown (List Candidate) :=
  if env.selectError then .error .storeError
  else
    .ok ((w.blood_inventory.filter (fun blood =>
        JsVal.str blood.blood_group = blood_group ∧ min_available ≤ blood.units_available)).map
      (fun blood =>
        { hospital := activeHospital w blood.hospital_id,
          resource := .blood blood.blood_group blood.units_available,
          last_updated := blood.last_updated }))

/-- The bed query of the route,
`.eq('bed_type', need_type).gte('available_beds', min_available)`,
followed by the `data.map` that builds the candidates. A `need_type` that is
not a string equals no `bed_type`. -/
def queryBeds (env : Env) (w : World) (need_type : JsVal) (min_available : JsNum) :
    Except Thrown (List Candidate) :=
  if env.selectError then .error .storeError
  else
    .ok ((w.bed_inventory.filter (fun bed =>
        JsVal.str bed.bed_type = need_type ∧ min_available ≤ bed.available_beds)).map
      (fun bed =>
        { hospital := activeHospital w bed.hospital_id,
          resource := .bed bed.bed_type bed.available_beds bed.total_beds,
          last_updated := bed.last_updated }))

/-- The pass `.filter(h => h.hospital.latitude && h.hospital.longitude)`: reading
a property of a `null` hospital throws. -/
def filterLocated : List Candidate → Except Thrown (List Candidate)
  | [] => .ok []
  | h :: rest =>
    match h.hospital with
    | none => .error .typeError
    | some hospital =>
      match filterLocated rest with
      | .error e => .error e
      | .ok kept =>
        if hospital.latitude.truthy && hospital.longitude.truthy then .ok (h :: kept)
        else .ok kept

/-- The callback of `.map(h => ...)` that computes the distance, the travel
time and the link of one candidate. -/
def toRow (num : Numerics) (latitude longitude : JsVal) (h : Candidate) :
    Except Thrown NearestRow :=
  match h.hospital with
  | none => .error .typeError
  | some hospital =>
    let distance_km := num.calculateDistance latitude longitude
      (num.parseFloat hospital.latitude) (num.parseFloat hospital.longitude)
    let estimated_minutes := calculateTravelTime distance_km
    let google_maps_link := getGoogleMapsLink latitude longitude
      (num.parseFloat hospital.latitude) (num.parseFloat hospital.longitude)
    .ok { hospital_id := hospital.id, hospital_name := hospital.name,
          address := hospital.address, city := hospital.city, phone := hospital.phone,
          distance_km := distance_km, estimated_minutes := estimated_minutes,
          google_maps_link := google_maps_link, resource := h.resource,
          last_updated := h.last_updated }

/-- The pass `.map(h => ...)` over the located candidates. -/
def toRows (num : Numerics) (latitude longitude : JsVal) :
    List Candidate → Except Thrown (List NearestRow)
  | [] => .ok []
  | h :: rest =>
    match toRow num latitude longitude h with
    | .error e => .error e
    | .ok row =>
      match toRows num latitude longitude rest with
      | .error e => .error e
      | .ok rows => .ok (row :: rows)

/-- The built-in `Array.prototype.sort(compareFn)` for a comparator that returns
a number. A comparator that returns NaN for some pair of the elements is not a
consistent comparator, and the order is then the one of the implementation,
`implementationDefined`. Otherwise the sort is stable (ECMAScript 2019), and for
the comparator of the route, a difference of two numbers, its result is the one
of a stable insertion sort that puts `a` before `b` when `compareFn(a, b) ≤ 0`. -/
def jsSort {α : Type} (implementationDefined : List α → List α)
    (compareFn : α → α → JsDouble) (xs : List α) : List α :=
  if xs.any (fun a => xs.any (fun b => (compareFn a b).isNaN)) then implementationDefined xs
  else xs.insertionSort (fun a b => compareFn a b ≤ JsDouble.fin 0)

/-- The built-in `Array.prototype.slice(start, end)` for `0 ≤ start ≤ end`. -/
def jsSlice {α : Type} (start stop : Nat) (xs : List α) : List α :=
  (xs.drop start).take (stop - start)

/-- The lines `hospitalsWithDistance.sort((a, b) => a.distance_km - b.distance_km)
.slice(0, 5)`. -/
def nearestOf (num : Numerics) (hospitalsWithDistance : List NearestRow) : List NearestRow :=
  jsSlice 0 5
    (jsSort num.sortInconsistent (fun a b => a.distance_km.sub b.distance_km)
      hospitalsWithDistance)

/-- The response of `POST /api/ambulance/nearest`:
`res.status(status).json({ error })` or
`res.json({ success: true, count, search_params, data })`. -/
inductive NearestResponse where
  | error (status : Nat) (error : String)
  | success (count : Nat) (latitude longitude need_type blood_group : JsVal)
      (min_available : JsNum) (data : List NearestRow)
  deriving DecidableEq, Repr

/-- The lines from `// Calculate distances` to the `slice`. -/
def rank (num : Numerics) (latitude longitude : JsVal) (hospitals : List Candidate) :
    Except Thrown (List NearestRow) :=
  match filterLocated hospitals with
  | .error e => .error e
  | .ok located =>
    match toRows num latitude longitude located with
    | .error e => .error e
    | .ok hospitalsWithDistance => .ok (nearestOf num hospitalsWithDistance)

/-- The rest of the `try` block once the store has answered the query, and the
`catch` around it. -/
def respond (num : Numerics) (req : NearestRequest) (min_available : JsNum)
    (queried : Except Thrown (List Candidate)) : NearestResponse :=
  match queried with
  | .error _ => .error 500 "Failed to find nearest hospitals"
  | .ok hospitals =>
    match rank num req.latitude req.longitude hospitals with
    | .error _ => .error 500 "Failed to find nearest hospitals"
    | .ok nearest =>
      .success nearest.length req.latitude req.longitude req.need_type req.blood_group
        min_available nearest

/-- The handler of `POST /api/ambulance/nearest`. -/
def nearest (env : Env) (num : Numerics) (w : World) (req : NearestRequest) : NearestResponse :=
  let min_available : JsNum := req.min_available.getD 1
  if !req.latitude.truthy || !req.longitude.truthy || !req.need_type.truthy then
    .error 400 "Missing required fields: latitude, longitude, need_type"
  else if req.need_type = .str "blood" then
    -- Blood requirement
    if !req.blood_group.truthy then
      .error 400 "blood_group required for blood need_type"
    else
      respond num req min_available (queryBlood env w req.blood_group min_available)
  else
    -- Bed requirement
    respond num req min_available (queryBeds env w req.need_type min_available)

/-- The callback `h => h.hospital.latitude && h.hospital.longitude` on a
candidate, `false` when there is no hospital to read. -/
def hasLocation (h : Candidate) : Bool :=
  match h.hospital with
  | none => false
  | some hospital => hospital.latitude.truthy && hospital.longitude.truthy

/-- The rows the `.map` pass builds from the candidates that pass the filter, in
the order of the candidates. -/
def rowsOf (num : Numerics) (latitude longitude : JsVal) (hospitals : List Candidate) :
    List NearestRow :=
  (hospitals.filter (fun h => hasLocation h)).filterMap
    (fun h => (toRow num latitude longitude h).toOption)

/-- The request passes the two presence checks of the route: `latitude`,
`longitude` and `need_type` are truthy, and so is `blood_group` when `need_type`
is `'blood'`. -/
def NearestRequest.passesChecks (req : NearestRequest) : Bool :=
  req.latitude.truthy && req.longitude.truthy && req.need_type.truthy &&
    (!decide (req.need_type = .str "blood") || req.blood_group.truthy)

/-- The store query the route issues for a request that passes the checks,
with the candidates built from its result. -/
def queried (env : Env) (w : World) (req : NearestRequest) : Except Thrown (List Candidate) :=
  if req.need_type = .str "blood" then
    queryBlood env w req.blood_group (req.min_available.getD 1)
  else
    queryBeds env w req.need_type (req.min_available.getD 1)

/-! ## `routes/alerts.js`: `POST /api/alerts/:id/resolve` -/

/-- The request as the handler of `POST /api/alerts/:id/resolve` sees it, after
the middleware `authenticateUser` and `requireAdmin` set `req.user`. -/
structure ResolveRequest where
  /-- The route parameter `req.params.id`, an id of the `alerts` table. -/
  id : Nat
  /-- The acting principal, `req.user.id`. -/
  user_id : String
  deriving DecidableEq, Repr

/-- A row after `update({ is_resolved: true, resolved_by, resolved_at })`. -/
def Alert.resolved (alert : Alert) (resolved_by resolved_at : String) : Alert :=
  { alert with is_resolved := true, resolved_by := some resolved_by,
               resolved_at := some resolved_at }

/-- The query `from('alerts').update({ is_resolved: true, resolved_by, resolved_at })
.eq('id', id).select().single()`: on success the rows with the id carry the new
values and the updated row is returned; on an error (also when not exactly one
row has the id) nothing is written. -/
def updateAlertSingle (env : Env) (id : Nat) (resolved_by resolved_at : String) :
    Eff Alert := fun w =>
  if env.updateError then (.error .storeError, w)
  else
    match w.alerts.filter (fun a => a.id = id) with
    | [a] =>
      (.ok (a.resolved resolved_by resolved_at),
       { w with alerts := w.alerts.map (fun x =>
           if x.id = id then x.resolved resolved_by resolved_at else x) })
    | _ => (.error .storeError, w)

/-- The response of `POST /api/alerts/:id/resolve`:
`res.status(status).json({ error })` or `res.json({ success: true, data })`. -/
inductive ResolveResponse where
  | error (status : Nat) (error : String)
  | success (data : Alert)
  deriving DecidableEq, Repr

/-- The handler of `POST /api/alerts/:id/resolve`; `now` is the value of
`new Date().toISOString()`. -/
def resolveAlert (env : Env) (now : String) (req : ResolveRequest) :
    World → ResolveResponse × World := fun w =>
  match updateAlertSingle env req.id req.user_id now w with
  | (.ok alert, w') => (.success alert, w')
  | (.error _, w') => (.error 500 "Failed to resolve alert", w')

/-- One resolve operation of a sequence: the state of the collaborators and of
the clock when it arrives, and the request. -/
structure ResolveOp where
  env : Env
  now : String
  req : ResolveRequest

/-- The world after a sequence of resolve operations. -/
def resolveAll : List ResolveOp → World → World
  | [], w => w
  | op :: rest, w => resolveAll rest (resolveAlert op.env op.now op.req w).2

/-- The columns of an alert that the resolve route does not write. -/
def Alert.frame (a : Alert) : Nat × String × String × AlertMessage × String × String :=
  (a.id, a.hospital_id, a.alert_type, a.message, a.severity, a.created_at)

/-! ## `server.js`: the socket server -/

/-- The argument of a `join_city` or `leave_city` message, which the handlers
hand to `socket.join` and `socket.leave` as the client sent it: a value that is
not an array (a city name, any other JSON value, or `undefined` when the
message carries none), or an array of values. In both, `obj` stands for an
object or a nested array, which as a room is equal to no other room. -/
inductive RoomArg where
  | value (v : JsVal)
  | array (vs : List JsVal)
  deriving DecidableEq, Repr

/-- The room `io.to(room)` addresses: the city name, or `undefined`. -/
def roomKey : Option String → JsVal
  | none => .undefined
  | some city => .str city

/-- The state of the socket server: the ids of the connected sockets, the rooms
of the adapter as pairs of a socket id and a room, and the acknowledgements
`joined_city` sent to single sockets. A room is the value it was named by. -/
structure Sockets where
  connected : List String
  rooms : List (String × JsVal)
  joined_city : List (String × RoomArg)
  deriving DecidableEq, Repr

/-- What the socket layer reports to the server: a new connection, one of the
two client messages of a connected socket, or the end of a connection. -/
inductive SocketEvent where
  | connection (id : String)
  | join_city (id : String) (city : RoomArg)
  | leave_city (id : String) (city : RoomArg)
  | disconnect (id : String)
  deriving DecidableEq, Repr

/-- The socket is added to one room: the rooms of a socket are a set, in which
an object is a new room each time. -/
def Sockets.joinRoom (s : Sockets) (id : String) (room : JsVal) : Sockets :=
  if room ≠ .obj ∧ (id, room) ∈ s.rooms then s
  else { s with rooms := s.rooms ++ [(id, room)] }

/-- The call `socket.join(rooms)`: an array is a list of rooms to join, any
other value is one room. -/
def Sockets.join (s : Sockets) (id : String) : RoomArg → Sockets
  | .value v => s.joinRoom id v
  | .array vs => vs.foldl (fun joined v => joined.joinRoom id v) s

/-- The call `socket.leave(room)`: the socket is removed from the one room
named, which does nothing when it is not in it; an array or an object is a room
no socket is in. -/
def Sockets.leave (s : Sockets) (id : String) : RoomArg → Sockets
  | .value v =>
    if v = .obj then s else { s with rooms := s.rooms.filter (fun p => p ≠ (id, v)) }
  | .array _ => s

/-- The handlers registered by `io.on('connection', ...)`. A socket is put in
the room of its own id when it connects and taken out of every room when it
disconnects (both by the socket library); `join_city` hands its argument to
`socket.join` and acknowledges with `joined_city`, `leave_city` hands its
argument to `socket.leave`. Messages come from connected sockets only. -/
def onSocketEvent (s : Sockets) : SocketEvent → Sockets
  | .connection id =>
    if id ∈ s.connected then s
    else ({ s with connected := s.connected ++ [id] }).joinRoom id (.str id)
  | .join_city id city =>
    if id ∈ s.connected then
      let joined := s.join id city
      { joined with joined_city := joined.joined_city ++ [(id, city)] }
    else s
  | .leave_city id city =>
    if id ∈ s.connected then s.leave id city else s
  | .disconnect id =>
    { s with connected := s.connected.filter (fun c => c ≠ id),
             rooms := s.rooms.filter (fun p => p.1 ≠ id) }

/-- The server before any connection. -/
def Sockets.start : Sockets := { connected := [], rooms := [], joined_city := [] }

/-- The state after a sequence of events of the socket layer. -/
def Sockets.run (s : Sockets) (events : List SocketEvent) : Sockets :=
  events.foldl onSocketEvent s

/-- The sockets that `io.to(room).emit(event, payload)` delivers to: those that
are in the room when it is called. -/
def receivers (s : Sockets) (room : Option String) : List String :=
  (s.rooms.filter (fun p => p.2 = roomKey room)).map (fun p => p.1)

/-- The city groups of a socket: the rooms it is in, the room of its own id
apart. -/
def cityGroups (s : Sockets) (id : String) : List JsVal :=
  ((s.rooms.filter (fun p => p.1 = id)).map (fun p => p.2)).filter (fun r => r ≠ .str id)

/-- A sequence of events in which every `join_city` of the socket `id` names
one room by a value that is not an array or an object (a city name is a
string), and arrives only while the socket is in no other city group (its
client leaves the old city first). -/
def leavesBeforeJoin (s : Sockets) (id : String) : List SocketEvent → Bool
  | [] => true
  | e :: rest =>
    (match e with
      | .join_city i (.value v) =>
        decide (i ≠ id) ||
          (decide (v ≠ .obj) && (cityGroups s id).all (fun r => decide (r = v)))
      | .join_city i (.array _) => decide (i ≠ id)
      | _ => true) &&
    leavesBeforeJoin (onSocketEvent s e) id rest

/-- The deliveries of a list of emitted events in a state of the socket
server: each event with each socket it is delivered to. -/
def deliveries (s : Sockets) (emitted : List Emit) : List (String × Emit) :=
  emitted.flatMap (fun e => (receivers s e.room).map (fun id => (id, e)))

/-! ## `client/src/utils/helpers.js` -/

/-- The function `getBloodStatusColor(units)` of the client. -/
def getBloodStatusColor (units : JsNum) : String :=
  if units = 0 then "status-critical"
  else if units ≤ 3 then "status-warning"
  else "status-available"

/-- An effect leaves a component of the world as it found it. -/
def Preserves {α β : Type} (f : World → β) (m : Eff α) : Prop :=
  ∀ w, f (m w).2 = f w

/-- Every value an effect returns (rather than throws) satisfies `P`. -/
def Returns {α : Type} (P : α → Prop) (m : Eff α) : Prop :=
  ∀ w a, (m w).1 = .ok a → P a

/-! ## The sort of the V8 engine on a short array

Node.js runs the route on V8, whose `Array.prototype.sort`
(`third_party/v8/builtins/array-sort.tq`) sorts an array of fewer than 64
elements as one run: `CountAndMakeRun` finds the run the array starts with and
`BinaryInsertionSort` inserts the elements after it one by one. The functions
below follow it on lists. They are the instance of `Numerics.sortInconsistent`
in the examples, as the order V8 gives when the comparator returns NaN. -/

/-- The comparison the sort works with: the number `compareFn(x, y)`, a NaN
replaced by `+0` (`SortCompare` of ECMAScript). -/
def sortCompare {α : Type} (compareFn : α → α → JsDouble) (x y : α) : JsDouble :=
  let v := compareFn x y
  if v.isNaN then .fin 0 else v

/-- The loop of `CountAndMakeRun`: the number of elements after the second that
continue the run, each compared with the element before it. -/
def extendRun {α : Type} (compareFn : α → α → JsDouble) (isDescending : Bool) :
    α → List α → Nat
  | _, [] => 0
  | previousElement, currentElement :: rest =>
    let order := sortCompare compareFn currentElement previousElement
    if isDescending then
      if JsDouble.fin 0 ≤ order then 0
      else extendRun compareFn isDescending currentElement rest + 1
    else
      if order < JsDouble.fin 0 then 0
      else extendRun compareFn isDescending currentElement rest + 1

/-- The function `CountAndMakeRun` on the whole array: the length of the run at
its start, which is reversed in place when it is strictly descending. -/
def countAndMakeRun {α : Type} (compareFn : α → α → JsDouble) : List α → List α × Nat
  | [] => ([], 0)
  | [x] => ([x], 1)
  | elementHigh :: elementLow :: rest =>
    let order := sortCompare compareFn elementLow elementHigh
    let isDescending : Bool := decide (order < JsDouble.fin 0)
    let runLength := extendRun compareFn isDescending elementLow rest + 2
    let workArray := elementHigh :: elementLow :: rest
    if isDescending then
      ((workArray.take runLength).reverse ++ workArray.drop runLength, runLength)
    else (workArray, runLength)

/-- The binary search of `BinaryInsertionSort` for the place of `pivot` among
the elements `sorted` before it, between `left` and `right`. -/
def insertionPoint {α : Type} (compareFn : α → α → JsDouble) (sorted : List α) (pivot : α) :
    Nat → Nat → Nat → Nat
  | 0, left, _ => left
  | fuel + 1, left, right =>
    if left < right then
      let mid := left + (right - left) / 2
      match sorted.get? mid with
      | none => left
      | some element =>
        if sortCompare compareFn pivot element < JsDouble.fin 0 then
          insertionPoint compareFn sorted pivot fuel left mid
        else insertionPoint compareFn sorted pivot fuel (mid + 1) right
    else left

/-- One turn of the outer loop of `BinaryInsertionSort`: `pivot` is moved to its
place among the elements before it. -/
def insertPivot {α : Type} (compareFn : α → α → JsDouble) (sorted : List α) (pivot : α) :
    List α :=
  let left := insertionPoint compareFn sorted pivot sorted.length 0 sorted.length
  sorted.take left ++ pivot :: sorted.drop left

/-- The function `BinaryInsertionSort`: the elements after the run are inserted
from left to right. -/
def binaryInsertionSort {α : Type} (compareFn : α → α → JsDouble) (sorted pending : List α) :
    List α :=
  pending.foldl (insertPivot compareFn) sorted

/-- The sort of V8 for an array of fewer than 64 elements. -/
def v8Sort {α : Type} (compareFn : α → α → JsDouble) (xs : List α) : List α :=
  let run := countAndMakeRun compareFn xs
  binaryInsertionSort compareFn (run.1.take run.2) (run.1.drop run.2)

/-! ## Concrete instances -/

/-- A configuration in which every collaborator works. -/
def demoEnv : Env :=
  { DISTRICT_OFFICER_PHONE := some "+911234567890", TWILIO_PHONE_NUMBER := some "+15005550006",
    client := true, smsError := none, selectError := false, updateError := false,
    logError := false, alertError := fun _ => false, io := true }

/-- A hospital of the demo world. -/
def demoHospital (id : String) (latitude longitude : JsVal) : Hospital :=
  { id := id, name := id, address := "", city := "Mumbai", phone := "",
    latitude := latitude, longitude := longitude, is_active := true }

/-- A bed record of the demo world. -/
def demoBed (id hospital_id bed_type : String) (total_beds available_beds : JsNum) : BedRow :=
  { id := id, hospital_id := hospital_id, bed_type := bed_type, total_beds := total_beds,
    available_beds := available_beds, last_updated := "", updated_by := none }

/-- A small world: two hospitals, three bed records. -/
def demoWorld : World :=
  { hospitals := [demoHospital "kem" (.num 19) (.num 73), demoHospital "sion" (.num 20) (.num 73)],
    bed_inventory := [demoBed "b1" "kem" "ICU" 10 3, demoBed "b2" "sion" "ICU" 8 4,
                      demoBed "b3" "kem" "general" 50 20],
    blood_inventory := [], update_logs := [], alerts := [], sms := [], emitted := [] }

/-- A staff member of hospital `kem` asks for 11 ICU beds where the record has 10. -/
def demoOverCapacity : BedPatchRequest :=
  { id := "b1", available_beds := .num 11, staff_hospital_id := "kem", user_id := "u1" }

/-- A staff member of hospital `kem` sets the ICU record to 4 available beds. -/
def demoUpdate : BedPatchRequest :=
  { id := "b1", available_beds := .num 4, staff_hospital_id := "kem", user_id := "u1" }

/-- The ICU record of hospital `kem` after `demoUpdate`. -/
def demoUpdated : BedRow :=
  { demoBed "b1" "kem" "ICU" 10 4 with updated_by := some "u1" }

/-- The alert `demoUpdate` raises. -/
def demoWarning : Alert :=
  { id := 0, hospital_id := "kem", alert_type := "bed_shortage",
    message := .icuWarning 4 "kem", severity := "high", is_resolved := false }

/-- A stand-in for `parseFloat` in the examples: a number is returned as it
is, and every other value gives NaN, as `parseFloat('n/a')` does. -/
def demoParseFloat : JsVal → JsDouble
  | .num (.fin q) => .fin q
  | .num .posInf => .posInf
  | .num .negInf => .negInf
  | _ => .nan

/-- A stand-in for `calculateDistance` in the examples: NaN when one of the
four coordinates is not a finite number, as in the route, and otherwise the
whole degrees of latitude between the two points in place of the kilometres. -/
def demoDistance (lat1 lon1 : JsVal) (lat2 lon2 : JsDouble) : JsDouble :=
  match lat1, lon1, lat2.finite?, lon2.finite? with
  | .num (.fin p), .num (.fin _), some q, some _ => .fin (|⌊q⌋ - ⌊p⌋| : ℤ)
  | _, _, _, _ => .nan

/-- The platform of the examples: the two stand-ins, and the sort of V8 for the
order under a comparator that returns NaN. -/
def demoNumerics : Numerics :=
  { calculateDistance := demoDistance,
    parseFloat := demoParseFloat,
    sortInconsistent := v8Sort (fun a b => a.distance_km.sub b.distance_km),
    sort_perm := fun rows => by
      have hinsert : ∀ (pending sorted : List NearestRow),
          (binaryInsertionSort (fun a b => a.distance_km.sub b.distance_km) sorted
            pending).Perm (sorted ++ pending) := by
        intro pending
        induction pending with
        | nil =>
          intro sorted
          rw [List.append_nil]
          exact List.Perm.refl _
        | cons pivot rest ih =>
          intro sorted
          refine (ih _).trans ?_
          unfold insertPivot
          dsimp only
          have h1 : (List.take
              (insertionPoint (fun a b => a.distance_km.sub b.distance_km) sorted pivot
                sorted.length 0 sorted.length) sorted ++
              pivot :: List.drop
                (insertionPoint (fun a b => a.distance_km.sub b.distance_km) sorted pivot
                  sorted.length 0 sorted.length) sorted).Perm (sorted ++ [pivot]) := by
            refine List.perm_middle.trans ?_
            rw [List.take_append_drop]
            exact (List.perm_append_singleton pivot sorted).symm
          refine (List.Perm.append_right rest h1).trans ?_
          rw [List.append_assoc]
          rfl
      have hrun : ∀ xs : List NearestRow,
          (countAndMakeRun (fun a b => a.distance_km.sub b.distance_km) xs).1.Perm xs := by
        intro xs
        match xs with
        | [] => exact List.Perm.refl _
        | [x] => exact List.Perm.refl _
        | x :: y :: rest =>
          unfold countAndMakeRun
          dsimp only
          split_ifs
          · refine (List.Perm.append_right _ (List.reverse_perm _)).trans ?_
            rw [List.take_append_drop]
          · exact List.Perm.refl _
      unfold v8Sort
      dsimp only
      refine (hinsert _ _).trans ?_
      rw [List.take_append_drop]
      exact hrun rows,
    distance_double := fun lat1 lon1 lat2 lon2 q h => by
      unfold demoDistance at h
      split at h
      · next p _ a _ _ _ =>
        cases h
        refine ⟨|⌊a⌋ - ⌊p⌋| * 2 ^ 1074, ?_⟩
        have h2 : ((2 : ℚ) ^ (1074 : ℕ)) * (2 : ℚ) ^ (-1074 : ℤ) = 1 := by
          have h3 : (2 : ℚ) ^ (-1074 : ℤ) = ((2 : ℚ) ^ (1074 : ℕ))⁻¹ := by
            rw [← zpow_natCast, ← zpow_neg]
            rfl
          rw [h3]
          exact mul_inv_cancel₀ (pow_ne_zero _ two_ne_zero)
        rw [Int.cast_mul, Int.cast_pow, Int.cast_ofNat, mul_assoc, h2, mul_one]
      · cases h }

/-- A dispatcher at (18, 73) asks for an ICU bed. -/
def demoRequest : NearestRequest :=
  { latitude := .num 18, longitude := .num 73, need_type := .str "ICU",
    blood_group := .undefined, min_available := none }

/-- The candidates the store returns for `demoRequest` in the demo world. -/
def demoCandidates : List Candidate :=
  [{ hospital := some (demoHospital "kem" (.num 19) (.num 73)),
     resource := .bed "ICU" 3 10, last_updated := "" },
   { hospital := some (demoHospital "sion" (.num 20) (.num 73)),
     resource := .bed "ICU" 4 8, last_updated := "" }]

/-- The `data` array of a response, empty for an error response. -/
def NearestResponse.data : NearestResponse → List NearestRow
  | .error _ _ => []
  | .success _ _ _ _ _ _ data => data

/-- Seven hospitals north of the position (18, 73) of `demoRequest`; with
`demoNumerics` their distances from it are 30, 20, 20, 10, 20, 20 and 20. -/
def tieHospitals : List Hospital :=
  [demoHospital "h1" (.num 48) (.num 73), demoHospital "h2" (.num 38) (.num 73),
   demoHospital "h3" (.num 38) (.num 73), demoHospital "h4" (.num 28) (.num 73),
   demoHospital "h5" (.num 38) (.num 73), demoHospital "h6" (.num 38) (.num 73),
   demoHospital "h7" (.num 38) (.num 73)]

/-- A world in which each of the seven hospitals has 3 of 10 ICU beds available. -/
def tieWorld : World :=
  { hospitals := tieHospitals,
    bed_inventory := tieHospitals.map (fun h => demoBed h.id h.id "ICU" 10 3),
    blood_inventory := [], update_logs := [], alerts := [], sms := [], emitted := [] }

/-- The candidates the store returns for `demoRequest` in `tieWorld`. -/
def tieCandidates : List Candidate :=
  tieHospitals.map (fun h =>
    { hospital := some h, resource := .bed "ICU" 3 10, last_updated := "" })

/-- A request whose latitude is a text that is no number:
`{ latitude: 'abc', longitude: 73, need_type: 'ICU' }`. The text is truthy, and
every distance computed from it is NaN. -/
def textRequest : NearestRequest :=
  { latitude := .str "abc", longitude := .num 73, need_type := .str "ICU",
    blood_group := .undefined, min_available := none }

/-- Three hospitals at 5 and 3 degrees from the position of `demoRequest`, the
second with a latitude that is no number: `parseFloat('n/a')` is NaN, and so is
its distance. -/
def nanHospitals : List Hospital :=
  [demoHospital "n1" (.num 23) (.num 73), demoHospital "n2" (.str "n/a") (.num 73),
   demoHospital "n3" (.num 21) (.num 73)]

/-- A world in which each of the three hospitals has 3 of 10 ICU beds available. -/
def nanWorld : World :=
  { hospitals := nanHospitals,
    bed_inventory := nanHospitals.map (fun h => demoBed h.id h.id "ICU" 10 3),
    blood_inventory := [], update_logs := [], alerts := [], sms := [], emitted := [] }

/-- The candidates the store returns for `demoRequest` in `nanWorld`. -/
def nanCandidates : List Candidate :=
  nanHospitals.map (fun h =>
    { hospital := some h, resource := .bed "ICU" 3 10, last_updated := "" })

/-- Seven hospitals: `m1` and `m4` have a latitude that is no number, `m2` is at
2 degrees from the position of `demoRequest`, and `m3`, `m5`, `m6` and `m7` are
at 1 degree. -/
def mixedHospitals : List Hospital :=
  [demoHospital "m1" (.str "n/a") (.num 73), demoHospital "m2" (.num 20) (.num 73),
   demoHospital "m3" (.num 19) (.num 73), demoHospital "m4" (.str "n/a") (.num 73),
   demoHospital "m5" (.num 19) (.num 73), demoHospital "m6" (.num 19) (.num 73),
   demoHospital "m7" (.num 19) (.num 73)]

/-- A world in which each of the seven hospitals has 3 of 10 ICU beds available. -/
def mixedWorld : World :=
  { hospitals := mixedHospitals,
    bed_inventory := mixedHospitals.map (fun h => demoBed h.id h.id "ICU" 10 3),
    blood_inventory := [], update_logs := [], alerts := [], sms := [], emitted := [] }

/-- The candidates the store returns for `demoRequest` in `mixedWorld`. -/
def mixedCandidates : List Candidate :=
  mixedHospitals.map (fun h =>
    { hospital := some h, resource := .bed "ICU" 3 10, last_updated := "" })

/-- A request that supplies every required field, from a position on the
equator: `{ latitude: 0, longitude: 73, need_type: 'ICU' }`. -/
def equatorRequest : NearestRequest :=
  { latitude := .num 0, longitude := .num 73, need_type := .str "ICU",
    blood_group := .undefined, min_available := none }

/-- A world whose only hospital lies on the equator, at latitude 0 and
longitude 9, and has 3 of 10 ICU beds available. -/
def equatorWorld : World :=
  { hospitals := [demoHospital "equator" (.num 0) (.num 9)],
    bed_inventory := [demoBed "e1" "equator" "ICU" 10 3],
    blood_inventory := [], update_logs := [], alerts := [], sms := [], emitted := [] }

/-- A dispatcher at (1, 9) asks for an ICU bed. -/
def equatorSearch : NearestRequest :=
  { latitude := .num 1, longitude := .num 9, need_type := .str "ICU",
    blood_group := .undefined, min_available := none }

/-- A small exact arithmetic on the rationals that satisfies the laws above,
with low-order stand-ins for the `Math` functions (`sin x` as `x - x³/6`,
`cos x` as `1 - x²/2`, `sqrt x` as one Newton step from 1, `atan2(y, x)` as
`y / x`, `π` as `355/113`); every value is finite. It is a model of the laws,
not of the doubles. -/
def approxArith : JsArith ℚ :=
  { lit := fun n => (n : ℚ),
    PI := 355 / 113,
    add := fun x y => x + y,
    sub := fun x y => x - y,
    mul := fun x y => x * y,
    div := fun x y => x / y,
    neg := fun x => -x,
    sin := fun x => x - x ^ 3 / 6,
    cos := fun x => 1 - x ^ 2 / 2,
    sqrt := fun x => if x ≤ 0 then 0 else (x + 1) / 2,
    atan2 := fun y x => y / x,
    round := fun x => (⌊x + 1 / 2⌋ : ℤ),
    isFinite := fun _ => true,
    le := fun x y => decide (x ≤ y) }

/-- An environment in which the store refuses every update. -/
def updateFailsEnv : Env := { demoEnv with updateError := true }

/-- An environment with an officer phone but no Twilio client. -/
def noClientEnv : Env := { demoEnv with client := false }

/-- An environment without `DISTRICT_OFFICER_PHONE`. -/
def noPhoneEnv : Env := { demoEnv with DISTRICT_OFFICER_PHONE := none }

/-- An environment in which the SMS gateway rejects every message. -/
def smsFailsEnv : Env := { demoEnv with smsError := some "Authenticate" }

/-- A blood record of the demo worlds. -/
def demoBlood (id hospital_id blood_group : String) (units_available units_reserved : JsNum) :
    BloodRow :=
  { id := id, hospital_id := hospital_id, blood_group := blood_group,
    units_available := units_available, units_reserved := units_reserved,
    last_updated := "", updated_by := none }

/-- The demo world with two blood records added. -/
def bloodWorld : World :=
  { demoWorld with
    blood_inventory := [demoBlood "k1" "kem" "O-" 6 1, demoBlood "s1" "sion" "A+" 9 0] }

/-- A staff member of hospital `kem` sets the `O-` record to 2 units. -/
def demoBloodUpdate : BloodPatchRequest :=
  { id := "k1", units_available := .num 2, units_reserved := .undefined,
    staff_hospital_id := "kem", user_id := "u1" }

/-- A staff member of hospital `sion` addresses the `O-` record of hospital `kem`. -/
def demoBloodForeign : BloodPatchRequest :=
  { id := "k1", units_available := .num 2, units_reserved := .undefined,
    staff_hospital_id := "sion", user_id := "u2" }

/-- A staff member of hospital `sion` addresses the ICU record of hospital `kem`. -/
def demoBedForeign : BedPatchRequest :=
  { id := "b1", available_beds := .num 4, staff_hospital_id := "sion", user_id := "u2" }

/-- A bed request whose value is a string. -/
def demoBedText : BedPatchRequest :=
  { id := "b1", available_beds := .str "4", staff_hospital_id := "kem", user_id := "u1" }

/-- A blood request whose value is negative. -/
def demoBloodNegative : BloodPatchRequest :=
  { id := "k1", units_available := .num (.fin (-1)), units_reserved := .undefined,
    staff_hospital_id := "kem", user_id := "u1" }

/-! ## Instances for the pipeline order and the best-effort steps -/

/-- An environment in which the store refuses every insert into `alerts`. -/
def alertFailsEnv : Env := { demoEnv with alertError := fun _ => true }

/-- The object the bed route inserts into `update_logs`. -/
def bedLogEntry (req : BedPatchRequest) (v : JsNum) (currentBed : CurrentBed) : UpdateLog :=
  { hospital_id := currentBed.row.hospital_id, update_type := "bed",
    field_changed := currentBed.row.bed_type, old_value := currentBed.row.available_beds,
    new_value := v, changed_by := req.user_id }

/-- The object the blood route inserts into `update_logs`. -/
def bloodLogEntry (req : BloodPatchRequest) (v : JsNum) (currentBlood : CurrentBlood) :
    UpdateLog :=
  { hospital_id := currentBlood.row.hospital_id, update_type := "blood",
    field_changed := currentBlood.row.blood_group,
    old_value := currentBlood.row.units_available,
    new_value := v, changed_by := req.user_id }

/-- The demo world after `demoUpdate` has been written. -/
def demoWorldUpdated : World :=
  { demoWorld with
    bed_inventory := [demoUpdated, demoBed "b2" "sion" "ICU" 8 4,
                      demoBed "b3" "kem" "general" 50 20] }

/-- The demo world after `demoUpdate` has been written and logged. -/
def demoWorldLogged : World :=
  { demoWorldUpdated with
    update_logs := [{ hospital_id := "kem", update_type := "bed", field_changed := "ICU",
                      old_value := 3, new_value := 4, changed_by := "u1" }] }

/-- The blood world after `demoBloodUpdate` has been written. -/
def bloodWorldUpdated : World :=
  { bloodWorld with
    blood_inventory := [{ demoBlood "k1" "kem" "O-" 2 1 with updated_by := some "u1" },
                        demoBlood "s1" "sion" "A+" 9 0] }

/-- The blood world after `demoBloodUpdate` has been written and logged. -/
def bloodWorldLogged : World :=
  { bloodWorldUpdated with
    update_logs := [{ hospital_id := "kem", update_type := "blood", field_changed := "O-",
                      old_value := 6, new_value := 2, changed_by := "u1" }] }

/-- A staff member of hospital `sion` asks for 11 ICU beds on the record of
hospital `kem`, which has 10. -/
def demoOverForeign : BedPatchRequest :=
  { id := "b1", available_beds := .num 11, staff_hospital_id := "sion", user_id := "u2" }

/-- A staff member of hospital `kem` sets the `O-` record to 2 units and its
reserved units to 0. -/
def demoBloodReserveZero : BloodPatchRequest :=
  { id := "k1", units_available := .num 2, units_reserved := .num 0,
    staff_hospital_id := "kem", user_id := "u1" }

/-! ## Instances for the resolve route -/

/-- An alert of the demo worlds. -/
def demoAlert (id : Nat) (hospital_id : String) (message : AlertMessage) (severity : String) :
    Alert :=
  { id := id, hospital_id := hospital_id, alert_type := "bed_shortage", message := message,
    severity := severity, is_resolved := false, created_at := "2024-05-01T10:00:00.000Z" }

/-- The demo world with two unresolved alerts, of ids 0 and 1. -/
def alertWorld : World :=
  { demoWorld with
    alerts := [demoAlert 0 "kem" (.icuWarning 4 "kem") "high",
               demoAlert 1 "sion" (.icuCritical 1 "sion") "critical"] }

/-- An admin resolves the alert of id 1. -/
def demoResolve : ResolveRequest := { id := 1, user_id := "admin" }

/-- An admin resolves an alert id that no row has. -/
def demoResolveMissing : ResolveRequest := { id := 7, user_id := "admin" }

/-- Two resolve operations on the alert of id 1, by two admins, and one on a
missing id. -/
def demoResolveOps : List ResolveOp :=
  [{ env := demoEnv, now := "2024-05-02T08:00:00.000Z", req := demoResolve },
   { env := demoEnv, now := "2024-05-02T09:00:00.000Z", req := demoResolveMissing },
   { env := demoEnv, now := "2024-05-03T08:00:00.000Z", req := { id := 1, user_id := "root" } }]

/-! ## Instances for the socket server -/

/-- Two sockets connect; `s1` joins Pune and `s2` joins Mumbai. -/
def twoCities : List SocketEvent :=
  [.connection "s1", .connection "s2", .join_city "s1" (.value (.str "Pune")),
   .join_city "s2" (.value (.str "Mumbai"))]

/-- A socket joins Pune and then Mumbai without leaving Pune. -/
def switchWithoutLeave : List SocketEvent :=
  [.connection "s1", .join_city "s1" (.value (.str "Pune")),
   .join_city "s1" (.value (.str "Mumbai"))]

/-- A socket that is in no city group sends one `join_city` whose argument is
the array `['Pune', 'Mumbai']`. -/
def joinArray : List SocketEvent :=
  [.connection "s1", .join_city "s1" (.array [.str "Pune", .str "Mumbai"])]

/-- A socket joins Pune, leaves it and joins Mumbai, as the client page does
when the selected city changes. -/
def switchWithLeave : List SocketEvent :=
  [.connection "s1", .join_city "s1" (.value (.str "Pune")),
   .leave_city "s1" (.value (.str "Pune")), .join_city "s1" (.value (.str "Mumbai"))]

/-! ## Counting the invocations of the dispatcher -/

/-- Whether the dispatcher hands a message to the SMS gateway when it is
invoked: the officer phone is set, the Twilio client exists and the gateway
accepts the message. -/
def dispatcherWorks (env : Env) : Bool :=
  !envFalsy env.DISTRICT_OFFICER_PHONE && env.client && env.smsError.isNone

/-- The number of alerts of severity `'critical'` in a list. -/
def criticalCount (alerts : List Alert) : Nat :=
  (alerts.filter (fun a => a.severity = "critical")).length

/-- What a step of a threshold check does to the alerts table and to the SMS
gateway: it appends the alerts `created`, hands over one message for each
critical one of them when the dispatcher works and none otherwise, and returns,
if it returns, the alerts it was given followed by the created ones. -/
def Tracks (env : Env) (given : List Alert) (m : Eff (List Alert)) : Prop :=
  ∀ w, ∃ created,
    (m w).2.alerts = w.alerts ++ created ∧
    (m w).2.sms.length =
      w.sms.length + (if dispatcherWorks env then criticalCount created else 0) ∧
    ∀ alerts, (m w).1 = .ok alerts → alerts = given ++ created

/-! # Theorems -/

/-! ## Numbers -/

namespace JsNum

theorem ofNat_eq_fin (n : Nat) : (OfNat.ofNat n : JsNum) = JsNum.fin (n : ℚ) := rfl

theorem lt_def (a b : JsNum) : a < b ↔ blt a b = true := Iff.rfl

theorem le_def (a b : JsNum) : a ≤ b ↔ ble a b = true := Iff.rfl

theorem not_blt (a b : JsNum) : ¬ a < b ↔ b ≤ a := by
  cases a <;> cases b <;> simp [lt_def, le_def, blt, ble]

theorem not_ble (a b : JsNum) : ¬ a ≤ b ↔ b < a := by
  cases a <;> cases b <;> simp [lt_def, le_def, blt, ble]

theorem ble_trans {a b c : JsNum} (h₁ : a ≤ b) (h₂ : b ≤ c) : a ≤ c := by
  cases a <;> cases b <;> cases c <;> simp_all [lt_def, le_def, ble]
  exact le_trans h₁ h₂

theorem blt_of_blt_of_ble {a b c : JsNum} (h₁ : a < b) (h₂ : b ≤ c) : a < c := by
  cases a <;> cases b <;> cases c <;> simp_all [lt_def, le_def, ble, blt]
  exact lt_of_lt_of_le h₁ h₂

theorem blt_of_ble_of_blt {a b c : JsNum} (h₁ : a ≤ b) (h₂ : b < c) : a < c := by
  cases a <;> cases b <;> cases c <;> simp_all [lt_def, le_def, ble, blt]
  exact lt_of_le_of_lt h₁ h₂

theorem blt_asymm {a b : JsNum} (h₁ : a < b) (h₂ : b < a) : False := by
  cases a <;> cases b <;> simp_all [lt_def, blt]
  exact lt_asymm h₁ h₂

theorem ne_of_blt {a b : JsNum} (h : a < b) : a ≠ b := by
  rintro rfl
  cases a <;> simp_all [lt_def, blt]

end JsNum

/-! ## Threshold checks -/

theorem createAlert_run (env : Env) (hok : ∀ k, env.alertError k = false)
    (hospitalId alertType : String) (message : AlertMessage) (severity : String) (w : World) :
    createAlert env hospitalId alertType message severity w =
      (.ok { id := w.alerts.length, hospital_id := hospitalId, alert_type := alertType,
             message := message, severity := severity, is_resolved := false },
       { w with alerts := w.alerts ++ [{ id := w.alerts.length, hospital_id := hospitalId,
                                         alert_type := alertType, message := message,
                                         severity := severity, is_resolved := false }] }) := by
  simp [createAlert, hok]

theorem sendCriticalAlert_alerts (env : Env) (hospitalName : String) (m : EscalationText)
    (w : World) : (sendCriticalAlert env hospitalName m w).2.alerts = w.alerts := by
  unfold sendCriticalAlert sendSMS
  cases env.DISTRICT_OFFICER_PHONE <;> simp
  split_ifs <;> simp
  split <;> simp

/-- The alerts `checkBedThresholds` returns when the store accepts the inserts. -/
theorem checkBedThresholds_run (env : Env) (hok : ∀ k, env.alertError k = false) (w : World)
    (hospitalId bedType hospitalName : String) (n : JsNum) :
    (checkBedThresholds env hospitalId bedType n hospitalName w).1 = .ok
      ((if bedType = "ICU" ∧ n < 2 then
          [{ id := w.alerts.length, hospital_id := hospitalId, alert_type := "bed_shortage",
             message := .icuCritical n hospitalName, severity := "critical",
             is_resolved := false }]
        else if bedType = "ICU" ∧ n < 5 then
          [{ id := w.alerts.length, hospital_id := hospitalId, alert_type := "bed_shortage",
             message := .icuWarning n hospitalName, severity := "high", is_resolved := false }]
        else []) ++
       (if n = 0 then
          [{ id := w.alerts.length + (if bedType = "ICU" ∧ n < 5 then 1 else 0),
             hospital_id := hospitalId, alert_type := "bed_full",
             message := .bedsFull bedType hospitalName, severity := "critical",
             is_resolved := false }]
        else [])) := by
  have h02 : (0 : JsNum) < 2 := by decide
  have h05 : (0 : JsNum) < 5 := by decide
  unfold checkBedThresholds
  by_cases h0 : n = 0
  · subst h0
    by_cases hb : bedType = "ICU"
    · subst hb
      simp [h02, h05, bind, pure, createAlert_run env hok, THRESHOLDS.ICU_CRITICAL,
        THRESHOLDS.ICU_HIGH, THRESHOLDS.ANY_BED_CRITICAL, sendCriticalAlert_alerts]
    · simp [hb, bind, pure, createAlert_run env hok, THRESHOLDS.ICU_CRITICAL,
        THRESHOLDS.ICU_HIGH, THRESHOLDS.ANY_BED_CRITICAL, sendCriticalAlert_alerts]
  · by_cases hb : bedType = "ICU"
    · subst hb
      by_cases h1 : n < 2 <;> by_cases h2 : n < 5 <;>
        simp [h0, h1, h2, bind, pure, createAlert_run env hok, THRESHOLDS.ICU_CRITICAL,
          THRESHOLDS.ICU_HIGH, THRESHOLDS.ANY_BED_CRITICAL, sendCriticalAlert_alerts]
    · simp [h0, hb, bind, pure, createAlert_run env hok, THRESHOLDS.ICU_CRITICAL,
        THRESHOLDS.ICU_HIGH, THRESHOLDS.ANY_BED_CRITICAL, sendCriticalAlert_alerts]

/-- The alerts `checkBloodThresholds` returns when the store accepts the inserts. -/
theorem checkBloodThresholds_run (env : Env) (hok : ∀ k, env.alertError k = false) (w : World)
    (hospitalId bloodGroup hospitalName : String) (u : JsNum) :
    (checkBloodThresholds env hospitalId bloodGroup u hospitalName w).1 = .ok
      (if u = 0 then
          [{ id := w.alerts.length, hospital_id := hospitalId, alert_type := "blood_shortage",
             message := .bloodOut bloodGroup hospitalName, severity := "critical",
             is_resolved := false }]
        else if u ≤ 3 then
          [{ id := w.alerts.length, hospital_id := hospitalId, alert_type := "blood_shortage",
             message := .bloodWarning u bloodGroup hospitalName, severity := "high",
             is_resolved := false }]
        else []) := by
  unfold checkBloodThresholds
  by_cases h0 : u = 0
  · subst h0
    simp [bind, pure, createAlert_run env hok, THRESHOLDS.BLOOD_CRITICAL]
  · by_cases h3 : u ≤ 3 <;>
      simp [h0, h3, bind, pure, createAlert_run env hok, THRESHOLDS.BLOOD_CRITICAL,
        THRESHOLDS.BLOOD_HIGH]

/-- C2. For bed type `'ICU'` and every available count `n` (the store accepting
the inserts), `checkBedThresholds` returns exactly one `'bed_shortage'` alert
when `n < 5` and none when `n ≥ 5`; that alert is `'critical'` exactly when
`n < 2` and `'high'` exactly when `2 ≤ n < 5`; at `n = 4` the whole result is
one `'high'` `'bed_shortage'`; for a bed type other than `'ICU'` no
`'bed_shortage'` alert is returned for any `n`. -/
theorem checkBedThresholds_bed_shortage (env : Env) (hok : ∀ k, env.alertError k = false)
    (w : World) (hospitalId hospitalName : String) (n : JsNum) :
    (∃ alerts, (checkBedThresholds env hospitalId "ICU" n hospitalName w).1 = .ok alerts ∧
      (n < 5 → (alerts.filter (fun a => a.alert_type = "bed_shortage")).length = 1) ∧
      (5 ≤ n → alerts.filter (fun a => a.alert_type = "bed_shortage") = []) ∧
      (∀ a ∈ alerts, a.alert_type = "bed_shortage" →
        (a.severity = "critical" ↔ n < 2) ∧ (a.severity = "high" ↔ 2 ≤ n ∧ n < 5)) ∧
      (n = 4 → alerts.map (fun a => (a.alert_type, a.severity)) = [("bed_shortage", "high")])) ∧
    (∀ bedType, bedType ≠ "ICU" →
      ∃ alerts, (checkBedThresholds env hospitalId bedType n hospitalName w).1 = .ok alerts ∧
        ∀ a ∈ alerts, a.alert_type ≠ "bed_shortage") := by
  have h02 : (0 : JsNum) < 2 := by decide
  have h05 : (0 : JsNum) < 5 := by decide
  have h25 : (2 : JsNum) ≤ 5 := by decide
  refine ⟨⟨_, checkBedThresholds_run env hok w hospitalId "ICU" hospitalName n, ?_⟩,
    fun bedType hb => ⟨_, checkBedThresholds_run env hok w hospitalId bedType hospitalName n, ?_⟩⟩
  · by_cases h0 : n = 0
    · subst h0
      have h40 : ¬ ((0 : JsNum) = 4) := by decide
      have h50 : ¬ ((5 : JsNum) ≤ 0) := by decide
      have h20 : ¬ ((2 : JsNum) ≤ 0) := by decide
      simp [h02, h05, h40, h50, h20]
    · by_cases h1 : n < 2
      · have h2 : n < 5 := JsNum.blt_of_blt_of_ble h1 h25
        have h4 : n ≠ 4 := by
          rintro rfl
          exact absurd h1 (by decide)
        have h5 : ¬ (5 : JsNum) ≤ n := (JsNum.not_ble _ _).2 h2
        have h1' : ¬ (2 : JsNum) ≤ n := (JsNum.not_ble _ _).2 h1
        simp [h0, h1, h2, h4, h5, h1']
      · by_cases h2 : n < 5
        · have h5 : ¬ (5 : JsNum) ≤ n := (JsNum.not_ble _ _).2 h2
          have h1' : (2 : JsNum) ≤ n := (JsNum.not_blt _ _).1 h1
          simp [h0, h1, h2, h5, h1']
        · simp [h0, h1, h2]
          rintro rfl
          exact absurd (show (4 : JsNum) < 5 by decide) h2
  · simp [hb]

/-- Witness of C2: in the demo world an ICU count of 4 gives one `'high'`
`'bed_shortage'`. -/
theorem checkBedThresholds_bed_shortage_witness :
    (∀ k, demoEnv.alertError k = false) ∧
    ∃ alerts, (checkBedThresholds demoEnv "kem" "ICU" 4 "KEM Hospital" demoWorld).1 = .ok alerts ∧
      alerts.map (fun a => (a.alert_type, a.severity)) = [("bed_shortage", "high")] :=
  ⟨fun _ => rfl, by
    obtain ⟨⟨alerts, hrun, _, _, _, h4⟩, _⟩ :=
      checkBedThresholds_bed_shortage demoEnv (fun _ => rfl) demoWorld "kem" "KEM Hospital" 4
    exact ⟨alerts, hrun, h4 rfl⟩⟩

/-- C3 fails as stated: for `'ICU'` with one bed available the returned alerts do
not contain both a `'critical'` `'bed_shortage'` and a `'critical'` `'bed_full'`. -/
theorem checkBedThresholds_icu_one_counterexample :
    ∃ alerts, (checkBedThresholds demoEnv "kem" "ICU" 1 "KEM Hospital" demoWorld).1 = .ok alerts ∧
      ¬ ((∃ a ∈ alerts, a.alert_type = "bed_shortage" ∧ a.severity = "critical") ∧
         (∃ a ∈ alerts, a.alert_type = "bed_full" ∧ a.severity = "critical")) :=
  ⟨[{ id := 0, hospital_id := "kem", alert_type := "bed_shortage",
      message := .icuCritical 1 "KEM Hospital", severity := "critical", is_resolved := false }],
   by decide, by decide⟩

/-- C3 as amended. For bed type `'ICU'` with one bed available (the store
accepting the inserts) the alerts `checkBedThresholds` returns contain a
`'critical'` `'bed_shortage'` alert and no `'bed_full'` alert. -/
theorem checkBedThresholds_icu_one (env : Env) (hok : ∀ k, env.alertError k = false)
    (w : World) (hospitalId hospitalName : String) :
    ∃ alerts, (checkBedThresholds env hospitalId "ICU" 1 hospitalName w).1 = .ok alerts ∧
      (∃ a ∈ alerts, a.alert_type = "bed_shortage" ∧ a.severity = "critical") ∧
      (∀ a ∈ alerts, a.alert_type ≠ "bed_full") := by
  have h12 : (1 : JsNum) < 2 := by decide
  have h10 : ¬ ((1 : JsNum) = 0) := by decide
  refine ⟨_, checkBedThresholds_run env hok w hospitalId "ICU" hospitalName 1, ?_⟩
  simp [h12, h10]

/-- Witness of the amended C3 in the demo world. -/
theorem checkBedThresholds_icu_one_witness :
    (∀ k, demoEnv.alertError k = false) ∧
    ∃ alerts, (checkBedThresholds demoEnv "kem" "ICU" 1 "KEM Hospital" demoWorld).1 = .ok alerts ∧
      (∃ a ∈ alerts, a.alert_type = "bed_shortage" ∧ a.severity = "critical") ∧
      (∀ a ∈ alerts, a.alert_type ≠ "bed_full") :=
  ⟨fun _ => rfl, checkBedThresholds_icu_one demoEnv (fun _ => rfl) demoWorld "kem" "KEM Hospital"⟩

/-- C4. For every bed type and every available count `n` (the store accepting
the inserts), `checkBedThresholds` returns a `'bed_full'` alert if and only if
`n = 0`, and then exactly one, of severity `'critical'`; for a type other than
`'ICU'` at `n = 0` it is the only alert returned, and for `'ICU'` at `n = 0` the
result is the critical `'bed_shortage'` followed by the critical `'bed_full'`. -/
theorem checkBedThresholds_bed_full (env : Env) (hok : ∀ k, env.alertError k = false)
    (w : World) (hospitalId bedType hospitalName : String) (n : JsNum) :
    ∃ alerts, (checkBedThresholds env hospitalId bedType n hospitalName w).1 = .ok alerts ∧
      ((∃ a ∈ alerts, a.alert_type = "bed_full") ↔ n = 0) ∧
      (n = 0 → (alerts.filter (fun a => a.alert_type = "bed_full")).map (fun a => a.severity)
        = ["critical"]) ∧
      (n = 0 → bedType ≠ "ICU" →
        alerts.map (fun a => (a.alert_type, a.severity)) = [("bed_full", "critical")]) ∧
      (n = 0 → bedType = "ICU" →
        alerts.map (fun a => (a.alert_type, a.severity)) =
          [("bed_shortage", "critical"), ("bed_full", "critical")]) := by
  have h02 : (0 : JsNum) < 2 := by decide
  have h05 : (0 : JsNum) < 5 := by decide
  refine ⟨_, checkBedThresholds_run env hok w hospitalId bedType hospitalName n, ?_⟩
  by_cases h0 : n = 0
  · subst h0
    by_cases hb : bedType = "ICU"
    · subst hb
      simp [h02, h05]
    · simp [hb]
  · simp only [h0, if_false, List.append_nil, false_implies, and_true, iff_false, not_exists,
      not_and]
    intro a ha
    split_ifs at ha <;> simp at ha <;> simp [ha]

/-- Witness of C4: in the demo world a general ward at zero gives exactly one
alert, the critical `'bed_full'`. -/
theorem checkBedThresholds_bed_full_witness :
    (∀ k, demoEnv.alertError k = false) ∧
    ∃ alerts,
      (checkBedThresholds demoEnv "kem" "general" 0 "KEM Hospital" demoWorld).1 = .ok alerts ∧
      alerts.map (fun a => (a.alert_type, a.severity)) = [("bed_full", "critical")] :=
  ⟨fun _ => rfl, by
    obtain ⟨alerts, hrun, _, _, hgen, _⟩ :=
      checkBedThresholds_bed_full demoEnv (fun _ => rfl) demoWorld "kem" "general"
        "KEM Hospital" 0
    exact ⟨alerts, hrun, hgen rfl (by decide)⟩⟩

/-- C5. For every blood group and every unit count `u` (the store accepting the
inserts), `checkBloodThresholds` returns exactly one alert, a `'critical'`
`'blood_shortage'`, when `u = 0`; exactly one, a `'high'` `'blood_shortage'`,
when `1 ≤ u ≤ 3`; and no alert when `u > 3`. -/
theorem checkBloodThresholds_classifies (env : Env) (hok : ∀ k, env.alertError k = false)
    (w : World) (hospitalId bloodGroup hospitalName : String) (u : JsNum) :
    ∃ alerts, (checkBloodThresholds env hospitalId bloodGroup u hospitalName w).1 = .ok alerts ∧
      (u = 0 →
        alerts.map (fun a => (a.alert_type, a.severity)) = [("blood_shortage", "critical")]) ∧
      (1 ≤ u → u ≤ 3 →
        alerts.map (fun a => (a.alert_type, a.severity)) = [("blood_shortage", "high")]) ∧
      (u > 3 → alerts = []) := by
  refine ⟨_, checkBloodThresholds_run env hok w hospitalId bloodGroup hospitalName u, ?_, ?_, ?_⟩
  · rintro rfl
    simp
  · intro h1 h3
    have h0 : u ≠ 0 := by
      rintro rfl
      exact absurd h1 (by decide)
    simp [h0, h3]
  · intro h3
    have h0 : u ≠ 0 := by
      rintro rfl
      exact absurd h3 (by decide)
    have h3' : ¬ u ≤ 3 := (JsNum.not_ble _ _).2 h3
    simp [h0, h3']

/-- Witness of C5 at the unit counts 0, 3 and 4 in the demo world. -/
theorem checkBloodThresholds_classifies_witness :
    (∀ k, demoEnv.alertError k = false) ∧
    (∃ alerts, (checkBloodThresholds demoEnv "kem" "O-" 0 "KEM Hospital" demoWorld).1 = .ok alerts ∧
      alerts.map (fun a => (a.alert_type, a.severity)) = [("blood_shortage", "critical")]) ∧
    (∃ alerts, (checkBloodThresholds demoEnv "kem" "O-" 3 "KEM Hospital" demoWorld).1 = .ok alerts ∧
      alerts.map (fun a => (a.alert_type, a.severity)) = [("blood_shortage", "high")]) ∧
    (checkBloodThresholds demoEnv "kem" "O-" 4 "KEM Hospital" demoWorld).1 = .ok [] :=
  ⟨fun _ => rfl, by
    obtain ⟨alerts, hrun, h, _, _⟩ :=
      checkBloodThresholds_classifies demoEnv (fun _ => rfl) demoWorld "kem" "O-" "KEM Hospital" 0
    exact ⟨alerts, hrun, h rfl⟩, by
    obtain ⟨alerts, hrun, _, h, _⟩ :=
      checkBloodThresholds_classifies demoEnv (fun _ => rfl) demoWorld "kem" "O-" "KEM Hospital" 3
    exact ⟨alerts, hrun, h (by decide) (by decide)⟩, by
    obtain ⟨alerts, hrun, _, _, h⟩ :=
      checkBloodThresholds_classifies demoEnv (fun _ => rfl) demoWorld "kem" "O-" "KEM Hospital" 4
    rw [hrun, h (by decide)]⟩

/-! ## Effects that leave a table alone -/

theorem preserves_pure {α β : Type} (f : World → β) (a : α) :
    Preserves f (Pure.pure a : Eff α) := fun _ => rfl

theorem preserves_throw {α β : Type} (f : World → β) (e : Thrown) :
    Preserves f (Eff.throw e : Eff α) := fun _ => rfl

theorem preserves_bind {α β γ : Type} {f : World → β} {m : Eff α} {k : α → Eff γ}
    (hm : Preserves f m) (hk : ∀ a, Preserves f (k a)) : Preserves f (m >>= k) := by
  intro w
  have h := hm w
  revert h
  show _ → f (match m w with
    | (.ok a, w') => k a w'
    | (.error e, w') => (.error e, w')).2 = f w
  rcases m w with ⟨r, w'⟩
  cases r with
  | error e => exact fun h => h
  | ok a => exact fun h => (hk a w').trans h

theorem createAlert_preserves_beds (env : Env) (hospitalId alertType : String)
    (message : AlertMessage) (severity : String) :
    Preserves World.bed_inventory (createAlert env hospitalId alertType message severity) := by
  intro w
  unfold createAlert
  split_ifs <;> rfl

theorem sendCriticalAlert_preserves_beds (env : Env) (hospitalName : String)
    (m : EscalationText) :
    Preserves World.bed_inventory
      (fun w => (.ok (), (sendCriticalAlert env hospitalName m w).2) : Eff Unit) := by
  intro w
  show (sendCriticalAlert env hospitalName m w).2.bed_inventory = w.bed_inventory
  unfold sendCriticalAlert sendSMS
  cases env.DISTRICT_OFFICER_PHONE <;> simp
  split_ifs <;> simp
  split <;> simp

theorem checkBedThresholds_preserves_beds (env : Env) (hospitalId bedType : String)
    (availableBeds : JsNum) (hospitalName : String) :
    Preserves World.bed_inventory
      (checkBedThresholds env hospitalId bedType availableBeds hospitalName) := by
  unfold checkBedThresholds
  dsimp only
  repeat' first
    | exact preserves_pure _ _
    | exact createAlert_preserves_beds _ _ _ _ _
    | exact sendCriticalAlert_preserves_beds _ _ _
    | refine preserves_bind ?_ (fun _ => ?_)
    | split_ifs

theorem emit_preserves_beds (room : Option String) (event : String) (payload : Payload) :
    Preserves World.bed_inventory (emit room event payload) := fun _ => rfl

theorem emitAlerts_preserves_beds (room : Option String) (hospital_name : String)
    (alerts : List Alert) :
    Preserves World.bed_inventory (emitAlerts room hospital_name alerts) := by
  induction alerts with
  | nil => exact preserves_pure _ _
  | cons a rest ih => exact preserves_bind (emit_preserves_beds _ _ _) (fun _ => ih)

theorem insertUpdateLog_preserves_beds (env : Env) (entry : UpdateLog) :
    Preserves World.bed_inventory (insertUpdateLog env entry) := by
  intro w
  unfold insertUpdateLog
  split_ifs <;> rfl

theorem patchBedNotify_preserves_beds (env : Env) (req : BedPatchRequest)
    (available_beds : JsNum) (currentBed : CurrentBed) (updatedBed : BedRow) :
    Preserves World.bed_inventory
      (patchBedNotify env req available_beds currentBed updatedBed) := by
  unfold patchBedNotify
  refine preserves_bind (insertUpdateLog_preserves_beds _ _) (fun _ => ?_)
  cases currentBed.hospitals with
  | none => exact preserves_throw _ _
  | some hospitals =>
    refine preserves_bind (checkBedThresholds_preserves_beds _ _ _ _ _) (fun alerts => ?_)
    split_ifs
    · exact preserves_bind (emit_preserves_beds _ _ _) (fun _ =>
        preserves_bind (emitAlerts_preserves_beds _ _ _) (fun _ => preserves_pure _ _))
    · exact preserves_pure _ _

/-! ## `PATCH /api/beds/:id` -/

theorem returns_pure {α : Type} {P : α → Prop} {a : α} (h : P a) :
    Returns P (Pure.pure a : Eff α) := by
  intro w b hb
  cases hb
  exact h

theorem returns_throw {α : Type} (P : α → Prop) (e : Thrown) :
    Returns P (Eff.throw e : Eff α) := by
  intro w b hb
  cases hb

theorem returns_bind {α γ : Type} {P : γ → Prop} (m : Eff α) {k : α → Eff γ}
    (hk : ∀ a, Returns P (k a)) : Returns P (m >>= k) := by
  intro w c
  show (match m w with
    | (.ok a, w') => k a w'
    | (.error e, w') => (.error e, w')).1 = .ok c → P c
  rcases m w with ⟨r, w'⟩
  cases r with
  | error e => intro h; cases h
  | ok a => exact hk a w' c

theorem patchBedNotify_returns (env : Env) (req : BedPatchRequest) (available_beds : JsNum)
    (currentBed : CurrentBed) (updatedBed : BedRow) :
    Returns (fun response => ∃ alerts, response = .success updatedBed alerts)
      (patchBedNotify env req available_beds currentBed updatedBed) := by
  unfold patchBedNotify
  refine returns_bind _ (fun _ => ?_)
  cases currentBed.hospitals with
  | none => exact returns_throw _ _
  | some hospitals =>
    refine returns_bind _ (fun alerts => ?_)
    split_ifs
    · exact returns_bind _ (fun _ => returns_bind _ (fun _ => returns_pure ⟨alerts, rfl⟩))
    · exact returns_pure ⟨alerts, rfl⟩

theorem selectBedSingle_cases (env : Env) (id : String) (w : World) :
    selectBedSingle env id w = (.error .storeError, w) ∨
    ∃ r, w.bed_inventory.filter (fun r => r.id = id) = [r] ∧
      selectBedSingle env id w =
        (.ok { row := r,
               hospitals := (w.hospitals.find? (fun h => h.id = r.hospital_id)).map
                 (fun h => { name := h.name, city := none }) }, w) := by
  unfold selectBedSingle
  split_ifs
  · exact Or.inl rfl
  · split
    · next r h => exact Or.inr ⟨r, h, rfl⟩
    · exact Or.inl rfl

theorem updateBedSingle_cases (env : Env) (id : String) (v : JsNum) (by_ : String) (w : World) :
    updateBedSingle env id v by_ w = (.error .storeError, w) ∨
    ∃ r, w.bed_inventory.filter (fun r => r.id = id) = [r] ∧
      updateBedSingle env id v by_ w =
        (.ok { r with available_beds := v, updated_by := some by_ },
         { w with bed_inventory := w.bed_inventory.map (fun x =>
             if x.id = id then { x with available_beds := v, updated_by := some by_ }
             else x) }) := by
  unfold updateBedSingle
  split_ifs
  · exact Or.inl rfl
  · split
    · next r h => exact Or.inr ⟨r, h, rfl⟩
    · exact Or.inl rfl

/-- What a run of the `try` block does to the bed table: nothing, and then it
does not answer with success; or the one record with the id gets the new value,
which is within the capacity of the record. -/
theorem patchBedTry_cases (env : Env) (req : BedPatchRequest) (v : JsNum) (w : World) :
    ((patchBedTry env req v w).2.bed_inventory = w.bed_inventory ∧
      ∀ data alerts, (patchBedTry env req v w).1 ≠ .ok (.success data alerts)) ∨
    ∃ r, w.bed_inventory.filter (fun r => r.id = req.id) = [r] ∧
      r.hospital_id = req.staff_hospital_id ∧ v ≤ r.total_beds ∧
      (patchBedTry env req v w).2.bed_inventory = w.bed_inventory.map (fun x =>
        if x.id = req.id then { x with available_beds := v, updated_by := some req.user_id }
        else x) ∧
      ∀ data alerts, (patchBedTry env req v w).1 = .ok (.success data alerts) →
        data = { r with available_beds := v, updated_by := some req.user_id } := by
  unfold patchBedTry
  show (_ ∧ _) ∨ _
  simp only [bind]
  rcases selectBedSingle_cases env req.id w with h | ⟨r, hr, h⟩
  · rw [h]
    exact Or.inl ⟨rfl, fun _ _ hh => by cases hh⟩
  · rw [h]
    dsimp only
    by_cases hh : r.hospital_id = req.staff_hospital_id
    · by_cases ht : v > r.total_beds
      · simp only [hh, ht, ne_eq, not_true_eq_false, if_false, if_true]
        exact Or.inl ⟨rfl, fun _ _ hh => by cases hh⟩
      · simp only [hh, ht, ne_eq, not_true_eq_false, if_false]
        rcases updateBedSingle_cases env req.id v req.user_id w with hu | ⟨r', hr', hu⟩
        · rw [hu]
          exact Or.inl ⟨rfl, fun _ _ hh => by cases hh⟩
        · rw [hu]
          dsimp only
          have hrr : r' = r := by
            rw [hr] at hr'
            exact (List.cons.inj hr').1.symm
          subst hrr
          refine Or.inr ⟨r', hr, hh, (JsNum.not_blt _ _).1 ht, ?_, ?_⟩
          · exact patchBedNotify_preserves_beds _ _ _ _ _ _
          · intro data alerts hres
            obtain ⟨alerts', ha⟩ := patchBedNotify_returns _ _ _ _ _ _ _ hres
            cases ha
            rfl
    · simp only [hh, ne_eq, not_false_eq_true, if_true]
      exact Or.inl ⟨rfl, fun _ _ hh => by cases hh⟩

theorem patchBed_of_num (env : Env) (req : BedPatchRequest) (w : World) (v : JsNum)
    (hv : req.available_beds = .num v) (h0 : ¬ v < 0) :
    patchBed env req w =
      (match (patchBedTry env req v w).1 with
        | .ok response => response
        | .error _ => .error 500 (.text "Failed to update bed inventory"),
       (patchBedTry env req v w).2) := by
  unfold patchBed
  rw [hv]
  simp only [h0, if_false]
  rcases patchBedTry env req v w with ⟨r, w'⟩
  cases r <;> rfl

/-- C1. For every `PATCH /api/beds/:id` request, the bed table after the request
holds the same records with the same totals and every record that satisfied
`0 ≤ available ≤ total` still does; on success the updated record satisfies it
and is the stored one; and a request by a principal of the hospital of the record
whose new value exceeds the total of the record read from the store is answered
with status 400 and the capacity error, the world being left as it was. -/
theorem patchBed_keeps_capacity (env : Env) (req : BedPatchRequest) (w : World) :
    List.Forall₂ (fun r r' => r'.id = r.id ∧ r'.total_beds = r.total_beds ∧
        (r.wellFormed → r'.wellFormed))
      w.bed_inventory (patchBed env req w).2.bed_inventory ∧
    (∀ data alerts, (patchBed env req w).1 = .success data alerts →
      data.wellFormed ∧ data ∈ (patchBed env req w).2.bed_inventory) ∧
    (∀ currentBed v, (selectBedSingle env req.id w).1 = .ok currentBed →
      currentBed.row.wellFormed → req.staff_hospital_id = currentBed.row.hospital_id →
      req.available_beds = .num v → v > currentBed.row.total_beds →
      patchBed env req w = (.error 400 (.exceedsTotal v currentBed.row.total_beds), w)) := by
  have hsame : List.Forall₂ (fun (r r' : BedRow) => r'.id = r.id ∧
      r'.total_beds = r.total_beds ∧ (r.wellFormed → r'.wellFormed))
      w.bed_inventory w.bed_inventory :=
    List.forall₂_same.2 (fun _ _ => ⟨rfl, rfl, id⟩)
  refine ⟨?_, ?_, ?_⟩
  · -- the table
    cases hv : req.available_beds with
    | num v =>
      by_cases h0 : v < 0
      · simp only [patchBed, hv, h0, if_true]
        exact hsame
      · rw [patchBed_of_num env req w v hv h0]
        rcases patchBedTry_cases env req v w with ⟨hw, _⟩ | ⟨r, hr, _, hle, hw, _⟩
        · show List.Forall₂ _ _ (patchBedTry env req v w).2.bed_inventory
          rw [hw]
          exact hsame
        · show List.Forall₂ _ _ (patchBedTry env req v w).2.bed_inventory
          rw [hw, List.forall₂_map_right_iff]
          refine List.forall₂_same.2 (fun x hx => ?_)
          by_cases hid : x.id = req.id
          · have hxr : x = r := by
              have : x ∈ w.bed_inventory.filter (fun r => r.id = req.id) :=
                List.mem_filter.2 ⟨hx, by simpa using hid⟩
              rw [hr] at this
              simpa using this
            subst hxr
            rw [if_pos hid]
            exact ⟨rfl, rfl, fun _ => ⟨(JsNum.not_blt _ _).1 h0, hle⟩⟩
          · rw [if_neg hid]
            exact ⟨rfl, rfl, id⟩
    | undefined => simp only [patchBed, hv]; exact hsame
    | null => simp only [patchBed, hv]; exact hsame
    | bool b => simp only [patchBed, hv]; exact hsame
    | str s => simp only [patchBed, hv]; exact hsame
    | obj => simp only [patchBed, hv]; exact hsame
  · -- the updated record
    intro data alerts hres
    cases hv : req.available_beds with
    | num v =>
      by_cases h0 : v < 0
      · simp [patchBed, hv, h0] at hres
      · rw [patchBed_of_num env req w v hv h0] at hres ⊢
        rcases patchBedTry_cases env req v w with ⟨_, hno⟩ | ⟨r, hr, _, hle, hw, hdata⟩
        · exfalso
          cases hrun : (patchBedTry env req v w).1 with
          | error e => rw [hrun] at hres; cases hres
          | ok response =>
            rw [hrun] at hres
            exact hno data alerts (by rw [hrun]; exact congrArg _ hres)
        · have hd : data = { r with available_beds := v, updated_by := some req.user_id } := by
            cases hrun : (patchBedTry env req v w).1 with
            | error e => rw [hrun] at hres; cases hres
            | ok response =>
              rw [hrun] at hres
              exact hdata data alerts (by rw [hrun]; exact congrArg _ hres)
          have hrmem : r ∈ w.bed_inventory.filter (fun r => r.id = req.id) := by
            rw [hr]
            exact List.mem_singleton.2 rfl
          have hrin := (List.mem_filter.1 hrmem).1
          have hrid : r.id = req.id := by simpa using (List.mem_filter.1 hrmem).2
          refine ⟨?_, ?_⟩
          · rw [hd]
            exact ⟨(JsNum.not_blt _ _).1 h0, hle⟩
          · show data ∈ (patchBedTry env req v w).2.bed_inventory
            rw [hw, hd]
            refine List.mem_map.2 ⟨r, hrin, ?_⟩
            rw [if_pos hrid]
    | undefined => simp [patchBed, hv] at hres
    | null => simp [patchBed, hv] at hres
    | bool b => simp [patchBed, hv] at hres
    | str s => simp [patchBed, hv] at hres
    | obj => simp [patchBed, hv] at hres
  · -- the capacity error
    intro currentBed v hsel hwf hstaff hv hgt
    have h0 : ¬ v < 0 := fun hneg =>
      JsNum.blt_asymm (JsNum.blt_of_blt_of_ble hneg (JsNum.ble_trans hwf.1 hwf.2)) hgt
    rw [patchBed_of_num env req w v hv h0]
    have hrun : patchBedTry env req v w =
        (.ok (.error 400 (.exceedsTotal v currentBed.row.total_beds)), w) := by
      unfold patchBedTry
      simp only [bind]
      rcases selectBedSingle_cases env req.id w with h | ⟨r, _, h⟩
      · rw [h] at hsel
        cases hsel
      · rw [h] at hsel ⊢
        cases hsel
        simp only [hstaff, hgt, ne_eq, not_true_eq_false, if_false, if_true]
        rfl
    rw [hrun]

/-- Witness of C1 in the demo world: asking for 11 of 10 beds is refused with the
capacity error and nothing changes; setting 4 of 10 succeeds and the record
returned satisfies the invariant and is the stored one. -/
theorem patchBed_keeps_capacity_witness :
    patchBed demoEnv demoOverCapacity demoWorld =
      (.error 400 (.exceedsTotal 11 10), demoWorld) ∧
    (patchBed demoEnv demoUpdate demoWorld).1 = .success demoUpdated [demoWarning] ∧
    demoUpdated.wellFormed ∧
    demoUpdated ∈ (patchBed demoEnv demoUpdate demoWorld).2.bed_inventory := by
  have hread : (selectBedSingle demoEnv demoOverCapacity.id demoWorld).1 =
      .ok { row := demoBed "b1" "kem" "ICU" 10 3,
            hospitals := some { name := "kem", city := none } } := by decide
  have hover := (patchBed_keeps_capacity demoEnv demoOverCapacity demoWorld).2.2
    { row := demoBed "b1" "kem" "ICU" 10 3, hospitals := some { name := "kem", city := none } }
    11 hread (by decide) (by decide) (by decide) (by decide)
  have hrun : (patchBed demoEnv demoUpdate demoWorld).1 = .success demoUpdated [demoWarning] := by
    decide
  exact ⟨hover, hrun,
    (patchBed_keeps_capacity demoEnv demoUpdate demoWorld).2.1 demoUpdated [demoWarning] hrun⟩

/-! ## Rounding to the nearest double is monotone -/

theorem log2Fuel_spec : ∀ (fuel n : Nat), 0 < n → n ≤ fuel →
    2 ^ log2Fuel fuel n ≤ n ∧ n < 2 ^ (log2Fuel fuel n + 1) := by
  intro fuel
  induction fuel with
  | zero => intro n h0 hn; omega
  | succ fuel ih =>
    intro n h0 hn
    unfold log2Fuel
    by_cases h2 : n < 2
    · rw [if_pos h2]
      have : n = 1 := by omega
      subst this
      exact ⟨by norm_num, by norm_num⟩
    · rw [if_neg h2]
      obtain ⟨hlo, hhi⟩ := ih (n / 2) (by omega) (by omega)
      rw [pow_succ] at hhi ⊢
      rw [pow_succ]
      constructor <;> omega

theorem floorLog2_spec (x : ℚ) (hx : x ≠ 0) :
    (2 : ℚ) ^ floorLog2 x ≤ |x| ∧ |x| < (2 : ℚ) ^ (floorLog2 x + 1) := by
  have hnum : 0 < x.num.natAbs := Int.natAbs_pos.2 (Rat.num_ne_zero.2 hx)
  have hden : 0 < x.den := x.den_pos
  obtain ⟨ha, ha'⟩ := log2Fuel_spec x.num.natAbs x.num.natAbs hnum (le_refl _)
  obtain ⟨hb, hb'⟩ := log2Fuel_spec x.den x.den hden (le_refl _)
  have habs : |x| = (x.num.natAbs : ℚ) / (x.den : ℚ) := by
    conv_lhs => rw [← Rat.num_div_den x]
    rw [abs_div, Nat.abs_cast, Nat.cast_natAbs, Int.cast_abs]
  have hdq : (0 : ℚ) < x.den := by exact_mod_cast hden
  have haq : ((2 : ℚ) ^ log2Fuel x.num.natAbs x.num.natAbs) ≤ (x.num.natAbs : ℚ) := by
    exact_mod_cast ha
  have haq' : (x.num.natAbs : ℚ) < (2 : ℚ) ^ (log2Fuel x.num.natAbs x.num.natAbs + 1) := by
    exact_mod_cast ha'
  have hbq : ((2 : ℚ) ^ log2Fuel x.den x.den) ≤ (x.den : ℚ) := by exact_mod_cast hb
  have hbq' : (x.den : ℚ) < (2 : ℚ) ^ (log2Fuel x.den x.den + 1) := by exact_mod_cast hb'
  set a := log2Fuel x.num.natAbs x.num.natAbs with hadef
  set b := log2Fuel x.den x.den with hbdef
  have h2 : (0 : ℚ) < 2 := by norm_num
  have hupper : |x| < (2 : ℚ) ^ (((a : ℤ) - (b : ℤ)) + 1) := by
    rw [habs, div_lt_iff₀ hdq]
    have e : (2 : ℚ) ^ (((a : ℤ) - (b : ℤ)) + 1) = (2 : ℚ) ^ (a + 1) / (2 : ℚ) ^ b := by
      rw [show ((a : ℤ) - (b : ℤ)) + 1 = ((a + 1 : ℕ) : ℤ) - (b : ℤ) by push_cast; ring,
        zpow_sub₀ (by norm_num), zpow_natCast, zpow_natCast]
    rw [e, div_mul_eq_mul_div, lt_div_iff₀ (by positivity)]
    calc (x.num.natAbs : ℚ) * 2 ^ b < 2 ^ (a + 1) * 2 ^ b := by
          apply mul_lt_mul_of_pos_right haq' (by positivity)
      _ ≤ 2 ^ (a + 1) * x.den := by
          apply mul_le_mul_of_nonneg_left hbq (by positivity)
  have hlower : (2 : ℚ) ^ (((a : ℤ) - (b : ℤ)) - 1) ≤ |x| := by
    rw [habs, le_div_iff₀ hdq]
    have e : (2 : ℚ) ^ (((a : ℤ) - (b : ℤ)) - 1) = (2 : ℚ) ^ a / (2 : ℚ) ^ (b + 1) := by
      rw [show ((a : ℤ) - (b : ℤ)) - 1 = (a : ℤ) - ((b + 1 : ℕ) : ℤ) by push_cast; ring,
        zpow_sub₀ (by norm_num), zpow_natCast, zpow_natCast]
    rw [e, div_mul_eq_mul_div, div_le_iff₀ (by positivity)]
    calc (2 : ℚ) ^ a * x.den ≤ (x.num.natAbs : ℚ) * x.den := by
          apply mul_le_mul_of_nonneg_right haq (by positivity)
      _ ≤ (x.num.natAbs : ℚ) * 2 ^ (b + 1) := by
          apply mul_le_mul_of_nonneg_left hbq'.le (by positivity)
  unfold floorLog2
  simp only [← hadef, ← hbdef]
  split_ifs with h
  · exact ⟨h, hupper⟩
  · refine ⟨hlower, ?_⟩
    rw [sub_add_cancel]
    exact lt_of_not_le h


theorem floorLog2_mono (x y : ℚ) (hx : x ≠ 0) (hy : y ≠ 0) (h : |x| ≤ |y|) :
    floorLog2 x ≤ floorLog2 y := by
  by_contra hlt
  push_neg at hlt
  have h1 := (floorLog2_spec x hx).1
  have h2 := (floorLog2_spec y hy).2
  have h3 : (2 : ℚ) ^ (floorLog2 y + 1) ≤ (2 : ℚ) ^ floorLog2 x :=
    zpow_le_zpow_right₀ (by norm_num) (by omega)
  exact absurd (lt_of_le_of_lt (h3.trans (h1.trans h)) h2) (lt_irrefl _)

theorem floor_le_roundHalfEven (x : ℚ) : ⌊x⌋ ≤ roundHalfEven x := by
  unfold roundHalfEven
  dsimp only
  split_ifs <;> omega

theorem roundHalfEven_le_ceil (x : ℚ) : roundHalfEven x ≤ ⌈x⌉ := by
  unfold roundHalfEven
  dsimp only
  have hfc : ⌊x⌋ ≤ ⌈x⌉ := Int.floor_le_ceil x
  by_cases hr : x - ⌊x⌋ < 1 / 2
  · rw [if_pos hr]
    exact hfc
  · have hpos : (⌊x⌋ : ℚ) < x := by linarith
    have hc : ⌊x⌋ + 1 ≤ ⌈x⌉ := by
      have : ⌊x⌋ < ⌈x⌉ := by
        rw [Int.lt_ceil]
        exact hpos
      omega
    rw [if_neg hr]
    split_ifs <;> omega

theorem le_roundHalfEven (n : ℤ) (x : ℚ) (h : (n : ℚ) ≤ x) : n ≤ roundHalfEven x :=
  (Int.le_floor.2 h).trans (floor_le_roundHalfEven x)

theorem roundHalfEven_le (n : ℤ) (x : ℚ) (h : x ≤ (n : ℚ)) : roundHalfEven x ≤ n :=
  (roundHalfEven_le_ceil x).trans (Int.ceil_le.2 h)

theorem roundHalfEven_mono (x y : ℚ) (h : x ≤ y) : roundHalfEven x ≤ roundHalfEven y := by
  have hf : ⌊x⌋ ≤ ⌊y⌋ := Int.floor_mono h
  rcases hf.lt_or_eq with hlt | heq
  · have h1 : roundHalfEven x ≤ ⌊x⌋ + 1 := by
      unfold roundHalfEven
      dsimp only
      split_ifs <;> omega
    exact h1.trans ((by omega : ⌊x⌋ + 1 ≤ ⌊y⌋).trans (floor_le_roundHalfEven y))
  · unfold roundHalfEven
    dsimp only
    rw [← heq]
    have hr : x - ⌊x⌋ ≤ y - ⌊x⌋ := by linarith
    split_ifs <;> first | omega | (exfalso; linarith)


/-- The exponent `roundNearest` works with: that of the value, not below that of
the subnormals. -/
theorem roundNearest_of_ne (x : ℚ) (hx : x ≠ 0) :
    roundNearest x =
      (roundHalfEven (x / (2 : ℚ) ^ (max (floorLog2 x) (-1022) - 52)) : ℚ) *
        (2 : ℚ) ^ (max (floorLog2 x) (-1022) - 52) := by
  unfold roundNearest
  rw [if_neg hx]

theorem zpow_succ_eq (e : ℤ) : (2 : ℚ) ^ (e + 1) = 9007199254740992 * (2 : ℚ) ^ (e - 52) := by
  rw [show e + 1 = 53 + (e - 52) by ring, zpow_add₀ (by norm_num)]
  norm_num

theorem zpow_eq (e : ℤ) : (2 : ℚ) ^ e = 4503599627370496 * (2 : ℚ) ^ (e - 52) := by
  rw [show e = 52 + (e - 52) by ring, zpow_add₀ (by norm_num)]
  norm_num

theorem roundNearest_nonneg (x : ℚ) (hx : 0 ≤ x) : 0 ≤ roundNearest x := by
  by_cases h0 : x = 0
  · simp [roundNearest, h0]
  · rw [roundNearest_of_ne x h0]
    have hu : (0 : ℚ) < (2 : ℚ) ^ (max (floorLog2 x) (-1022) - 52) := by positivity
    have : (0 : ℤ) ≤ roundHalfEven (x / (2 : ℚ) ^ (max (floorLog2 x) (-1022) - 52)) :=
      le_roundHalfEven 0 _ (by simpa using div_nonneg hx hu.le)
    exact mul_nonneg (by exact_mod_cast this) hu.le

theorem roundNearest_nonpos (x : ℚ) (hx : x ≤ 0) : roundNearest x ≤ 0 := by
  by_cases h0 : x = 0
  · simp [roundNearest, h0]
  · rw [roundNearest_of_ne x h0]
    have hu : (0 : ℚ) < (2 : ℚ) ^ (max (floorLog2 x) (-1022) - 52) := by positivity
    have : roundHalfEven (x / (2 : ℚ) ^ (max (floorLog2 x) (-1022) - 52)) ≤ (0 : ℤ) :=
      roundHalfEven_le 0 _ (by simpa using div_nonpos_of_nonpos_of_nonneg hx hu.le)
    exact mul_nonpos_of_nonpos_of_nonneg (by exact_mod_cast this) hu.le

/-- A positive value rounds to at most the next power of two. -/
theorem roundNearest_le_pow (x : ℚ) (hx : 0 < x) :
    roundNearest x ≤ (2 : ℚ) ^ (max (floorLog2 x) (-1022) + 1) := by
  rw [roundNearest_of_ne x hx.ne.symm, zpow_succ_eq]
  set e := max (floorLog2 x) (-1022) with he
  have hu : (0 : ℚ) < (2 : ℚ) ^ (e - 52) := by positivity
  have hlt : x < (2 : ℚ) ^ (e + 1) := by
    have h := (floorLog2_spec x hx.ne.symm).2
    rw [abs_of_pos hx] at h
    exact h.trans_le (zpow_le_zpow_right₀ (by norm_num) (by omega))
  have hq : x / (2 : ℚ) ^ (e - 52) ≤ ((9007199254740992 : ℤ) : ℚ) := by
    rw [div_le_iff₀ hu]
    push_cast
    rw [← zpow_succ_eq]
    exact hlt.le
  have := roundHalfEven_le _ _ hq
  exact mul_le_mul_of_nonneg_right (by exact_mod_cast this) hu.le

/-- A positive normal value rounds to at least the power of two below it. -/
theorem pow_le_roundNearest (x : ℚ) (hx : 0 < x) (hn : -1022 ≤ floorLog2 x) :
    (2 : ℚ) ^ floorLog2 x ≤ roundNearest x := by
  rw [roundNearest_of_ne x hx.ne.symm, max_eq_left hn]
  conv_lhs => rw [zpow_eq]
  have hu : (0 : ℚ) < (2 : ℚ) ^ (floorLog2 x - 52) := by positivity
  have hle : (2 : ℚ) ^ floorLog2 x ≤ x := by
    have h := (floorLog2_spec x hx.ne.symm).1
    rwa [abs_of_pos hx] at h
  have hq : ((4503599627370496 : ℤ) : ℚ) ≤ x / (2 : ℚ) ^ (floorLog2 x - 52) := by
    rw [le_div_iff₀ hu]
    push_cast
    rw [← zpow_eq]
    exact hle
  have := le_roundHalfEven _ _ hq
  exact mul_le_mul_of_nonneg_right (by exact_mod_cast this) hu.le

/-- A negative value rounds to at least the next power of two, negated. -/
theorem neg_pow_le_roundNearest (x : ℚ) (hx : x < 0) :
    -(2 : ℚ) ^ (max (floorLog2 x) (-1022) + 1) ≤ roundNearest x := by
  rw [roundNearest_of_ne x hx.ne, zpow_succ_eq]
  set e := max (floorLog2 x) (-1022) with he
  have hu : (0 : ℚ) < (2 : ℚ) ^ (e - 52) := by positivity
  have hlt : -(2 : ℚ) ^ (e + 1) < x := by
    have h := (floorLog2_spec x hx.ne).2
    rw [abs_of_neg hx] at h
    have h2 : (2 : ℚ) ^ (floorLog2 x + 1) ≤ (2 : ℚ) ^ (e + 1) :=
      zpow_le_zpow_right₀ (by norm_num) (by omega)
    linarith
  have hq : ((-9007199254740992 : ℤ) : ℚ) ≤ x / (2 : ℚ) ^ (e - 52) := by
    rw [le_div_iff₀ hu]
    push_cast
    rw [neg_mul, ← zpow_succ_eq]
    exact hlt.le
  have := le_roundHalfEven _ _ hq
  have h3 : ((-9007199254740992 : ℤ) : ℚ) * (2 : ℚ) ^ (e - 52) ≤
      (roundHalfEven (x / (2 : ℚ) ^ (e - 52)) : ℚ) * (2 : ℚ) ^ (e - 52) :=
    mul_le_mul_of_nonneg_right (by exact_mod_cast this) hu.le
  push_cast at h3
  linarith

/-- A negative normal value rounds to at most the power of two above it,
negated. -/
theorem roundNearest_le_neg_pow (x : ℚ) (hx : x < 0) (hn : -1022 ≤ floorLog2 x) :
    roundNearest x ≤ -(2 : ℚ) ^ floorLog2 x := by
  rw [roundNearest_of_ne x hx.ne, max_eq_left hn]
  conv_rhs => rw [zpow_eq]
  have hu : (0 : ℚ) < (2 : ℚ) ^ (floorLog2 x - 52) := by positivity
  have hle : x ≤ -(2 : ℚ) ^ floorLog2 x := by
    have h := (floorLog2_spec x hx.ne).1
    rw [abs_of_neg hx] at h
    linarith
  have hq : x / (2 : ℚ) ^ (floorLog2 x - 52) ≤ ((-4503599627370496 : ℤ) : ℚ) := by
    rw [div_le_iff₀ hu]
    push_cast
    rw [neg_mul, ← zpow_eq]
    exact hle
  have := roundHalfEven_le _ _ hq
  have h3 : (roundHalfEven (x / (2 : ℚ) ^ (floorLog2 x - 52)) : ℚ) *
      (2 : ℚ) ^ (floorLog2 x - 52) ≤
      ((-4503599627370496 : ℤ) : ℚ) * (2 : ℚ) ^ (floorLog2 x - 52) :=
    mul_le_mul_of_nonneg_right (by exact_mod_cast this) hu.le
  push_cast at h3
  linarith

/-- Rounding to the nearest double is monotone. -/
theorem roundNearest_mono (x y : ℚ) (h : x ≤ y) : roundNearest x ≤ roundNearest y := by
  rcases lt_trichotomy x 0 with hx | hx | hx
  · rcases lt_or_le y 0 with hy | hy
    · -- both negative
      have hab : |y| ≤ |x| := by
        rw [abs_of_neg hx, abs_of_neg hy]
        linarith
      have hfl := floorLog2_mono y x hy.ne hx.ne hab
      rcases (max_le_max hfl (le_refl (-1022 : ℤ))).lt_or_eq with hlt | heq
      · have hnx : -1022 ≤ floorLog2 x := by
          by_contra hc
          push_neg at hc
          rw [max_eq_right hc.le] at hlt
          exact absurd hlt (not_lt.2 (le_max_right _ _))
        rw [max_eq_left hnx] at hlt
        have h1 := roundNearest_le_neg_pow x hx hnx
        have h2 := neg_pow_le_roundNearest y hy
        have h3 : (2 : ℚ) ^ (max (floorLog2 y) (-1022) + 1) ≤ (2 : ℚ) ^ floorLog2 x :=
          zpow_le_zpow_right₀ (by norm_num) (by omega)
        linarith
      · rw [roundNearest_of_ne x hx.ne, roundNearest_of_ne y hy.ne, heq]
        have hu : (0 : ℚ) < (2 : ℚ) ^ (max (floorLog2 x) (-1022) - 52) := by positivity
        have := roundHalfEven_mono _ _ (div_le_div_of_nonneg_right h hu.le)
        exact mul_le_mul_of_nonneg_right (by exact_mod_cast this) hu.le
    · exact (roundNearest_nonpos x hx.le).trans (roundNearest_nonneg y hy)
  · rw [hx] at h ⊢
    have : roundNearest 0 = 0 := by simp [roundNearest]
    rw [this]
    exact roundNearest_nonneg y h
  · have hy : 0 < y := hx.trans_le h
    have hab : |x| ≤ |y| := by
      rw [abs_of_pos hx, abs_of_pos hy]
      exact h
    have hfl := floorLog2_mono x y hx.ne.symm hy.ne.symm hab
    rcases (max_le_max hfl (le_refl (-1022 : ℤ))).lt_or_eq with hlt | heq
    · have hny : -1022 ≤ floorLog2 y := by
        by_contra hc
        push_neg at hc
        rw [max_eq_right hc.le] at hlt
        exact absurd hlt (not_lt.2 (le_max_right _ _))
      rw [max_eq_left hny] at hlt
      have h1 := roundNearest_le_pow x hx
      have h2 := pow_le_roundNearest y hy hny
      have h3 : (2 : ℚ) ^ (max (floorLog2 x) (-1022) + 1) ≤ (2 : ℚ) ^ floorLog2 y :=
        zpow_le_zpow_right₀ (by norm_num) (by omega)
      linarith
    · rw [roundNearest_of_ne x hx.ne.symm, roundNearest_of_ne y hy.ne.symm, ← heq]
      have hu : (0 : ℚ) < (2 : ℚ) ^ (max (floorLog2 x) (-1022) - 52) := by positivity
      have := roundHalfEven_mono _ _ (div_le_div_of_nonneg_right h hu.le)
      exact mul_le_mul_of_nonneg_right (by exact_mod_cast this) hu.le

/-! ## Doubles -/

/-- A value of at least the smallest positive double rounds to a positive value. -/
theorem roundNearest_pos (x : ℚ) (hx : (2 : ℚ) ^ (-1074 : ℤ) ≤ x) : 0 < roundNearest x := by
  have hx0 : 0 < x := lt_of_lt_of_le (by positivity) hx
  rw [roundNearest_of_ne x hx0.ne.symm]
  set e := max (floorLog2 x) (-1022) with he
  have hu : (0 : ℚ) < (2 : ℚ) ^ (e - 52) := by positivity
  have hle : (2 : ℚ) ^ (e - 52) ≤ x := by
    rcases le_total (floorLog2 x) (-1022) with h | h
    · have h2 : e = -1022 := max_eq_right h
      rw [h2]
      exact hx
    · have h2 : e = floorLog2 x := max_eq_left h
      rw [h2]
      have h1 := (floorLog2_spec x hx0.ne.symm).1
      rw [abs_of_pos hx0] at h1
      exact le_trans (zpow_le_zpow_right₀ (by norm_num) (by omega)) h1
  have hq : ((1 : ℤ) : ℚ) ≤ x / (2 : ℚ) ^ (e - 52) := by
    rw [le_div_iff₀ hu]
    simpa using hle
  have h1 := le_roundHalfEven 1 _ hq
  have h2 : (0 : ℚ) < (roundHalfEven (x / (2 : ℚ) ^ (e - 52)) : ℚ) := by
    exact_mod_cast lt_of_lt_of_le zero_lt_one h1
  exact mul_pos h2 hu

/-- The difference of two whole multiples of `2^-1074` keeps its sign when it is
rounded: a subtraction of doubles does not underflow. -/
theorem roundNearest_sub_nonpos (x y : ℚ) (n m : ℤ)
    (hx : x = n * (2 : ℚ) ^ (-1074 : ℤ)) (hy : y = m * (2 : ℚ) ^ (-1074 : ℤ)) :
    roundNearest (x - y) ≤ 0 ↔ x ≤ y := by
  have hu : (0 : ℚ) < (2 : ℚ) ^ (-1074 : ℤ) := by positivity
  constructor
  · intro h
    by_contra hlt
    have hlt' : y < x := not_le.1 hlt
    have hnm : m < n := by
      rw [hx, hy] at hlt'
      have := lt_of_mul_lt_mul_right hlt' hu.le
      exact_mod_cast this
    have h1 : (2 : ℚ) ^ (-1074 : ℤ) ≤ x - y := by
      have h2 : ((1 : ℤ) : ℚ) ≤ ((n - m : ℤ) : ℚ) := by exact_mod_cast (by omega : 1 ≤ n - m)
      have h3 : x - y = ((n - m : ℤ) : ℚ) * (2 : ℚ) ^ (-1074 : ℤ) := by
        rw [hx, hy]
        push_cast
        ring
      rw [h3]
      calc (2 : ℚ) ^ (-1074 : ℤ) = ((1 : ℤ) : ℚ) * (2 : ℚ) ^ (-1074 : ℤ) := by simp
        _ ≤ _ := mul_le_mul_of_nonneg_right h2 hu.le
    exact absurd (roundNearest_pos _ h1) (not_lt.2 h)
  · intro h
    exact roundNearest_nonpos _ (sub_nonpos.2 h)

namespace JsDouble

theorem le_iff_le (a b : JsDouble) : a ≤ b ↔ le a b = true := Iff.rfl

theorem lt_iff_lt (a b : JsDouble) : a < b ↔ lt a b = true := Iff.rfl

/-- The JavaScript `a <= b` holds when both sides have a value and the values
are in order. -/
theorem le_iff_value (a b : JsDouble) :
    a ≤ b ↔ ∃ x y, a.value? = some x ∧ b.value? = some y ∧ x ≤ y := by
  rw [le_iff_le]
  unfold le
  cases ha : a.value? with
  | none => simp
  | some x =>
    cases hb : b.value? with
    | none => simp
    | some y => simp [JsNum.le_def]

theorem not_le_nan_left (b : JsDouble) : ¬ nan ≤ b := by
  rw [le_iff_value]
  rintro ⟨x, y, hx, _⟩
  cases hx

theorem not_le_nan_right (a : JsDouble) : ¬ a ≤ nan := by
  rw [le_iff_value]
  rintro ⟨x, y, _, hy, _⟩
  cases hy

theorem value_of_finite (d : JsDouble) (x : ℚ) (h : d.finite? = some x) :
    d.value? = some (.fin x) := by
  cases d <;> simp_all [finite?, value?]

theorem isNaN_of_finite (d : JsDouble) (x : ℚ) (h : d.finite? = some x) : d.isNaN = false := by
  cases d <;> simp_all [finite?, isNaN]

theorem isFinite_iff (d : JsDouble) : d.isFinite = true ↔ ∃ x, d.finite? = some x := by
  unfold isFinite
  exact Option.isSome_iff_exists

/-- On finite numbers `<=` is the order of their values. -/
theorem le_of_finite (a b : JsDouble) (x y : ℚ) (ha : a.finite? = some x)
    (hb : b.finite? = some y) : a ≤ b ↔ x ≤ y := by
  rw [le_iff_value, value_of_finite a x ha, value_of_finite b y hb]
  constructor
  · rintro ⟨u, v, hu, hv, h⟩
    cases hu
    cases hv
    simpa [JsNum.le_def, JsNum.ble] using h
  · intro h
    exact ⟨_, _, rfl, rfl, by simpa [JsNum.le_def, JsNum.ble] using h⟩

theorem value_signedInf (n : Bool) :
    (signedInf n).value? = some (if n then .negInf else .posInf) := by
  cases n <;> rfl

theorem value_signedZero (n : Bool) : (signedZero n).value? = some (.fin 0) := by
  cases n <;> rfl

theorem isNaN_signedInf (n : Bool) : (signedInf n).isNaN = false := by
  cases n <;> rfl

theorem isNaN_signedZero (n : Bool) : (signedZero n).isNaN = false := by
  cases n <;> rfl

/-- The value of the double of an exact result. -/
theorem value_ofExact (x : ℚ) (n : Bool) :
    (ofExact x n).value? = some (clamp (roundNearest x)) := by
  unfold ofExact clamp
  dsimp only
  by_cases h1 : (2 : ℚ) ^ 1024 ≤ |roundNearest x|
  · rw [if_pos h1, if_pos h1, value_signedInf]
    by_cases h2 : roundNearest x < 0
    · simp only [h2, decide_True, if_true]
    · simp only [h2, decide_False, if_false, Bool.false_eq_true]
  · rw [if_neg h1, if_neg h1]
    by_cases h3 : roundNearest x = 0
    · rw [if_pos h3, value_signedZero, h3]
    · rw [if_neg h3]
      rfl

theorem isNaN_ofExact (x : ℚ) (n : Bool) : (ofExact x n).isNaN = false := by
  unfold ofExact
  dsimp only
  by_cases h1 : (2 : ℚ) ^ 1024 ≤ |roundNearest x|
  · rw [if_pos h1]
    exact isNaN_signedInf _
  · rw [if_neg h1]
    by_cases h3 : roundNearest x = 0
    · rw [if_pos h3]
      exact isNaN_signedZero _
    · rw [if_neg h3]
      rfl

theorem clamp_mono (r₁ r₂ : ℚ) (h : r₁ ≤ r₂) : clamp r₁ ≤ clamp r₂ := by
  unfold clamp
  have hp : (0 : ℚ) < 2 ^ 1024 := by positivity
  generalize (2 : ℚ) ^ 1024 = M at hp ⊢
  have a1 := abs_cases r₁
  have a2 := abs_cases r₂
  by_cases h1 : M ≤ |r₁|
  · rw [if_pos h1]
    by_cases h2 : r₁ < 0
    · rw [if_pos h2]
      rfl
    · rw [if_neg h2]
      have h3 : M ≤ |r₂| := by
        rcases a1 with ⟨e1, _⟩ | ⟨e1, _⟩ <;> rcases a2 with ⟨e2, _⟩ | ⟨e2, _⟩ <;> linarith
      have h4 : ¬ r₂ < 0 := by linarith
      rw [if_pos h3, if_neg h4]
      rfl
  · rw [if_neg h1]
    by_cases h3 : M ≤ |r₂|
    · rw [if_pos h3]
      have h4 : ¬ r₂ < 0 := by
        rcases a1 with ⟨e1, _⟩ | ⟨e1, _⟩ <;> rcases a2 with ⟨e2, _⟩ | ⟨e2, _⟩ <;> intro h5 <;>
          linarith
      rw [if_neg h4]
      rfl
    · rw [if_neg h3]
      simpa [JsNum.le_def, JsNum.ble] using h

/-- A rounded value is at most 0 once the range is taken into account exactly
when it is at most 0. -/
theorem clamp_le_zero (r : ℚ) : clamp r ≤ JsNum.fin 0 ↔ r ≤ 0 := by
  unfold clamp
  have hp : (0 : ℚ) < 2 ^ 1024 := by positivity
  generalize (2 : ℚ) ^ 1024 = M at hp ⊢
  have a1 := abs_cases r
  by_cases h1 : M ≤ |r|
  · rw [if_pos h1]
    by_cases h2 : r < 0
    · rw [if_pos h2]
      exact ⟨fun _ => h2.le, fun _ => rfl⟩
    · rw [if_neg h2]
      constructor
      · intro h
        cases h
      · intro h
        rcases a1 with ⟨e1, _⟩ | ⟨e1, _⟩ <;> linarith
  · rw [if_neg h1]
    simp [JsNum.le_def, JsNum.ble]

theorem lift_mono (f : ℚ → ℚ) (hf : ∀ x y, x ≤ y → f x ≤ f y) (v w : JsNum) (h : v ≤ w) :
    lift f v ≤ lift f w := by
  cases v with
  | negInf => rfl
  | posInf =>
    cases w with
    | posInf => rfl
    | negInf => cases h
    | fin y => cases h
  | fin x =>
    cases w with
    | negInf => cases h
    | posInf =>
      show JsNum.ble (clamp (roundNearest (f x))) JsNum.posInf = true
      cases clamp (roundNearest (f x)) <;> rfl
    | fin y =>
      have hxy : x ≤ y := by simpa [JsNum.le_def, JsNum.ble] using h
      exact clamp_mono _ _ (roundNearest_mono _ _ (hf x y hxy))

theorem ceilValue_mono (v w : JsNum) (h : v ≤ w) : ceilValue v ≤ ceilValue w := by
  cases v <;> cases w <;> first | exact h | skip
  next x y =>
    have hxy : x ≤ y := by simpa [JsNum.le_def, JsNum.ble] using h
    have := Int.ceil_mono hxy
    simpa [ceilValue, JsNum.le_def, JsNum.ble] using this

/-- The value of a quotient by a positive finite number. -/
theorem value_div_pos (d : JsDouble) (k : ℚ) (hk : 0 < k) :
    (div d (fin k)).value? = d.value?.map (lift (fun x => x / k)) := by
  have hk0 : ¬ k < 0 := not_lt.2 hk.le
  cases d with
  | nan => rfl
  | negInf => simp [div, isNaN, finite?, negative, hk0, signedInf, value?, lift]
  | posInf => simp [div, isNaN, finite?, negative, hk0, signedInf, value?, lift]
  | negZero =>
    have h : div negZero (fin k) = ofExact (0 / k) true := by
      simp [div, isNaN, finite?, negative, hk0, hk.ne.symm]
    rw [h, value_ofExact]
    rfl
  | fin q =>
    have h : div (fin q) (fin k) = ofExact (q / k) (xor (decide (q < 0)) (decide (k < 0))) := by
      simp [div, isNaN, finite?, negative, hk.ne.symm]
    rw [h, value_ofExact]
    rfl

/-- The value of a product with a positive finite number. -/
theorem value_mul_pos (d : JsDouble) (k : ℚ) (hk : 0 < k) :
    (mul d (fin k)).value? = d.value?.map (lift (fun x => x * k)) := by
  have hk0 : ¬ k < 0 := not_lt.2 hk.le
  cases d with
  | nan => rfl
  | negInf => simp [mul, isNaN, finite?, negative, hk0, hk.ne.symm, signedInf, value?, lift]
  | posInf => simp [mul, isNaN, finite?, negative, hk0, hk.ne.symm, signedInf, value?, lift]
  | negZero =>
    have h : mul negZero (fin k) = ofExact (0 * k) (xor true (decide (k < 0))) := by
      simp [mul, isNaN, finite?, negative]
    rw [h, value_ofExact]
    rfl
  | fin q =>
    have h : mul (fin q) (fin k) = ofExact (q * k) (xor (decide (q < 0)) (decide (k < 0))) := by
      simp [mul, isNaN, finite?, negative]
    rw [h, value_ofExact]
    rfl

/-- The value of `Math.ceil`. -/
theorem value_ceil (d : JsDouble) : (ceil d).value? = d.value?.map ceilValue := by
  cases d with
  | nan => rfl
  | negInf => rfl
  | posInf => rfl
  | negZero => simp [ceil, value?, ceilValue]
  | fin q =>
    show (if -1 < q ∧ q < 0 then negZero else fin (⌈q⌉ : ℤ)).value? = _
    by_cases h : -1 < q ∧ q < 0
    · rw [if_pos h]
      have h1 : ⌈q⌉ = 0 := by
        rw [Int.ceil_eq_iff]
        constructor
        · simpa using h.1
        · simpa using h.2.le
      simp [value?, ceilValue, h1]
    · rw [if_neg h]
      rfl

theorem div_fin_fin (x y : ℚ) (hy : y ≠ 0) :
    div (fin x) (fin y) = ofExact (x / y) (xor (decide (x < 0)) (decide (y < 0))) := by
  simp [div, isNaN, finite?, negative, hy]

theorem mul_fin_fin (x y : ℚ) :
    mul (fin x) (fin y) = ofExact (x * y) (xor (decide (x < 0)) (decide (y < 0))) := by
  simp [mul, isNaN, finite?, negative]

/-- The double of an exact result that is not negative. -/
theorem ofExact_of_nonneg (x : ℚ) (hx : 0 ≤ x) :
    ofExact x false =
      if (2 : ℚ) ^ 1024 ≤ roundNearest x then posInf else fin (roundNearest x) := by
  have hr := roundNearest_nonneg x hx
  unfold ofExact
  dsimp only
  rw [abs_of_nonneg hr]
  by_cases h1 : (2 : ℚ) ^ 1024 ≤ roundNearest x
  · rw [if_pos h1, if_pos h1]
    have : ¬ roundNearest x < 0 := not_lt.2 hr
    simp [signedInf, this]
  · rw [if_neg h1, if_neg h1]
    by_cases h3 : roundNearest x = 0
    · rw [if_pos h3, h3]
      have : ¬ x < 0 := not_lt.2 hx
      by_cases h0 : x = 0 <;> simp [signedZero, h0, this]
    · rw [if_neg h3]

/-- The difference of two finite numbers is a number. -/
theorem sub_of_finite (a b : JsDouble) (x y : ℚ) (ha : a.finite? = some x)
    (hb : b.finite? = some y) : sub a b = ofExact (x - y) (a.negative && !b.negative) := by
  unfold sub
  rw [isNaN_of_finite a x ha, isNaN_of_finite b y hb, ha, hb]
  rfl

/-- The comparator of the route on two finite doubles: the difference is at
most 0 exactly when the first is at most the second. -/
theorem sub_le_zero_iff (a b : JsDouble) (x y : ℚ) (n m : ℤ) (ha : a.finite? = some x)
    (hb : b.finite? = some y) (hx : x = n * (2 : ℚ) ^ (-1074 : ℤ))
    (hy : y = m * (2 : ℚ) ^ (-1074 : ℤ)) : sub a b ≤ fin 0 ↔ x ≤ y := by
  rw [sub_of_finite a b x y ha hb, le_iff_value, value_ofExact]
  constructor
  · rintro ⟨u, v, hu, hv, h⟩
    cases hu
    cases hv
    exact (roundNearest_sub_nonpos x y n m hx hy).1 ((clamp_le_zero _).1 h)
  · intro h
    exact ⟨_, _, rfl, rfl, (clamp_le_zero _).2 ((roundNearest_sub_nonpos x y n m hx hy).2 h)⟩

end JsDouble

/-- The value of `calculateTravelTime(d, s)` at a positive finite speed. -/
theorem calculateTravelTime_value (d : JsDouble) (s : ℚ) (hs : 0 < s) :
    (calculateTravelTime d (.fin s)).value? =
      d.value?.map (fun v =>
        JsDouble.ceilValue (JsDouble.lift (fun x => x * 60)
          (JsDouble.lift (fun x => x / s) v))) := by
  unfold calculateTravelTime
  dsimp only
  rw [JsDouble.value_ceil, JsDouble.value_mul_pos _ 60 (by norm_num),
    JsDouble.value_div_pos d s hs]
  cases d.value? <;> rfl

/-- The travel time does not decrease with the distance, at any positive finite
speed: when `d₁ <= d₂` holds in JavaScript, so does
`calculateTravelTime(d₁, s) <= calculateTravelTime(d₂, s)`. -/
theorem calculateTravelTime_mono (s : ℚ) (hs : 0 < s) (d₁ d₂ : JsDouble) (h : d₁ ≤ d₂) :
    calculateTravelTime d₁ (.fin s) ≤ calculateTravelTime d₂ (.fin s) := by
  rw [JsDouble.le_iff_value] at h ⊢
  obtain ⟨x, y, hx, hy, hxy⟩ := h
  rw [calculateTravelTime_value d₁ s hs, calculateTravelTime_value d₂ s hs, hx, hy]
  refine ⟨_, _, rfl, rfl, ?_⟩
  apply JsDouble.ceilValue_mono
  apply JsDouble.lift_mono _ (fun a b hab => mul_le_mul_of_nonneg_right hab (by norm_num))
  exact JsDouble.lift_mono _ (fun a b hab => div_le_div_of_nonneg_right hab hs.le) _ _ hxy

/-! ## Sorting by distance -/

theorem orderedInsert_congr {α : Type} (r s : α → α → Prop) [DecidableRel r] [DecidableRel s]
    (a : α) (l : List α) (h : ∀ b ∈ l, (r a b ↔ s a b)) :
    l.orderedInsert r a = l.orderedInsert s a := by
  induction l with
  | nil => rfl
  | cons b l ih =>
    have hb := h b (List.mem_cons_self _ _)
    have ih' := ih (fun c hc => h c (List.mem_cons_of_mem _ hc))
    by_cases hr : r a b
    · simp only [List.orderedInsert, hr, hb.1 hr, if_true]
    · have hs : ¬ s a b := fun hs => hr (hb.2 hs)
      simp only [List.orderedInsert, hr, hs, if_false, ih']

/-- An insertion sort only looks at the order of the elements of its list. -/
theorem insertionSort_congr {α : Type} (r s : α → α → Prop) [DecidableRel r] [DecidableRel s]
    (l : List α) (h : ∀ a ∈ l, ∀ b ∈ l, (r a b ↔ s a b)) :
    l.insertionSort r = l.insertionSort s := by
  induction l with
  | nil => rfl
  | cons a l ih =>
    have ih' := ih (fun x hx y hy => h x (List.mem_cons_of_mem _ hx) y (List.mem_cons_of_mem _ hy))
    show List.orderedInsert r a (l.insertionSort r) = List.orderedInsert s a (l.insertionSort s)
    rw [ih']
    apply orderedInsert_congr
    intro b hb
    exact h a (List.mem_cons_self _ _) b
      (List.mem_cons_of_mem _ ((List.perm_insertionSort s l).subset hb))

theorem insertionSort_sorted_key {α : Type} (key : α → ℚ) (xs : List α) :
    (xs.insertionSort (fun a b => key a ≤ key b)).Pairwise (fun a b => key a ≤ key b) := by
  haveI : IsTotal α (fun a b => key a ≤ key b) := ⟨fun a b => le_total (key a) (key b)⟩
  haveI : IsTrans α (fun a b => key a ≤ key b) := ⟨fun a b c hab hbc => le_trans hab hbc⟩
  exact List.sorted_insertionSort (fun a b => key a ≤ key b) xs

theorem filter_orderedInsert_key {α : Type} (key : α → ℚ) (d : ℚ) (a : α) (l : List α) :
    (List.orderedInsert (fun a b => key a ≤ key b) a l).filter (fun x => key x = d) =
      (a :: l).filter (fun x => key x = d) := by
  induction l with
  | nil => rfl
  | cons b l ih =>
    by_cases hab : key a ≤ key b
    · simp only [List.orderedInsert, hab, if_true]
    · simp only [List.orderedInsert, hab, if_false]
      by_cases hb : key b = d
      · have ha : ¬ key a = d := by
          intro ha
          apply hab
          rw [ha, hb]
        rw [List.filter_cons_of_pos (by simpa using hb), ih,
          List.filter_cons_of_neg (by simpa using ha), List.filter_cons_of_neg (by simpa using ha),
          List.filter_cons_of_pos (by simpa using hb)]
      · rw [List.filter_cons_of_neg (by simpa using hb), ih]
        by_cases ha : key a = d
        · rw [List.filter_cons_of_pos (by simpa using ha), List.filter_cons_of_pos (by simpa using ha),
            List.filter_cons_of_neg (by simpa using hb)]
        · rw [List.filter_cons_of_neg (by simpa using ha), List.filter_cons_of_neg (by simpa using ha),
            List.filter_cons_of_neg (by simpa using hb)]

/-- Stability of the insertion sort: the elements of one key keep their order. -/
theorem insertionSort_filter_key {α : Type} (key : α → ℚ) (d : ℚ) (xs : List α) :
    (xs.insertionSort (fun a b => key a ≤ key b)).filter (fun x => key x = d) =
      xs.filter (fun x => key x = d) := by
  induction xs with
  | nil => rfl
  | cons a l ih =>
    show (List.orderedInsert (fun a b => key a ≤ key b) a
      (l.insertionSort (fun a b => key a ≤ key b))).filter _ = _
    rw [filter_orderedInsert_key]
    by_cases ha : key a = d
    · rw [List.filter_cons_of_pos (by simpa using ha), List.filter_cons_of_pos (by simpa using ha), ih]
    · rw [List.filter_cons_of_neg (by simpa using ha), List.filter_cons_of_neg (by simpa using ha), ih]

/-- The sort rearranges the array, whatever the comparator returns. -/
theorem jsSort_perm {α : Type} (implementationDefined : List α → List α)
    (himpl : ∀ xs, (implementationDefined xs).Perm xs) (compareFn : α → α → JsDouble)
    (xs : List α) : (jsSort implementationDefined compareFn xs).Perm xs := by
  unfold jsSort
  split_ifs
  · exact himpl xs
  · exact List.perm_insertionSort _ xs

/-- The sort under a comparator that returns no NaN on the elements and orders
them by a key. -/
theorem jsSort_of_key {α : Type} (implementationDefined : List α → List α)
    (compareFn : α → α → JsDouble) (key : α → ℚ) (xs : List α)
    (hnan : ∀ a ∈ xs, ∀ b ∈ xs, (compareFn a b).isNaN = false)
    (hle : ∀ a ∈ xs, ∀ b ∈ xs, (compareFn a b ≤ JsDouble.fin 0 ↔ key a ≤ key b)) :
    jsSort implementationDefined compareFn xs =
      xs.insertionSort (fun a b => key a ≤ key b) := by
  unfold jsSort
  have hany : xs.any (fun a => xs.any (fun b => (compareFn a b).isNaN)) = false := by
    rw [Bool.eq_false_iff]
    intro h
    obtain ⟨a, ha, h2⟩ := List.any_eq_true.1 h
    obtain ⟨b, hb, h3⟩ := List.any_eq_true.1 h2
    rw [hnan a ha b hb] at h3
    cases h3
  rw [hany]
  simp only [Bool.false_eq_true, if_false]
  exact insertionSort_congr _ _ xs hle

/-- The value of a finite double is a whole multiple of `2^-1074` when the
double is so, the zeros included. -/
theorem finite_grid (d : JsDouble) (x : ℚ) (hx : d.finite? = some x)
    (hgrid : ∀ q, d = .fin q → ∃ n : ℤ, q = n * (2 : ℚ) ^ (-1074 : ℤ)) :
    ∃ n : ℤ, x = n * (2 : ℚ) ^ (-1074 : ℤ) := by
  cases d with
  | nan => cases hx
  | negInf => cases hx
  | posInf => cases hx
  | negZero =>
    cases hx
    exact ⟨0, by simp⟩
  | fin q =>
    cases hx
    exact hgrid x rfl

/-- The sort of the route on rows whose distances are all finite doubles: a
stable insertion sort by the value of the distance. -/
theorem jsSort_rows (num : Numerics) (rows : List NearestRow)
    (hgrid : ∀ r ∈ rows, ∀ q, r.distance_km = .fin q → ∃ n : ℤ, q = n * (2 : ℚ) ^ (-1074 : ℤ))
    (hfin : ∀ r ∈ rows, r.distance_km.isFinite = true) :
    jsSort num.sortInconsistent (fun a b => a.distance_km.sub b.distance_km) rows =
      rows.insertionSort (fun a b =>
        a.distance_km.finite?.getD 0 ≤ b.distance_km.finite?.getD 0) := by
  apply jsSort_of_key num.sortInconsistent _ (fun r : NearestRow => r.distance_km.finite?.getD 0)
  · intro a ha b hb
    obtain ⟨x, hx⟩ := (JsDouble.isFinite_iff _).1 (hfin a ha)
    obtain ⟨y, hy⟩ := (JsDouble.isFinite_iff _).1 (hfin b hb)
    show (a.distance_km.sub b.distance_km).isNaN = false
    rw [JsDouble.sub_of_finite _ _ x y hx hy]
    exact JsDouble.isNaN_ofExact _ _
  · intro a ha b hb
    obtain ⟨x, hx⟩ := (JsDouble.isFinite_iff _).1 (hfin a ha)
    obtain ⟨y, hy⟩ := (JsDouble.isFinite_iff _).1 (hfin b hb)
    obtain ⟨n, hn⟩ := finite_grid _ x hx (hgrid a ha)
    obtain ⟨m, hm⟩ := finite_grid _ y hy (hgrid b hb)
    show a.distance_km.sub b.distance_km ≤ JsDouble.fin 0 ↔
      a.distance_km.finite?.getD 0 ≤ b.distance_km.finite?.getD 0
    rw [JsDouble.sub_le_zero_iff _ _ x y n m hx hy hn hm, hx, hy]
    rfl

theorem nearestOf_eq (num : Numerics) (rows : List NearestRow) :
    nearestOf num rows =
      (jsSort num.sortInconsistent (fun a b => a.distance_km.sub b.distance_km) rows).take 5 := by
  simp [nearestOf, jsSlice]

theorem nearestOf_length (num : Numerics) (rows : List NearestRow) :
    (nearestOf num rows).length = min 5 rows.length := by
  rw [nearestOf_eq, List.length_take, (jsSort_perm _ num.sort_perm _ rows).length_eq]

theorem nearestOf_perm (num : Numerics) (rows : List NearestRow) :
    (nearestOf num rows ++
      (jsSort num.sortInconsistent (fun a b => a.distance_km.sub b.distance_km) rows).drop
        5).Perm rows := by
  rw [nearestOf_eq, List.take_append_drop]
  exact jsSort_perm _ num.sort_perm _ rows

theorem nearestOf_subset (num : Numerics) (rows : List NearestRow) :
    ∀ x ∈ nearestOf num rows, x ∈ rows := by
  intro x hx
  rw [nearestOf_eq] at hx
  exact (jsSort_perm _ num.sort_perm _ rows).subset (List.mem_of_mem_take hx)

/-- On finite numbers the order of the values is the JavaScript `<=`. -/
theorem le_of_key (a b : JsDouble) (ha : a.isFinite = true) (hb : b.isFinite = true)
    (h : a.finite?.getD 0 ≤ b.finite?.getD 0) : a ≤ b := by
  obtain ⟨x, hx⟩ := (JsDouble.isFinite_iff _).1 ha
  obtain ⟨y, hy⟩ := (JsDouble.isFinite_iff _).1 hb
  rw [hx, hy] at h
  exact (JsDouble.le_of_finite a b x y hx hy).2 h

theorem nearestOf_sorted (num : Numerics) (rows : List NearestRow)
    (hgrid : ∀ r ∈ rows, ∀ q, r.distance_km = .fin q → ∃ n : ℤ, q = n * (2 : ℚ) ^ (-1074 : ℤ))
    (hfin : ∀ r ∈ rows, r.distance_km.isFinite = true) :
    (nearestOf num rows).Pairwise (fun a b => a.distance_km ≤ b.distance_km) := by
  have hsub := nearestOf_subset num rows
  rw [nearestOf_eq, jsSort_rows num rows hgrid hfin] at hsub ⊢
  have h := (insertionSort_sorted_key (fun r : NearestRow => r.distance_km.finite?.getD 0)
    rows).sublist (List.take_sublist 5 _)
  refine List.Pairwise.imp_of_mem ?_ h
  intro a b ha hb hab
  exact le_of_key _ _ (hfin a (hsub a ha)) (hfin b (hsub b hb)) hab

theorem nearestOf_le_rest (num : Numerics) (rows : List NearestRow)
    (hgrid : ∀ r ∈ rows, ∀ q, r.distance_km = .fin q → ∃ n : ℤ, q = n * (2 : ℚ) ^ (-1074 : ℤ))
    (hfin : ∀ r ∈ rows, r.distance_km.isFinite = true) :
    ∀ x ∈ nearestOf num rows,
      ∀ y ∈ (jsSort num.sortInconsistent (fun a b => a.distance_km.sub b.distance_km)
          rows).drop 5,
        x.distance_km ≤ y.distance_km := by
  intro x hx y hy
  have hperm := jsSort_perm _ num.sort_perm (fun a b : NearestRow =>
    a.distance_km.sub b.distance_km) rows
  have hxr : x ∈ rows := nearestOf_subset num rows x hx
  have hyr : y ∈ rows := hperm.subset (List.mem_of_mem_drop hy)
  rw [nearestOf_eq] at hx
  rw [jsSort_rows num rows hgrid hfin] at hx hy
  exact le_of_key _ _ (hfin x hxr) (hfin y hyr)
    (List.Sorted.rel_of_mem_take_of_mem_drop
      (insertionSort_sorted_key (fun r : NearestRow => r.distance_km.finite?.getD 0) rows)
      hx hy)

theorem filter_finite_eq (rows : List NearestRow) (d : ℚ)
    (hfin : ∀ r ∈ rows, r.distance_km.isFinite = true) :
    rows.filter (fun r => r.distance_km.finite? = some d) =
      rows.filter (fun r => r.distance_km.finite?.getD 0 = d) := by
  apply List.filter_congr
  intro r hr
  obtain ⟨x, hx⟩ := (JsDouble.isFinite_iff _).1 (hfin r hr)
  rw [hx]
  simp

theorem nearestOf_stable (num : Numerics) (rows : List NearestRow) (d : ℚ)
    (hgrid : ∀ r ∈ rows, ∀ q, r.distance_km = .fin q → ∃ n : ℤ, q = n * (2 : ℚ) ^ (-1074 : ℤ))
    (hfin : ∀ r ∈ rows, r.distance_km.isFinite = true) :
    (nearestOf num rows).filter (fun r => r.distance_km.finite? = some d) <+:
      rows.filter (fun r => r.distance_km.finite? = some d) := by
  have hsub := nearestOf_subset num rows
  rw [filter_finite_eq rows d hfin,
    filter_finite_eq (nearestOf num rows) d (fun r hr => hfin r (hsub r hr)),
    nearestOf_eq, jsSort_rows num rows hgrid hfin,
    ← insertionSort_filter_key (fun r : NearestRow => r.distance_km.finite?.getD 0) d rows]
  exact (List.take_prefix _ _).filter _

/-- A list that holds a row whose distance is NaN and another row is not in
non-decreasing order of distance, however it is arranged. -/
theorem not_sorted_of_nan (l : List NearestRow) (a b : NearestRow) (ha : a ∈ l) (hb : b ∈ l)
    (hab : a ≠ b) (hnan : a.distance_km = .nan) :
    ¬ l.Pairwise (fun a b => a.distance_km ≤ b.distance_km) := by
  intro h
  have h2 : l.Pairwise (fun a b : NearestRow =>
      a.distance_km ≤ b.distance_km ∨ b.distance_km ≤ a.distance_km) :=
    h.imp (fun h => Or.inl h)
  have hsymm : Symmetric (fun a b : NearestRow =>
      a.distance_km ≤ b.distance_km ∨ b.distance_km ≤ a.distance_km) :=
    fun _ _ h => h.symm
  rcases h2.forall hsymm ha hb hab with h3 | h3
  · rw [hnan] at h3
    exact JsDouble.not_le_nan_left _ h3
  · rw [hnan] at h3
    exact JsDouble.not_le_nan_right _ h3

/-- The same for the travel times. -/
theorem not_sorted_of_nan_minutes (l : List NearestRow) (a b : NearestRow) (ha : a ∈ l)
    (hb : b ∈ l) (hab : a ≠ b) (hnan : a.estimated_minutes = .nan) :
    ¬ l.Pairwise (fun a b => a.estimated_minutes ≤ b.estimated_minutes) := by
  intro h
  have h2 : l.Pairwise (fun a b : NearestRow =>
      a.estimated_minutes ≤ b.estimated_minutes ∨ b.estimated_minutes ≤ a.estimated_minutes) :=
    h.imp (fun h => Or.inl h)
  have hsymm : Symmetric (fun a b : NearestRow =>
      a.estimated_minutes ≤ b.estimated_minutes ∨ b.estimated_minutes ≤ a.estimated_minutes) :=
    fun _ _ h => h.symm
  rcases h2.forall hsymm ha hb hab with h3 | h3
  · rw [hnan] at h3
    exact JsDouble.not_le_nan_left _ h3
  · rw [hnan] at h3
    exact JsDouble.not_le_nan_right _ h3

/-! ## `POST /api/ambulance/nearest` -/

theorem hasLocation_of_some (h : Candidate) (hospital : Hospital) (hh : h.hospital = some hospital) :
    hasLocation h = (hospital.latitude.truthy && hospital.longitude.truthy) := by
  simp [hasLocation, hh]

theorem filterLocated_of_all (hospitals : List Candidate)
    (hall : ∀ h ∈ hospitals, h.hospital.isSome = true) :
    filterLocated hospitals = .ok (hospitals.filter (fun h => hasLocation h)) := by
  induction hospitals with
  | nil => rfl
  | cons h rest ih =>
    have hh := hall h (List.mem_cons_self _ _)
    obtain ⟨hospital, hsome⟩ := Option.isSome_iff_exists.1 hh
    have ih' := ih (fun x hx => hall x (List.mem_cons_of_mem _ hx))
    simp only [filterLocated, hsome, ih', List.filter_cons, hasLocation_of_some h hospital hsome]
    split_ifs <;> rfl

theorem toRows_located (num : Numerics) (latitude longitude : JsVal)
    (hospitals : List Candidate) :
    toRows num latitude longitude (hospitals.filter (fun h => hasLocation h)) =
      .ok (rowsOf num latitude longitude hospitals) := by
  induction hospitals with
  | nil => rfl
  | cons h rest ih =>
    unfold rowsOf at ih ⊢
    by_cases hl : hasLocation h = true
    · rw [List.filter_cons_of_pos hl]
      cases hh : h.hospital with
      | none => simp [hasLocation, hh] at hl
      | some hospital =>
        simp only [toRows, toRow, hh, ih, List.filterMap_cons, Except.toOption]
    · rw [List.filter_cons_of_neg hl]
      exact ih

theorem toRows_length (num : Numerics) (latitude longitude : JsVal) :
    ∀ (l : List Candidate) (rows : List NearestRow),
      toRows num latitude longitude l = .ok rows → rows.length = l.length := by
  intro l
  induction l with
  | nil =>
    intro rows h
    cases h
    rfl
  | cons h rest ih =>
    intro rows hr
    simp only [toRows] at hr
    split at hr
    · cases hr
    · split at hr
      · cases hr
      · next rows' hrest =>
        cases hr
        rw [List.length_cons, List.length_cons, ih rows' hrest]

theorem rowsOf_length (num : Numerics) (latitude longitude : JsVal)
    (hospitals : List Candidate) :
    (rowsOf num latitude longitude hospitals).length =
      (hospitals.filter (fun h => hasLocation h)).length :=
  toRows_length num latitude longitude _ _ (toRows_located num latitude longitude hospitals)

theorem mem_rowsOf (num : Numerics) (latitude longitude : JsVal) (hospitals : List Candidate)
    (row : NearestRow) (hrow : row ∈ rowsOf num latitude longitude hospitals) :
    ∃ h ∈ hospitals, hasLocation h = true ∧ row.resource = h.resource := by
  unfold rowsOf at hrow
  obtain ⟨h, hmem, hr⟩ := List.mem_filterMap.1 hrow
  have hf := List.mem_filter.1 hmem
  refine ⟨h, hf.1, hf.2, ?_⟩
  cases hh : h.hospital with
  | none => simp [toRow, hh, Except.toOption] at hr
  | some hospital =>
    simp only [toRow, hh, Except.toOption, Option.some.injEq] at hr
    rw [← hr]

theorem rank_of_all (num : Numerics) (latitude longitude : JsVal) (hospitals : List Candidate)
    (hall : ∀ h ∈ hospitals, h.hospital.isSome = true) :
    rank num latitude longitude hospitals =
      .ok (nearestOf num (rowsOf num latitude longitude hospitals)) := by
  simp only [rank, filterLocated_of_all hospitals hall, toRows_located]

theorem nearest_of_pass (env : Env) (num : Numerics) (w : World) (req : NearestRequest)
    (hpass : req.passesChecks = true) :
    nearest env num w req = respond num req (req.min_available.getD 1) (queried env w req) := by
  unfold NearestRequest.passesChecks at hpass
  simp only [Bool.and_eq_true, Bool.or_eq_true, Bool.not_eq_true', decide_eq_false_iff_not]
    at hpass
  obtain ⟨⟨⟨hla, hlo⟩, hnt⟩, hbg⟩ := hpass
  unfold nearest queried
  simp only [hla, hlo, hnt, Bool.not_true, Bool.or_self, Bool.false_eq_true, if_false]
  by_cases hb : req.need_type = .str "blood"
  · rcases hbg with hbg | hbg
    · exact absurd hb hbg
    · simp only [hb, hbg, if_true, Bool.not_true, Bool.false_eq_true, if_false]
  · simp only [hb, if_false]

theorem nearest_of_all (env : Env) (num : Numerics) (w : World) (req : NearestRequest)
    (hospitals : List Candidate) (hpass : req.passesChecks = true)
    (hq : queried env w req = .ok hospitals)
    (hall : ∀ h ∈ hospitals, h.hospital.isSome = true) :
    nearest env num w req =
      .success (nearestOf num (rowsOf num req.latitude req.longitude hospitals)).length
        req.latitude req.longitude req.need_type req.blood_group (req.min_available.getD 1)
        (nearestOf num (rowsOf num req.latitude req.longitude hospitals)) := by
  rw [nearest_of_pass env num w req hpass, hq]
  simp only [respond, rank_of_all num req.latitude req.longitude hospitals hall]

/-- Each row the route builds carries a result of `calculateDistance`. -/
theorem rowsOf_distance (num : Numerics) (latitude longitude : JsVal)
    (hospitals : List Candidate) (row : NearestRow)
    (hrow : row ∈ rowsOf num latitude longitude hospitals) :
    ∃ lat2 lon2, row.distance_km = num.calculateDistance latitude longitude lat2 lon2 := by
  unfold rowsOf at hrow
  obtain ⟨h, _, hr⟩ := List.mem_filterMap.1 hrow
  cases hh : h.hospital with
  | none => simp [toRow, hh, Except.toOption] at hr
  | some hospital =>
    simp only [toRow, hh, Except.toOption, Option.some.injEq] at hr
    rw [← hr]
    exact ⟨_, _, rfl⟩

/-- A finite distance of a row is a double. -/
theorem rowsOf_grid (num : Numerics) (latitude longitude : JsVal) (hospitals : List Candidate) :
    ∀ r ∈ rowsOf num latitude longitude hospitals, ∀ q, r.distance_km = .fin q →
      ∃ n : ℤ, q = n * (2 : ℚ) ^ (-1074 : ℤ) := by
  intro r hr q hq
  obtain ⟨lat2, lon2, hd⟩ := rowsOf_distance num latitude longitude hospitals r hr
  rw [hd] at hq
  exact num.distance_double _ _ _ _ q hq

/-- C6 fails as stated: of three candidates, the second with a latitude that is
no number, the route returns the rows at the distances 5, NaN and 3 in that
order, which is not non-decreasing; and since `NaN <= x` and `x <= NaN` are
false, no arrangement of the three rows is in non-decreasing order. Likewise a
request whose own latitude is the text `'abc'` passes the checks and gets two
rows whose distances are NaN. -/
theorem nearest_ranked_counterexample :
    demoRequest.passesChecks = true ∧
    queried demoEnv nanWorld demoRequest = .ok nanCandidates ∧
    (∀ h ∈ nanCandidates, h.hospital.isSome = true) ∧
    (nearest demoEnv demoNumerics nanWorld demoRequest).data.map
      (fun r => (r.hospital_id, r.distance_km)) =
        [("n1", .fin 5), ("n2", .nan), ("n3", .fin 3)] ∧
    ¬ (nearest demoEnv demoNumerics nanWorld demoRequest).data.Pairwise
      (fun a b => a.distance_km ≤ b.distance_km) ∧
    textRequest.passesChecks = true ∧
    queried demoEnv demoWorld textRequest = .ok demoCandidates ∧
    (nearest demoEnv demoNumerics demoWorld textRequest).data.map
      (fun r => (r.hospital_id, r.distance_km)) = [("kem", .nan), ("sion", .nan)] ∧
    ¬ (nearest demoEnv demoNumerics demoWorld textRequest).data.Pairwise
      (fun a b => a.distance_km ≤ b.distance_km) ∧
    ∀ data : List NearestRow,
      data.Perm (rowsOf demoNumerics (.num 18) (.num 73) nanCandidates) →
      ¬ data.Pairwise (fun a b => a.distance_km ≤ b.distance_km) := by
  refine ⟨by decide, by decide, by decide, by decide!, by decide!, by decide, by decide,
    by decide!, by decide!, ?_⟩
  intro data hperm
  have hrows : ∃ a ∈ rowsOf demoNumerics (.num 18) (.num 73) nanCandidates,
      ∃ b ∈ rowsOf demoNumerics (.num 18) (.num 73) nanCandidates,
        a ≠ b ∧ a.distance_km = .nan := by decide!
  obtain ⟨a, ha, b, hb, hab, hnan⟩ := hrows
  exact not_sorted_of_nan data a b (hperm.symm.subset ha) (hperm.symm.subset hb) hab hnan

/-- C6 as amended. For every list of candidates the store query returns to a
request that passes the checks (each candidate with its hospital embedded), the
route answers with a `data` array that has length
`min(5, number of candidates that pass the location filter)` and that, together
with a list `rest` of left-out rows, is a rearrangement of the rows built from
the located candidates; and when every distance computed for those rows is a
finite number (none is NaN), the `data` array is in non-decreasing `distance_km`
order and every left-out row is at least as far as every returned row. -/
theorem nearest_ranked (env : Env) (num : Numerics) (w : World) (req : NearestRequest)
    (hospitals : List Candidate) (hpass : req.passesChecks = true)
    (hq : queried env w req = .ok hospitals)
    (hall : ∀ h ∈ hospitals, h.hospital.isSome = true) :
    ∃ data rest,
      nearest env num w req =
        .success data.length req.latitude req.longitude req.need_type req.blood_group
          (req.min_available.getD 1) data ∧
      data.length = min 5 (hospitals.filter (fun h => hasLocation h)).length ∧
      (data ++ rest).Perm (rowsOf num req.latitude req.longitude hospitals) ∧
      ((∀ r ∈ rowsOf num req.latitude req.longitude hospitals,
          r.distance_km.isFinite = true) →
        data.Pairwise (fun a b => a.distance_km ≤ b.distance_km) ∧
        ∀ x ∈ data, ∀ y ∈ rest, x.distance_km ≤ y.distance_km) := by
  refine ⟨nearestOf num (rowsOf num req.latitude req.longitude hospitals),
    (jsSort num.sortInconsistent (fun a b => a.distance_km.sub b.distance_km)
      (rowsOf num req.latitude req.longitude hospitals)).drop 5,
    nearest_of_all env num w req hospitals hpass hq hall, ?_, nearestOf_perm num _, ?_⟩
  · rw [nearestOf_length, rowsOf_length]
  · intro hfin
    exact ⟨nearestOf_sorted num _ (rowsOf_grid num _ _ hospitals) hfin,
      nearestOf_le_rest num _ (rowsOf_grid num _ _ hospitals) hfin⟩

/-- Witness of C6: of seven candidates at the distances 30, 20, 20, 10, 20, 20
and 20, all finite, the route returns five, the nearest first. -/
theorem nearest_ranked_witness :
    demoRequest.passesChecks = true ∧
    queried demoEnv tieWorld demoRequest = .ok tieCandidates ∧
    (∀ h ∈ tieCandidates, h.hospital.isSome = true) ∧
    (∀ r ∈ rowsOf demoNumerics (.num 18) (.num 73) tieCandidates,
      r.distance_km.isFinite = true) ∧
    (nearest demoEnv demoNumerics tieWorld demoRequest).data.map (fun r => r.distance_km) =
      [.fin 10, .fin 20, .fin 20, .fin 20, .fin 20] ∧
    ∃ data rest,
      nearest demoEnv demoNumerics tieWorld demoRequest =
        .success data.length (.num 18) (.num 73) (.str "ICU") .undefined 1 data ∧
      data.length = min 5 (tieCandidates.filter (fun h => hasLocation h)).length ∧
      (data ++ rest).Perm (rowsOf demoNumerics (.num 18) (.num 73) tieCandidates) ∧
      data.Pairwise (fun a b => a.distance_km ≤ b.distance_km) ∧
      ∀ x ∈ data, ∀ y ∈ rest, x.distance_km ≤ y.distance_km := by
  refine ⟨by decide, by decide, by decide, by decide!, by decide!, ?_⟩
  obtain ⟨data, rest, hrun, hlen, hperm, hsorted⟩ :=
    nearest_ranked demoEnv demoNumerics tieWorld demoRequest tieCandidates
      (by decide) (by decide) (by decide)
  exact ⟨data, rest, hrun, hlen, hperm, hsorted (by decide!)⟩

/-- C7 fails as stated: of seven candidates, `m1` and `m4` with a latitude that
is no number, `m2` at the distance 2 and `m3`, `m5`, `m6`, `m7` at the distance
1, the route returns `m1`, `m3`, `m5`, `m7` and `m2`: the tie at the distance 1
straddles the cut, and `m7` is kept while `m6`, earlier in the result of the
store, is left out. The comparator returns NaN for a pair with `m1` or `m4`,
and the order is the one the sort of V8 leaves. -/
theorem nearest_stable_counterexample :
    demoRequest.passesChecks = true ∧
    queried demoEnv mixedWorld demoRequest = .ok mixedCandidates ∧
    (∀ h ∈ mixedCandidates, h.hospital.isSome = true) ∧
    (rowsOf demoNumerics (.num 18) (.num 73) mixedCandidates).map
      (fun r => (r.hospital_id, r.distance_km)) =
        [("m1", .nan), ("m2", .fin 2), ("m3", .fin 1), ("m4", .nan), ("m5", .fin 1),
         ("m6", .fin 1), ("m7", .fin 1)] ∧
    (nearest demoEnv demoNumerics mixedWorld demoRequest).data.map
      (fun r => (r.hospital_id, r.distance_km)) =
        [("m1", .nan), ("m3", .fin 1), ("m5", .fin 1), ("m7", .fin 1), ("m2", .fin 2)] ∧
    ¬ ((nearest demoEnv demoNumerics mixedWorld demoRequest).data.filter
        (fun r => r.distance_km.finite? = some 1) <+:
      (rowsOf demoNumerics (.num 18) (.num 73) mixedCandidates).filter
        (fun r => r.distance_km.finite? = some 1)) :=
  ⟨by decide, by decide, by decide, by decide!, by decide!, by decide!⟩

/-- C7 as amended. When every distance computed for the located candidates is a
finite number (none is NaN), the sort of the route is stable and the cut keeps
the earlier candidates: for every distance `d`, the returned rows of distance
`d` are an initial segment of the rows of distance `d` built from the
candidates, in the order in which the store query returned them. -/
theorem nearest_stable (env : Env) (num : Numerics) (w : World) (req : NearestRequest)
    (hospitals : List Candidate) (hpass : req.passesChecks = true)
    (hq : queried env w req = .ok hospitals)
    (hall : ∀ h ∈ hospitals, h.hospital.isSome = true)
    (hfin : ∀ r ∈ rowsOf num req.latitude req.longitude hospitals,
      r.distance_km.isFinite = true) :
    ∃ data,
      nearest env num w req =
        .success data.length req.latitude req.longitude req.need_type req.blood_group
          (req.min_available.getD 1) data ∧
      ∀ d : ℚ, data.filter (fun r => r.distance_km.finite? = some d) <+:
        (rowsOf num req.latitude req.longitude hospitals).filter
          (fun r => r.distance_km.finite? = some d) :=
  ⟨nearestOf num (rowsOf num req.latitude req.longitude hospitals),
    nearest_of_all env num w req hospitals hpass hq hall,
    fun d => nearestOf_stable num _ d (rowsOf_grid num _ _ hospitals) hfin⟩

/-- Witness of C7: of the five candidates at the distance 20, `h2`, `h3`, `h5`,
`h6` and `h7` in store order, the first four are returned, in that order, after
`h4`. -/
theorem nearest_stable_witness :
    demoRequest.passesChecks = true ∧
    queried demoEnv tieWorld demoRequest = .ok tieCandidates ∧
    (∀ h ∈ tieCandidates, h.hospital.isSome = true) ∧
    (∀ r ∈ rowsOf demoNumerics (.num 18) (.num 73) tieCandidates,
      r.distance_km.isFinite = true) ∧
    (nearest demoEnv demoNumerics tieWorld demoRequest).data.map (fun r => r.hospital_id) =
      ["h4", "h2", "h3", "h5", "h6"] ∧
    ∃ data,
      nearest demoEnv demoNumerics tieWorld demoRequest =
        .success data.length (.num 18) (.num 73) (.str "ICU") .undefined 1 data ∧
      ∀ d : ℚ, data.filter (fun r => r.distance_km.finite? = some d) <+:
        (rowsOf demoNumerics (.num 18) (.num 73) tieCandidates).filter
          (fun r => r.distance_km.finite? = some d) :=
  ⟨by decide, by decide, by decide, by decide!, by decide!,
   nearest_stable demoEnv demoNumerics tieWorld demoRequest tieCandidates
     (by decide) (by decide) (by decide) (by decide!)⟩

theorem queried_resource (env : Env) (w : World) (req : NearestRequest)
    (hospitals : List Candidate) (hq : queried env w req = .ok hospitals) :
    ∀ h ∈ hospitals, req.min_available.getD 1 ≤ h.resource.figure ∧
      (req.need_type = .str "blood" →
        h.resource.resource_type = "blood" ∧ h.resource.kind = req.blood_group) ∧
      (req.need_type ≠ .str "blood" →
        h.resource.resource_type = "bed" ∧ h.resource.kind = req.need_type) := by
  intro h hh
  unfold queried at hq
  by_cases hb : req.need_type = .str "blood"
  · simp only [hb, if_true, queryBlood] at hq
    split_ifs at hq
    cases hq
    obtain ⟨blood, hblood, rfl⟩ := List.mem_map.1 hh
    have hf := (List.mem_filter.1 hblood).2
    simp only [decide_eq_true_eq] at hf
    exact ⟨hf.2, fun _ => ⟨rfl, hf.1⟩, fun hne => absurd hb hne⟩
  · simp only [hb, if_false, queryBeds] at hq
    split_ifs at hq
    cases hq
    obtain ⟨bed, hbed, rfl⟩ := List.mem_map.1 hh
    have hf := (List.mem_filter.1 hbed).2
    simp only [decide_eq_true_eq] at hf
    exact ⟨hf.2, fun hbl => absurd hbl hb, fun _ => ⟨rfl, hf.1⟩⟩

/-- C8. For every request that passes the checks and every result of its store
query (each candidate with its hospital embedded), the route answers with rows
whose resource figure (`available_beds` or `units_available`) is at least the
`min_available` of the request, which is 1 when the request gives none, and whose
`bed_type` (for a bed need) or `blood_group` (for a blood need) is the
requested one. -/
theorem nearest_rows_meet_need (env : Env) (num : Numerics) (w : World) (req : NearestRequest)
    (hospitals : List Candidate) (hpass : req.passesChecks = true)
    (hq : queried env w req = .ok hospitals)
    (hall : ∀ h ∈ hospitals, h.hospital.isSome = true) :
    ∃ min_available data,
      nearest env num w req =
        .success data.length req.latitude req.longitude req.need_type req.blood_group
          min_available data ∧
      (∀ m, req.min_available = some m → min_available = m) ∧
      (req.min_available = none → min_available = 1) ∧
      ∀ row ∈ data, min_available ≤ row.resource.figure ∧
        (req.need_type = .str "blood" →
          row.resource.resource_type = "blood" ∧ row.resource.kind = req.blood_group) ∧
        (req.need_type ≠ .str "blood" →
          row.resource.resource_type = "bed" ∧ row.resource.kind = req.need_type) := by
  refine ⟨req.min_available.getD 1,
    nearestOf num (rowsOf num req.latitude req.longitude hospitals),
    nearest_of_all env num w req hospitals hpass hq hall, ?_, ?_, ?_⟩
  · intro m hm
    rw [hm]
    rfl
  · intro hm
    rw [hm]
    rfl
  · intro row hrow
    obtain ⟨h, hh, _, hres⟩ := mem_rowsOf num req.latitude req.longitude hospitals row
      (nearestOf_subset num _ row hrow)
    rw [hres]
    exact queried_resource env w req hospitals hq h hh

/-- Witness of C8 in the demo world. -/
theorem nearest_rows_meet_need_witness :
    demoRequest.passesChecks = true ∧
    queried demoEnv demoWorld demoRequest = .ok demoCandidates ∧
    (∀ h ∈ demoCandidates, h.hospital.isSome = true) ∧
    ∃ data,
      nearest demoEnv demoNumerics demoWorld demoRequest =
        .success data.length (.num 18) (.num 73) (.str "ICU") .undefined 1 data ∧
      ∀ row ∈ data, (1 : JsNum) ≤ row.resource.figure ∧ row.resource.kind = .str "ICU" := by
  refine ⟨by decide, by decide, by decide, ?_⟩
  obtain ⟨m, data, hrun, _, hm, hrows⟩ :=
    nearest_rows_meet_need demoEnv demoNumerics demoWorld demoRequest demoCandidates
      (by decide) (by decide) (by decide)
  have h1 : m = 1 := hm rfl
  subst h1
  exact ⟨data, hrun, fun row hrow =>
    ⟨(hrows row hrow).1, ((hrows row hrow).2.2 (by decide)).2⟩⟩

/-- C9, the code at the failing input: a request that supplies `latitude`,
`longitude` and `need_type`, with the numeric latitude 0, is rejected as if a
required field were missing. -/
theorem nearest_rejects_equator (env : Env) (num : Numerics) (w : World) :
    ¬ equatorRequest.latitude.absent ∧ ¬ equatorRequest.longitude.absent ∧
    ¬ equatorRequest.need_type.absent ∧ equatorRequest.need_type ≠ .str "blood" ∧
    nearest env num w equatorRequest =
      .error 400 "Missing required fields: latitude, longitude, need_type" :=
  ⟨by decide, by decide, by decide, by decide, rfl⟩

/-- C10, the code at the failing input: the only candidate has a hospital whose
record carries both coordinates, latitude 0 and longitude 9, yet it is
discarded before ranking and the response holds no row. -/
theorem nearest_drops_equator_hospital (num : Numerics) :
    queried demoEnv equatorWorld equatorSearch =
      .ok [{ hospital := some (demoHospital "equator" (.num 0) (.num 9)),
             resource := .bed "ICU" 3 10, last_updated := "" }] ∧
    nearest demoEnv num equatorWorld equatorSearch =
      .success 0 (.num 1) (.num 9) (.str "ICU") .undefined 1 [] :=
  ⟨by decide, rfl⟩

/-! ## Travel times of the ranked rows -/

/-- Each row the route builds carries the travel time of its distance at the
default speed. -/
theorem rowsOf_minutes (num : Numerics) (latitude longitude : JsVal)
    (hospitals : List Candidate) :
    ∀ r ∈ rowsOf num latitude longitude hospitals,
      r.estimated_minutes = calculateTravelTime r.distance_km := by
  intro row hrow
  unfold rowsOf at hrow
  obtain ⟨h, _, hr⟩ := List.mem_filterMap.1 hrow
  cases hh : h.hospital with
  | none => simp [toRow, hh, Except.toOption] at hr
  | some hospital =>
    simp only [toRow, hh, Except.toOption, Option.some.injEq] at hr
    rw [← hr]

theorem filterLocated_of_none (hospitals : List Candidate)
    (hnone : ∃ h ∈ hospitals, h.hospital.isSome = false) :
    filterLocated hospitals = .error .typeError := by
  induction hospitals with
  | nil =>
    obtain ⟨h, hh, _⟩ := hnone
    cases hh
  | cons h rest ih =>
    cases hh : h.hospital with
    | none => simp only [filterLocated, hh]
    | some hospital =>
      have hrest : ∃ x ∈ rest, x.hospital.isSome = false := by
        obtain ⟨x, hx, hxn⟩ := hnone
        rcases List.mem_cons.1 hx with rfl | hx
        · rw [hh] at hxn
          cases hxn
        · exact ⟨x, hx, hxn⟩
      simp only [filterLocated, hh, ih hrest]

theorem respond_data (num : Numerics) (req : NearestRequest) (min_available : JsNum)
    (q : Except Thrown (List Candidate)) :
    (respond num req min_available q).data = [] ∨
    ∃ hospitals, q = .ok hospitals ∧
      (respond num req min_available q).data =
        nearestOf num (rowsOf num req.latitude req.longitude hospitals) := by
  cases q with
  | error e => exact Or.inl rfl
  | ok hospitals =>
    by_cases hall : ∀ h ∈ hospitals, h.hospital.isSome = true
    · refine Or.inr ⟨hospitals, rfl, ?_⟩
      simp only [respond, rank_of_all num req.latitude req.longitude hospitals hall]
      rfl
    · left
      have hnone : ∃ h ∈ hospitals, h.hospital.isSome = false := by
        by_contra hcon
        apply hall
        intro h hh
        by_contra hs
        exact hcon ⟨h, hh, by simpa using hs⟩
      simp only [respond, rank, filterLocated_of_none hospitals hnone]
      rfl

/-- The `data` array of a response is empty or holds the nearest rows built
from the result of the store query. -/
theorem nearest_data (env : Env) (num : Numerics) (w : World) (req : NearestRequest) :
    (nearest env num w req).data = [] ∨
    ∃ hospitals, queried env w req = .ok hospitals ∧
      (nearest env num w req).data =
        nearestOf num (rowsOf num req.latitude req.longitude hospitals) := by
  unfold nearest queried
  dsimp only
  split_ifs <;> first | exact Or.inl rfl | exact respond_data _ _ _ _

/-- C29 fails as stated: of three candidates, the second with a latitude that is
no number, the route returns rows with the distances 5, NaN and 3 and the
travel times 8, NaN and 5, in that order, which is not non-decreasing; no
arrangement of the three rows is in non-decreasing order of travel time. -/
theorem nearest_minutes_counterexample :
    (nearest demoEnv demoNumerics nanWorld demoRequest).data.map
      (fun r => (r.distance_km, r.estimated_minutes)) =
        [(.fin 5, .fin 8), (.nan, .nan), (.fin 3, .fin 5)] ∧
    ¬ (nearest demoEnv demoNumerics nanWorld demoRequest).data.Pairwise
      (fun a b => a.estimated_minutes ≤ b.estimated_minutes) ∧
    ∀ data : List NearestRow,
      data.Perm (rowsOf demoNumerics (.num 18) (.num 73) nanCandidates) →
      ¬ data.Pairwise (fun a b => a.estimated_minutes ≤ b.estimated_minutes) := by
  refine ⟨by decide!, by decide!, ?_⟩
  intro data hperm
  have hrows : ∃ a ∈ rowsOf demoNumerics (.num 18) (.num 73) nanCandidates,
      ∃ b ∈ rowsOf demoNumerics (.num 18) (.num 73) nanCandidates,
        a ≠ b ∧ a.estimated_minutes = .nan := by decide!
  obtain ⟨a, ha, b, hb, hab, hnan⟩ := hrows
  exact not_sorted_of_nan_minutes data a b (hperm.symm.subset ha) (hperm.symm.subset hb)
    hab hnan

/-- C29 as amended. In the `data` array of every response of
`POST /api/ambulance/nearest` each row's `estimated_minutes` is
`calculateTravelTime` of its `distance_km` at the speed 40, and
`calculateTravelTime` at the speed 40 is monotone non-decreasing in the distance
(the two roundings to the nearest double and `Math.ceil` are monotone); when
every distance computed for the located candidates is a finite number (none is
NaN), the rows are in non-decreasing `distance_km` order and in non-decreasing
`estimated_minutes` order, and the first row has the least distance and the
least travel time of all rows. -/
theorem nearest_minutes_ranked (env : Env) (num : Numerics) (w : World) (req : NearestRequest)
    (hfin : ∀ hospitals, queried env w req = .ok hospitals →
      ∀ r ∈ rowsOf num req.latitude req.longitude hospitals, r.distance_km.isFinite = true) :
    (∀ r ∈ (nearest env num w req).data,
      r.estimated_minutes = calculateTravelTime r.distance_km (.fin 40)) ∧
    (nearest env num w req).data.Pairwise (fun a b => a.distance_km ≤ b.distance_km) ∧
    (nearest env num w req).data.Pairwise
      (fun a b => a.estimated_minutes ≤ b.estimated_minutes) ∧
    (∀ first, (nearest env num w req).data.head? = some first →
      ∀ r ∈ (nearest env num w req).data,
        first.distance_km ≤ r.distance_km ∧ first.estimated_minutes ≤ r.estimated_minutes) ∧
    (∀ d₁ d₂ : JsDouble, d₁ ≤ d₂ →
      calculateTravelTime d₁ (.fin 40) ≤ calculateTravelTime d₂ (.fin 40)) := by
  have hmono : ∀ d₁ d₂ : JsDouble, d₁ ≤ d₂ →
      calculateTravelTime d₁ (.fin 40) ≤ calculateTravelTime d₂ (.fin 40) :=
    calculateTravelTime_mono 40 (by norm_num)
  have hall : (∀ r ∈ (nearest env num w req).data,
        r.estimated_minutes = calculateTravelTime r.distance_km (.fin 40)) ∧
      (∀ r ∈ (nearest env num w req).data, r.distance_km.isFinite = true) ∧
      (nearest env num w req).data.Pairwise (fun a b => a.distance_km ≤ b.distance_km) := by
    rcases nearest_data env num w req with h | ⟨hospitals, hq, h⟩
    · rw [h]
      exact ⟨fun r hr => absurd hr (List.not_mem_nil r),
        fun r hr => absurd hr (List.not_mem_nil r), List.Pairwise.nil⟩
    · rw [h]
      exact ⟨fun r hr => rowsOf_minutes num _ _ hospitals r (nearestOf_subset num _ r hr),
        fun r hr => hfin hospitals hq r (nearestOf_subset num _ r hr),
        nearestOf_sorted num _ (rowsOf_grid num _ _ hospitals) (hfin hospitals hq)⟩
  obtain ⟨hmin, hfinite, hsorted⟩ := hall
  have hminutes : (nearest env num w req).data.Pairwise
      (fun a b => a.estimated_minutes ≤ b.estimated_minutes) := by
    refine List.Pairwise.imp_of_mem ?_ hsorted
    intro a b ha hb hab
    rw [hmin a ha, hmin b hb]
    exact hmono _ _ hab
  refine ⟨hmin, hsorted, hminutes, ?_, hmono⟩
  intro first hfirst r hr
  cases hdata : (nearest env num w req).data with
  | nil => rw [hdata] at hr; cases hr
  | cons a rest =>
    rw [hdata] at hfirst hr hsorted hminutes hfinite hmin
    simp only [List.head?_cons, Option.some.injEq] at hfirst
    subst hfirst
    rcases List.mem_cons.1 hr with h | h
    · subst h
      have hself : r.distance_km ≤ r.distance_km := by
        obtain ⟨x, hx⟩ := (JsDouble.isFinite_iff _).1 (hfinite r (List.mem_cons_self _ _))
        exact (JsDouble.le_of_finite _ _ x x hx hx).2 (le_refl x)
      refine ⟨hself, ?_⟩
      rw [hmin r (List.mem_cons_self _ _)]
      exact hmono _ _ hself
    · exact ⟨List.rel_of_pairwise_cons hsorted h, List.rel_of_pairwise_cons hminutes h⟩

/-- Witness of C29: the five rows returned for the seven candidates, at the
distances 10, 20, 20, 20 and 20, carry 15, 30, 30, 30 and 30 minutes. -/
theorem nearest_minutes_ranked_witness :
    (∀ hospitals, queried demoEnv tieWorld demoRequest = .ok hospitals →
      ∀ r ∈ rowsOf demoNumerics demoRequest.latitude demoRequest.longitude hospitals,
        r.distance_km.isFinite = true) ∧
    (nearest demoEnv demoNumerics tieWorld demoRequest).data.map
      (fun r => (r.distance_km, r.estimated_minutes)) =
        [(.fin 10, .fin 15), (.fin 20, .fin 30), (.fin 20, .fin 30), (.fin 20, .fin 30),
         (.fin 20, .fin 30)] ∧
    (nearest demoEnv demoNumerics tieWorld demoRequest).data.Pairwise
      (fun a b => a.estimated_minutes ≤ b.estimated_minutes) := by
  have hq : queried demoEnv tieWorld demoRequest = .ok tieCandidates := by decide
  have hfin : ∀ hospitals, queried demoEnv tieWorld demoRequest = .ok hospitals →
      ∀ r ∈ rowsOf demoNumerics demoRequest.latitude demoRequest.longitude hospitals,
        r.distance_km.isFinite = true := by
    intro hospitals h
    rw [hq] at h
    cases h
    decide!
  exact ⟨hfin, by decide!,
    (nearest_minutes_ranked demoEnv demoNumerics tieWorld demoRequest hfin).2.2.1⟩

/-! ## `calculateDistance` -/

theorem approxArith_zeroLaws : approxArith.ZeroLaws where
  finite_lit := fun _ _ => rfl
  finite_of_between := fun _ _ _ _ _ _ _ => rfl
  finite_toRad := fun _ _ => rfl
  sub_self := fun x _ => by simp [approxArith]
  toRad_zero := by simp [toRad, approxArith]
  zero_div_two := by simp [approxArith]
  sin_zero := by simp [approxArith]
  zero_mul_zero := by simp [approxArith]
  cos_sq_mul_zero := fun x _ => by simp [approxArith]
  zero_add_zero := by simp [approxArith]
  sqrt_zero := by simp [approxArith]
  one_sub_zero := by simp [approxArith]
  sqrt_one := by norm_num [approxArith]
  atan2_zero_one := by simp [approxArith]
  two_mul_zero := by simp [approxArith]
  radius_mul_zero := by simp [approxArith]
  zero_mul_ten := by simp [approxArith]
  round_zero := by norm_num [approxArith]
  zero_div_ten := by simp [approxArith]

theorem approxArith_signLaws : approxArith.SignLaws where
  sub_swap := fun x y _ => by simp [approxArith]
  neg_mul := fun x k => by simp [approxArith]
  mul_neg := fun k x => by simp [approxArith]
  neg_div := fun x k => by simp [approxArith, neg_div]
  neg_mul_neg := fun x y => by simp [approxArith]
  mul_comm := fun x y => by simp [approxArith, mul_comm]
  sin_neg := fun x => by
    simp only [approxArith]
    ring

/-- C11. For every latitude in [-90, 90] and longitude in [-180, 180], in every
arithmetic with the zero laws of IEEE 754, `calculateDistance(lat, lon, lat, lon)`
returns exactly 0. -/
theorem calculateDistance_self {F : Type} (A : JsArith F) (hA : A.ZeroLaws) (lat lon : F)
    (hlat₁ : A.le (A.lit (-90)) lat = true) (hlat₂ : A.le lat (A.lit 90) = true)
    (hlon₁ : A.le (A.lit (-180)) lon = true) (hlon₂ : A.le lon (A.lit 180) = true) :
    calculateDistance A lat lon lat lon = .ok (A.lit 0) := by
  have hflat : A.isFinite lat = true :=
    hA.finite_of_between _ _ _ (hA.finite_lit (-90) (by decide)) (hA.finite_lit 90 (by decide))
      hlat₁ hlat₂
  have hflon : A.isFinite lon = true :=
    hA.finite_of_between _ _ _ (hA.finite_lit (-180) (by decide))
      (hA.finite_lit 180 (by decide)) hlon₁ hlon₂
  simp only [calculateDistance, hA.sub_self lat hflat, hA.sub_self lon hflon, hA.toRad_zero,
    hA.zero_div_two, hA.sin_zero, hA.zero_mul_zero,
    hA.cos_sq_mul_zero (toRad A lat) (hA.finite_toRad lat hflat), hA.zero_add_zero,
    hA.sqrt_zero, hA.one_sub_zero, hA.sqrt_one, hA.atan2_zero_one, hA.two_mul_zero,
    hA.radius_mul_zero, hA.zero_mul_ten, hA.round_zero, hA.zero_div_ten]

/-- Witness of C11 at the point (19.0760, 72.8777). -/
theorem calculateDistance_self_witness :
    approxArith.ZeroLaws ∧
    approxArith.le (approxArith.lit (-90)) (19076 / 1000) = true ∧
    approxArith.le (19076 / 1000) (approxArith.lit 90) = true ∧
    approxArith.le (approxArith.lit (-180)) (728777 / 10000) = true ∧
    approxArith.le (728777 / 10000) (approxArith.lit 180) = true ∧
    calculateDistance approxArith (19076 / 1000) (728777 / 10000) (19076 / 1000)
      (728777 / 10000) = .ok 0 :=
  ⟨approxArith_zeroLaws, by decide!, by decide!, by decide!, by decide!,
   calculateDistance_self approxArith approxArith_zeroLaws (19076 / 1000) (728777 / 10000)
     (by decide!) (by decide!) (by decide!) (by decide!)⟩

/-- The haversine term of a difference does not depend on its direction. -/
theorem haversine_swap {F : Type} (A : JsArith F) (hA : A.SignLaws) (x y : F) :
    A.sin (A.div (toRad A (A.sub x y)) (A.lit 2)) =
      A.neg (A.sin (A.div (toRad A (A.sub y x)) (A.lit 2))) ∨
    A.sin (A.div (toRad A (A.sub x y)) (A.lit 2)) =
      A.sin (A.div (toRad A (A.sub y x)) (A.lit 2)) := by
  by_cases hxy : x = y
  · subst hxy
    exact Or.inr rfl
  · left
    rw [hA.sub_swap x y hxy]
    simp only [toRad, hA.neg_mul, hA.neg_div, hA.sin_neg]

/-- C12. In every arithmetic with the sign laws of IEEE 754 and an odd
`Math.sin`, `calculateDistance(lat1, lon1, lat2, lon2)` and
`calculateDistance(lat2, lon2, lat1, lon1)` return the same value, for all
coordinate pairs. -/
theorem calculateDistance_symm {F : Type} (A : JsArith F) (hA : A.SignLaws)
    (lat1 lon1 lat2 lon2 : F) :
    calculateDistance A lat1 lon1 lat2 lon2 = calculateDistance A lat2 lon2 lat1 lon1 := by
  have hlat : A.mul (A.sin (A.div (toRad A (A.sub lat2 lat1)) (A.lit 2)))
        (A.sin (A.div (toRad A (A.sub lat2 lat1)) (A.lit 2))) =
      A.mul (A.sin (A.div (toRad A (A.sub lat1 lat2)) (A.lit 2)))
        (A.sin (A.div (toRad A (A.sub lat1 lat2)) (A.lit 2))) := by
    rcases haversine_swap A hA lat2 lat1 with h | h
    · rw [h, hA.neg_mul_neg]
    · rw [h]
  have hlon : ∀ k : F,
      A.mul (A.mul k (A.sin (A.div (toRad A (A.sub lon2 lon1)) (A.lit 2))))
        (A.sin (A.div (toRad A (A.sub lon2 lon1)) (A.lit 2))) =
      A.mul (A.mul k (A.sin (A.div (toRad A (A.sub lon1 lon2)) (A.lit 2))))
        (A.sin (A.div (toRad A (A.sub lon1 lon2)) (A.lit 2))) := by
    intro k
    rcases haversine_swap A hA lon2 lon1 with h | h
    · rw [h, hA.mul_neg k, hA.neg_mul_neg]
    · rw [h]
  simp only [calculateDistance]
  rw [hlat, hlon, hA.mul_comm (A.cos (toRad A lat1)) (A.cos (toRad A lat2))]

/-- Witness of C12 at Mumbai (19.0760, 72.8777) and Delhi (28.6139, 77.2090). -/
theorem calculateDistance_symm_witness :
    approxArith.SignLaws ∧
    calculateDistance approxArith (19076 / 1000) (728777 / 10000) (286139 / 10000)
        (77209 / 1000) =
      calculateDistance approxArith (286139 / 10000) (77209 / 1000) (19076 / 1000)
        (728777 / 10000) :=
  ⟨approxArith_signLaws,
   calculateDistance_symm approxArith approxArith_signLaws (19076 / 1000) (728777 / 10000)
     (286139 / 10000) (77209 / 1000)⟩

/-- C13 fails as stated: with the latitude 91, outside [-90, 90],
`calculateDistance` does not fail; it returns a distance. -/
theorem calculateDistance_out_of_range_counterexample :
    approxArith.le 91 (approxArith.lit 90) = false ∧
    (∃ d, calculateDistance approxArith 91 0 0 0 = .ok d) ∧
    calculateDistance approxArith 91 0 0 0 ≠ .error .InvalidCoordinate :=
  ⟨by decide, ⟨_, rfl⟩, fun h => by cases h⟩

/-- C13 as amended. `calculateDistance` validates nothing: for every four
arguments, inside or outside the ranges, finite or not, it returns a value and
does not fail with `InvalidCoordinate`. -/
theorem calculateDistance_total {F : Type} (A : JsArith F) (lat1 lon1 lat2 lon2 : F) :
    (∃ d, calculateDistance A lat1 lon1 lat2 lon2 = .ok d) ∧
    calculateDistance A lat1 lon1 lat2 lon2 ≠ .error .InvalidCoordinate :=
  ⟨⟨_, rfl⟩, fun h => by cases h⟩

/-! ## `calculateTravelTime` -/

/-- The value of `calculateTravelTime(km, s)` for a finite `km ≥ 0` and a finite
`s > 0`. -/
theorem calculateTravelTime_eq (km s : ℚ) (hkm : 0 ≤ km) (hs : 0 < s) :
    calculateTravelTime (.fin km) (.fin s) =
      if (2 : ℚ) ^ 1024 ≤ roundNearest (km / s) then .posInf
      else if (2 : ℚ) ^ 1024 ≤ roundNearest (roundNearest (km / s) * 60) then .posInf
      else .fin (⌈roundNearest (roundNearest (km / s) * 60)⌉ : ℤ) := by
  have hq : 0 ≤ km / s := div_nonneg hkm hs.le
  have hr := roundNearest_nonneg _ hq
  have hr60 : 0 ≤ roundNearest (km / s) * 60 := mul_nonneg hr (by norm_num)
  have hr2 := roundNearest_nonneg _ hr60
  have hk0 : ¬ km < 0 := not_lt.2 hkm
  have hs0 : ¬ s < 0 := not_lt.2 hs.le
  unfold calculateTravelTime
  dsimp only
  rw [JsDouble.div_fin_fin km s hs.ne.symm]
  simp only [hk0, hs0, decide_False, Bool.xor_false]
  rw [JsDouble.ofExact_of_nonneg _ hq]
  by_cases h1 : (2 : ℚ) ^ 1024 ≤ roundNearest (km / s)
  · rw [if_pos h1, if_pos h1]
    rfl
  · rw [if_neg h1, if_neg h1, JsDouble.mul_fin_fin]
    have hrn : ¬ roundNearest (km / s) < 0 := not_lt.2 hr
    have h60 : ¬ (60 : ℚ) < 0 := by norm_num
    simp only [hrn, h60, decide_False, Bool.xor_false]
    rw [JsDouble.ofExact_of_nonneg _ hr60]
    by_cases h2 : (2 : ℚ) ^ 1024 ≤ roundNearest (roundNearest (km / s) * 60)
    · rw [if_pos h2, if_pos h2]
      rfl
    · rw [if_neg h2, if_neg h2]
      have : ¬ (-1 < roundNearest (roundNearest (km / s) * 60) ∧
          roundNearest (roundNearest (km / s) * 60) < 0) := fun h => absurd h.2 (not_lt.2 hr2)
      show (if -1 < roundNearest (roundNearest (km / s) * 60) ∧
          roundNearest (roundNearest (km / s) * 60) < 0 then JsDouble.negZero
        else JsDouble.fin (⌈roundNearest (roundNearest (km / s) * 60)⌉ : ℤ)) = _
      rw [if_neg this]

/-- C14 fails as stated: 166 km at 40 km/h gives 250 minutes, although 249 is an
integer with `249 ≥ 166 * 60 / 40`: the quotient `166 / 40` is rounded to a
double before it is multiplied by 60. And `1e308` km at the speed 1 gives
`Infinity`, which is no integer: the product by 60 leaves the range of the
doubles. -/
theorem calculateTravelTime_counterexample :
    calculateTravelTime (.fin 166) (.fin 40) = .fin 250 ∧
    ((249 : ℤ) : ℚ) ≥ 166 * 60 / 40 ∧ (249 : ℤ) < 250 ∧
    calculateTravelTime (.fin (10 ^ 308)) (.fin 1) = .posInf :=
  ⟨by decide!, by norm_num, by decide, by decide!⟩

/-- C14 as amended. For every finite distance `km ≥ 0` and finite speed `s > 0`:
when neither `fl(km / s)` nor `fl(fl(km / s) * 60)` reaches `2^1024`, `fl`
rounding to the nearest double, `calculateTravelTime(km, s)` is the least
integer not below the double `fl(fl(km / s) * 60)`; when one of them does, it is
`Infinity`; when `km / s` and `km / s * 60` are doubles (nothing is rounded) it
is the least integer `m` with `m ≥ km * 60 / s`; with the speed omitted it
equals `calculateTravelTime(km, 40)`; 0 km gives 0 minutes and 10 km gives 15
minutes. At the ends of the domain, the distance `-0` gives `-0`, an infinite
distance gives `Infinity`, an infinite speed gives 0, and both give NaN. -/
theorem calculateTravelTime_least (km s : ℚ) (hkm : 0 ≤ km) (hs : 0 < s) :
    (roundNearest (km / s) < 2 ^ 1024 →
      roundNearest (roundNearest (km / s) * 60) < 2 ^ 1024 →
      calculateTravelTime (.fin km) (.fin s) =
        .fin (⌈roundNearest (roundNearest (km / s) * 60)⌉ : ℤ) ∧
      ((⌈roundNearest (roundNearest (km / s) * 60)⌉ : ℤ) : ℚ) ≥
        roundNearest (roundNearest (km / s) * 60) ∧
      ∀ m : ℤ, (m : ℚ) ≥ roundNearest (roundNearest (km / s) * 60) →
        ⌈roundNearest (roundNearest (km / s) * 60)⌉ ≤ m) ∧
    ((2 : ℚ) ^ 1024 ≤ roundNearest (km / s) ∨
        (2 : ℚ) ^ 1024 ≤ roundNearest (roundNearest (km / s) * 60) →
      calculateTravelTime (.fin km) (.fin s) = .posInf) ∧
    (roundNearest (km / s) = km / s → roundNearest (km / s * 60) = km / s * 60 →
      km / s * 60 < 2 ^ 1024 →
      calculateTravelTime (.fin km) (.fin s) = .fin (⌈km * 60 / s⌉ : ℤ) ∧
      ((⌈km * 60 / s⌉ : ℤ) : ℚ) ≥ km * 60 / s ∧
      ∀ m : ℤ, (m : ℚ) ≥ km * 60 / s → ⌈km * 60 / s⌉ ≤ m) ∧
    calculateTravelTime (.fin km) = calculateTravelTime (.fin km) (.fin 40) ∧
    calculateTravelTime (.fin 0) = .fin 0 ∧ calculateTravelTime (.fin 10) = .fin 15 ∧
    calculateTravelTime .negZero (.fin s) = .negZero ∧
    calculateTravelTime .posInf (.fin s) = .posInf ∧
    calculateTravelTime (.fin km) .posInf = .fin 0 ∧
    calculateTravelTime .posInf .posInf = .nan := by
  have heq := calculateTravelTime_eq km s hkm hs
  have hs0 : ¬ s < 0 := not_lt.2 hs.le
  have hk0 : ¬ km < 0 := not_lt.2 hkm
  refine ⟨fun h1 h2 => ⟨?_, Int.le_ceil _, fun m hm => Int.ceil_le.2 hm⟩, fun h => ?_,
    fun h1 h2 h3 => ⟨?_, Int.le_ceil _, fun m hm => Int.ceil_le.2 hm⟩, rfl, by decide!,
    by decide!, ?_, ?_, ?_, by decide⟩
  · rw [heq, if_neg (not_le.2 h1), if_neg (not_le.2 h2)]
  · rw [heq]
    rcases h with h | h
    · rw [if_pos h]
    · by_cases h1 : (2 : ℚ) ^ 1024 ≤ roundNearest (km / s)
      · rw [if_pos h1]
      · rw [if_neg h1, if_pos h]
  · have hv : roundNearest (roundNearest (km / s) * 60) = km * 60 / s := by
      rw [h1, h2]
      ring
    have hq : 0 ≤ km / s := div_nonneg hkm hs.le
    have hlt1 : roundNearest (km / s) < 2 ^ 1024 := by
      rw [h1]
      have : km / s ≤ km / s * 60 := by nlinarith
      exact lt_of_le_of_lt this h3
    have hlt2 : roundNearest (roundNearest (km / s) * 60) < 2 ^ 1024 := by
      rw [h1, h2]
      exact h3
    rw [heq, if_neg (not_le.2 hlt1), if_neg (not_le.2 hlt2), hv]
  · have h0 : JsDouble.div .negZero (.fin s) = .negZero := by
      have : JsDouble.div .negZero (.fin s) = JsDouble.ofExact (0 / s) true := by
        simp [JsDouble.div, JsDouble.isNaN, JsDouble.finite?, JsDouble.negative, hs0, hs.ne.symm]
      rw [this, zero_div]
      decide!
    have h1 : JsDouble.mul .negZero (.fin 60) = .negZero := by decide!
    unfold calculateTravelTime
    dsimp only
    rw [h0, h1]
    rfl
  · have h0 : JsDouble.div .posInf (.fin s) = .posInf := by
      simp [JsDouble.div, JsDouble.isNaN, JsDouble.finite?, JsDouble.negative, hs0,
        JsDouble.signedInf]
    have h1 : JsDouble.mul .posInf (.fin 60) = .posInf := by decide!
    unfold calculateTravelTime
    dsimp only
    rw [h0, h1]
    rfl
  · have h0 : JsDouble.div (.fin km) .posInf = .fin 0 := by
      simp [JsDouble.div, JsDouble.isNaN, JsDouble.finite?, JsDouble.negative, hk0,
        JsDouble.signedZero]
    have h1 : JsDouble.mul (.fin 0) (.fin 60) = .fin 0 := by decide!
    unfold calculateTravelTime
    dsimp only
    rw [h0, h1]
    decide!

/-- Witness of C14 at 10 km and 40 km/h, where nothing is rounded, and at
`1e308` km and the speed 1, where the product leaves the range. -/
theorem calculateTravelTime_least_witness :
    (0 : ℚ) ≤ 10 ∧ (0 : ℚ) < 40 ∧
    roundNearest (10 / 40) = 10 / 40 ∧ roundNearest (10 / 40 * 60) = 10 / 40 * 60 ∧
    (10 / 40 * 60 : ℚ) < 2 ^ 1024 ∧
    (calculateTravelTime (.fin 10) (.fin 40) = .fin (⌈(10 * 60 / 40 : ℚ)⌉ : ℤ) ∧
      ((⌈(10 * 60 / 40 : ℚ)⌉ : ℤ) : ℚ) ≥ 10 * 60 / 40 ∧
      ∀ m : ℤ, (m : ℚ) ≥ 10 * 60 / 40 → ⌈(10 * 60 / 40 : ℚ)⌉ ≤ m) ∧
    (2 : ℚ) ^ 1024 ≤ roundNearest (roundNearest (10 ^ 308 / 1) * 60) ∧
    calculateTravelTime (.fin (10 ^ 308)) (.fin 1) = .posInf :=
  ⟨by norm_num, by norm_num, by decide!, by decide!, by norm_num,
   (calculateTravelTime_least 10 40 (by norm_num) (by norm_num)).2.2.1
     (by decide!) (by decide!) (by norm_num),
   by decide!,
   (calculateTravelTime_least (10 ^ 308) 1 (by positivity) (by norm_num)).2.1
     (Or.inr (by decide!))⟩

/-! ## The mutation pipelines -/

theorem patchBloodNotify_returns (env : Env) (req : BloodPatchRequest) (units_available : JsNum)
    (currentBlood : CurrentBlood) (updateData : BloodUpdateData) (updatedBlood : BloodRow) :
    Returns (fun response => ∃ alerts, response = .success updatedBlood alerts)
      (patchBloodNotify env req units_available currentBlood updateData updatedBlood) := by
  unfold patchBloodNotify
  refine returns_bind _ (fun _ => ?_)
  cases currentBlood.hospitals with
  | none => exact returns_throw _ _
  | some hospitals =>
    refine returns_bind _ (fun alerts => ?_)
    split_ifs
    · exact returns_bind _ (fun _ => returns_bind _ (fun _ => returns_pure ⟨alerts, rfl⟩))
    · exact returns_pure ⟨alerts, rfl⟩

theorem selectBloodSingle_cases (env : Env) (id : String) (w : World) :
    selectBloodSingle env id w = (.error .storeError, w) ∨
    ∃ r, w.blood_inventory.filter (fun r => r.id = id) = [r] ∧
      selectBloodSingle env id w =
        (.ok { row := r,
               hospitals := (w.hospitals.find? (fun h => h.id = r.hospital_id)).map
                 (fun h => { name := h.name, city := some h.city }) }, w) := by
  unfold selectBloodSingle
  split_ifs
  · exact Or.inl rfl
  · split
    · next r h => exact Or.inr ⟨r, h, rfl⟩
    · exact Or.inl rfl

theorem selectBedSingle_world (env : Env) (id : String) (w : World) :
    (selectBedSingle env id w).2 = w := by
  rcases selectBedSingle_cases env id w with h | ⟨_, _, h⟩ <;> rw [h]

theorem selectBloodSingle_world (env : Env) (id : String) (w : World) :
    (selectBloodSingle env id w).2 = w := by
  rcases selectBloodSingle_cases env id w with h | ⟨_, _, h⟩ <;> rw [h]

theorem patchBlood_of_num (env : Env) (req : BloodPatchRequest) (w : World) (v : JsNum)
    (hv : req.units_available = .num v) (h0 : ¬ v < 0) :
    patchBlood env req w =
      (match (patchBloodTry env req v w).1 with
        | .ok response => response
        | .error _ => .error 500 (.text "Failed to update blood inventory"),
       (patchBloodTry env req v w).2) := by
  unfold patchBlood
  rw [hv]
  simp only [h0, if_false]
  rcases patchBloodTry env req v w with ⟨r, w'⟩
  cases r <;> rfl

/-- The runs of the bed `try` block, by the step that ends them. -/
theorem patchBedTry_run (env : Env) (req : BedPatchRequest) (v : JsNum) (w : World) :
    ((selectBedSingle env req.id w).1 = .error .storeError ∧
      patchBedTry env req v w = (.error .storeError, w)) ∨
    ∃ currentBed, (selectBedSingle env req.id w).1 = .ok currentBed ∧
      ((currentBed.row.hospital_id ≠ req.staff_hospital_id ∧
          patchBedTry env req v w =
            (.ok (.error 403 (.text "Not authorized to update this hospital")), w)) ∨
       (currentBed.row.hospital_id = req.staff_hospital_id ∧ v > currentBed.row.total_beds ∧
          patchBedTry env req v w =
            (.ok (.error 400 (.exceedsTotal v currentBed.row.total_beds)), w)) ∨
       (currentBed.row.hospital_id = req.staff_hospital_id ∧ ¬ v > currentBed.row.total_beds ∧
          patchBedTry env req v w =
            (updateBedSingle env req.id v req.user_id >>= fun updatedBed =>
              patchBedNotify env req v currentBed updatedBed) w)) := by
  unfold patchBedTry
  simp only [bind]
  rcases selectBedSingle_cases env req.id w with h | ⟨r, _, h⟩
  · rw [h]
    exact Or.inl ⟨rfl, rfl⟩
  · rw [h]
    refine Or.inr ⟨_, rfl, ?_⟩
    dsimp only
    by_cases hh : r.hospital_id = req.staff_hospital_id
    · by_cases ht : v > r.total_beds
      · simp only [hh, ht, ne_eq, not_true_eq_false, if_false, if_true]
        exact Or.inr (Or.inl ⟨trivial, trivial, rfl⟩)
      · simp only [hh, ht, ne_eq, not_true_eq_false, if_false]
        exact Or.inr (Or.inr ⟨trivial, not_false, trivial⟩)
    · simp only [hh, ne_eq, not_false_eq_true, if_true]
      exact Or.inl ⟨trivial, rfl⟩

/-- The runs of the blood `try` block, by the step that ends them. -/
theorem patchBloodTry_run (env : Env) (req : BloodPatchRequest) (v : JsNum) (w : World) :
    ((selectBloodSingle env req.id w).1 = .error .storeError ∧
      patchBloodTry env req v w = (.error .storeError, w)) ∨
    ∃ currentBlood, (selectBloodSingle env req.id w).1 = .ok currentBlood ∧
      ((currentBlood.row.hospital_id ≠ req.staff_hospital_id ∧
          patchBloodTry env req v w =
            (.ok (.error 403 (.text "Not authorized to update this hospital")), w)) ∨
       (currentBlood.row.hospital_id = req.staff_hospital_id ∧
          patchBloodTry env req v w =
            (updateBloodSingle env req.id (bloodUpdateData req v) >>= fun updatedBlood =>
              patchBloodNotify env req v currentBlood (bloodUpdateData req v) updatedBlood)
              w)) := by
  unfold patchBloodTry
  simp only [bind]
  rcases selectBloodSingle_cases env req.id w with h | ⟨r, _, h⟩
  · rw [h]
    exact Or.inl ⟨rfl, rfl⟩
  · rw [h]
    refine Or.inr ⟨_, rfl, ?_⟩
    dsimp only
    by_cases hh : r.hospital_id = req.staff_hospital_id
    · simp only [hh, ne_eq, not_true_eq_false, if_false]
      exact Or.inr ⟨trivial, trivial⟩
    · simp only [hh, ne_eq, not_false_eq_true, if_true]
      exact Or.inl ⟨trivial, rfl⟩

theorem updateBedSingle_fails (env : Env) (hfail : env.updateError = true) (id : String)
    (v : JsNum) (user : String) (w : World) :
    updateBedSingle env id v user w = (.error .storeError, w) := by
  simp [updateBedSingle, hfail]

theorem updateBloodSingle_fails (env : Env) (hfail : env.updateError = true) (id : String)
    (updateData : BloodUpdateData) (w : World) :
    updateBloodSingle env id updateData w = (.error .storeError, w) := by
  simp [updateBloodSingle, hfail]

theorem bind_of_error {α β : Type} (m : Eff α) (k : α → Eff β) (w w' : World) (e : Thrown)
    (h : m w = (.error e, w')) : (m >>= k) w = (.error e, w') := by
  show (match m w with
    | (.ok a, w') => k a w'
    | (.error e, w') => (.error e, w')) = _
  rw [h]

theorem bind_of_ok {α β : Type} (m : Eff α) (k : α → Eff β) (w w' : World) (a : α)
    (h : m w = (.ok a, w')) : (m >>= k) w = k a w' := by
  show (match m w with
    | (.ok a, w') => k a w'
    | (.error e, w') => (.error e, w')) = _
  rw [h]

/-- C15. When the store refuses the update, every bed or blood mutation request
ends with an error response and leaves the whole world as it was: no
`update_logs` row, no alert, no SMS and no socket event; a request that reaches
the update is answered with status 500. -/
theorem update_failure_has_no_effect (env : Env) (hfail : env.updateError = true) (w : World) :
    (∀ req : BedPatchRequest, ∃ status error, patchBed env req w = (.error status error, w)) ∧
    (∀ req : BloodPatchRequest,
      ∃ status error, patchBlood env req w = (.error status error, w)) ∧
    (∀ (req : BedPatchRequest) (v : JsNum) (currentBed : CurrentBed),
      req.available_beds = .num v → ¬ v < 0 →
      (selectBedSingle env req.id w).1 = .ok currentBed →
      currentBed.row.hospital_id = req.staff_hospital_id → ¬ v > currentBed.row.total_beds →
      patchBed env req w = (.error 500 (.text "Failed to update bed inventory"), w)) ∧
    (∀ (req : BloodPatchRequest) (v : JsNum) (currentBlood : CurrentBlood),
      req.units_available = .num v → ¬ v < 0 →
      (selectBloodSingle env req.id w).1 = .ok currentBlood →
      currentBlood.row.hospital_id = req.staff_hospital_id →
      patchBlood env req w = (.error 500 (.text "Failed to update blood inventory"), w)) := by
  have hbed : ∀ (req : BedPatchRequest) (v : JsNum) (currentBed : CurrentBed),
      (updateBedSingle env req.id v req.user_id >>= fun updatedBed =>
        patchBedNotify env req v currentBed updatedBed) w = (.error .storeError, w) :=
    fun req v currentBed =>
      bind_of_error _ _ w w _ (updateBedSingle_fails env hfail req.id v req.user_id w)
  have hblood : ∀ (req : BloodPatchRequest) (v : JsNum) (currentBlood : CurrentBlood),
      (updateBloodSingle env req.id (bloodUpdateData req v) >>= fun updatedBlood =>
        patchBloodNotify env req v currentBlood (bloodUpdateData req v) updatedBlood) w =
        (.error .storeError, w) :=
    fun req v currentBlood =>
      bind_of_error _ _ w w _ (updateBloodSingle_fails env hfail req.id _ w)
  refine ⟨?_, ?_, ?_, ?_⟩
  · intro req
    cases hv : req.available_beds with
    | num v =>
      by_cases h0 : v < 0
      · simp only [patchBed, hv, h0, if_true]
        exact ⟨_, _, rfl⟩
      · rw [patchBed_of_num env req w v hv h0]
        rcases patchBedTry_run env req v w with
          ⟨_, h⟩ | ⟨currentBed, _, ⟨_, h⟩ | ⟨_, _, h⟩ | ⟨_, _, h⟩⟩
        · rw [h]; exact ⟨_, _, rfl⟩
        · rw [h]; exact ⟨_, _, rfl⟩
        · rw [h]; exact ⟨_, _, rfl⟩
        · rw [h, hbed]; exact ⟨_, _, rfl⟩
    | undefined => simp only [patchBed, hv]; exact ⟨_, _, rfl⟩
    | null => simp only [patchBed, hv]; exact ⟨_, _, rfl⟩
    | bool b => simp only [patchBed, hv]; exact ⟨_, _, rfl⟩
    | str s => simp only [patchBed, hv]; exact ⟨_, _, rfl⟩
    | obj => simp only [patchBed, hv]; exact ⟨_, _, rfl⟩
  · intro req
    cases hv : req.units_available with
    | num v =>
      by_cases h0 : v < 0
      · simp only [patchBlood, hv, h0, if_true]
        exact ⟨_, _, rfl⟩
      · rw [patchBlood_of_num env req w v hv h0]
        rcases patchBloodTry_run env req v w with
          ⟨_, h⟩ | ⟨currentBlood, _, ⟨_, h⟩ | ⟨_, h⟩⟩
        · rw [h]; exact ⟨_, _, rfl⟩
        · rw [h]; exact ⟨_, _, rfl⟩
        · rw [h, hblood]; exact ⟨_, _, rfl⟩
    | undefined => simp only [patchBlood, hv]; exact ⟨_, _, rfl⟩
    | null => simp only [patchBlood, hv]; exact ⟨_, _, rfl⟩
    | bool b => simp only [patchBlood, hv]; exact ⟨_, _, rfl⟩
    | str s => simp only [patchBlood, hv]; exact ⟨_, _, rfl⟩
    | obj => simp only [patchBlood, hv]; exact ⟨_, _, rfl⟩
  · intro req v currentBed hv h0 hsel hsame hcap
    rw [patchBed_of_num env req w v hv h0]
    rcases patchBedTry_run env req v w with
      ⟨he, _⟩ | ⟨cur, hc, ⟨hne, _⟩ | ⟨_, hgt, _⟩ | ⟨_, _, h⟩⟩
    · rw [he] at hsel; cases hsel
    · rw [hc] at hsel; cases hsel; exact absurd hsame hne
    · rw [hc] at hsel; cases hsel; exact absurd hgt hcap
    · rw [h, hbed]
  · intro req v currentBlood hv h0 hsel hsame
    rw [patchBlood_of_num env req w v hv h0]
    rcases patchBloodTry_run env req v w with ⟨he, _⟩ | ⟨cur, hc, ⟨hne, _⟩ | ⟨_, h⟩⟩
    · rw [he] at hsel; cases hsel
    · rw [hc] at hsel; cases hsel; exact absurd hsame hne
    · rw [h, hblood]

/-- Witness of C15: with the store refusing updates, a valid bed update and a
valid blood update in the demo worlds are answered with status 500 and change
nothing. -/
theorem update_failure_has_no_effect_witness :
    updateFailsEnv.updateError = true ∧
    patchBed updateFailsEnv demoUpdate demoWorld =
      (.error 500 (.text "Failed to update bed inventory"), demoWorld) ∧
    patchBlood updateFailsEnv demoBloodUpdate bloodWorld =
      (.error 500 (.text "Failed to update blood inventory"), bloodWorld) :=
  ⟨rfl,
   (update_failure_has_no_effect updateFailsEnv rfl demoWorld).2.2.1 demoUpdate 4
     { row := demoBed "b1" "kem" "ICU" 10 3, hospitals := some { name := "kem", city := none } }
     (by decide) (by decide) (by decide) (by decide) (by decide),
   (update_failure_has_no_effect updateFailsEnv rfl bloodWorld).2.2.2 demoBloodUpdate 2
     { row := demoBlood "k1" "kem" "O-" 6 1,
       hospitals := some { name := "kem", city := some "Mumbai" } }
     (by decide) (by decide) (by decide) (by decide)⟩

/-- Once the bed update is attempted, the handler answers with status 500 or
with success. -/
theorem patchBed_after_update (env : Env) (req : BedPatchRequest) (v : JsNum)
    (currentBed : CurrentBed) (w : World) :
    (match ((updateBedSingle env req.id v req.user_id >>= fun updatedBed =>
        patchBedNotify env req v currentBed updatedBed) w).1 with
      | .ok response => response
      | .error _ => .error 500 (.text "Failed to update bed inventory")) =
        .error 500 (.text "Failed to update bed inventory") ∨
    ∃ data alerts,
      (match ((updateBedSingle env req.id v req.user_id >>= fun updatedBed =>
        patchBedNotify env req v currentBed updatedBed) w).1 with
      | .ok response => response
      | .error _ => .error 500 (.text "Failed to update bed inventory")) =
        .success data alerts := by
  have hret : Returns (fun response => ∃ data alerts, response = .success data alerts)
      (updateBedSingle env req.id v req.user_id >>= fun updatedBed =>
        patchBedNotify env req v currentBed updatedBed) :=
    returns_bind _ (fun updatedBed w' r hr =>
      ⟨updatedBed, patchBedNotify_returns env req v currentBed updatedBed w' r hr⟩)
  cases hrun : ((updateBedSingle env req.id v req.user_id >>= fun updatedBed =>
        patchBedNotify env req v currentBed updatedBed) w).1 with
  | error e => exact Or.inl rfl
  | ok response => exact Or.inr (hret w response hrun)

/-- Once the blood update is attempted, the handler answers with status 500 or
with success. -/
theorem patchBlood_after_update (env : Env) (req : BloodPatchRequest) (v : JsNum)
    (currentBlood : CurrentBlood) (w : World) :
    (match ((updateBloodSingle env req.id (bloodUpdateData req v) >>= fun updatedBlood =>
        patchBloodNotify env req v currentBlood (bloodUpdateData req v) updatedBlood) w).1 with
      | .ok response => response
      | .error _ => .error 500 (.text "Failed to update blood inventory")) =
        .error 500 (.text "Failed to update blood inventory") ∨
    ∃ data alerts,
      (match ((updateBloodSingle env req.id (bloodUpdateData req v) >>= fun updatedBlood =>
        patchBloodNotify env req v currentBlood (bloodUpdateData req v) updatedBlood) w).1 with
      | .ok response => response
      | .error _ => .error 500 (.text "Failed to update blood inventory")) =
        .success data alerts := by
  have hret : Returns (fun response => ∃ data alerts, response = .success data alerts)
      (updateBloodSingle env req.id (bloodUpdateData req v) >>= fun updatedBlood =>
        patchBloodNotify env req v currentBlood (bloodUpdateData req v) updatedBlood) :=
    returns_bind _ (fun updatedBlood w' r hr =>
      ⟨updatedBlood, patchBloodNotify_returns env req v currentBlood _ updatedBlood w' r hr⟩)
  cases hrun : ((updateBloodSingle env req.id (bloodUpdateData req v) >>= fun updatedBlood =>
        patchBloodNotify env req v currentBlood (bloodUpdateData req v) updatedBlood) w).1 with
  | error e => exact Or.inl rfl
  | ok response => exact Or.inr (hret w response hrun)

/-- The answers of the bed handler to a value that is a non-negative number. -/
theorem patchBed_valid_answers (env : Env) (req : BedPatchRequest) (v : JsNum) (w : World)
    (hv : req.available_beds = .num v) (h0 : ¬ v < 0) :
    (patchBed env req w).1 = .error 500 (.text "Failed to update bed inventory") ∨
    (patchBed env req w).1 = .error 403 (.text "Not authorized to update this hospital") ∨
    (∃ total, (patchBed env req w).1 = .error 400 (.exceedsTotal v total)) ∨
    ∃ data alerts, (patchBed env req w).1 = .success data alerts := by
  rw [patchBed_of_num env req w v hv h0]
  rcases patchBedTry_run env req v w with
    ⟨_, h⟩ | ⟨currentBed, _, ⟨_, h⟩ | ⟨_, _, h⟩ | ⟨_, _, h⟩⟩
  · rw [h]; exact Or.inl rfl
  · rw [h]; exact Or.inr (Or.inl rfl)
  · rw [h]; exact Or.inr (Or.inr (Or.inl ⟨_, rfl⟩))
  · rw [h]
    rcases patchBed_after_update env req v currentBed w with h5 | h2
    · exact Or.inl h5
    · exact Or.inr (Or.inr (Or.inr h2))

/-- The answers of the blood handler to a value that is a non-negative number. -/
theorem patchBlood_valid_answers (env : Env) (req : BloodPatchRequest) (v : JsNum) (w : World)
    (hv : req.units_available = .num v) (h0 : ¬ v < 0) :
    (patchBlood env req w).1 = .error 500 (.text "Failed to update blood inventory") ∨
    (patchBlood env req w).1 = .error 403 (.text "Not authorized to update this hospital") ∨
    ∃ data alerts, (patchBlood env req w).1 = .success data alerts := by
  rw [patchBlood_of_num env req w v hv h0]
  rcases patchBloodTry_run env req v w with ⟨_, h⟩ | ⟨currentBlood, _, ⟨_, h⟩ | ⟨_, h⟩⟩
  · rw [h]; exact Or.inl rfl
  · rw [h]; exact Or.inr (Or.inl rfl)
  · rw [h]
    rcases patchBlood_after_update env req v currentBlood w with h5 | h2
    · exact Or.inl h5
    · exact Or.inr (Or.inr h2)

/-- C16. For every bed or blood mutation request whose value is a non-negative
number and whose record the store read returns: if the hospital of the acting
principal differs from the hospital of the record, the answer is status 403 and
the whole world is left as it was (no update, log entry, alert or broadcast); if
they are equal, the answer is not a 403. -/
theorem forbidden_iff_foreign_hospital (env : Env) (w : World) :
    (∀ (req : BedPatchRequest) (v : JsNum) (currentBed : CurrentBed),
      req.available_beds = .num v → ¬ v < 0 →
      (selectBedSingle env req.id w).1 = .ok currentBed →
      (currentBed.row.hospital_id ≠ req.staff_hospital_id →
        patchBed env req w =
          (.error 403 (.text "Not authorized to update this hospital"), w)) ∧
      (currentBed.row.hospital_id = req.staff_hospital_id →
        ∀ error, (patchBed env req w).1 ≠ .error 403 error)) ∧
    (∀ (req : BloodPatchRequest) (v : JsNum) (currentBlood : CurrentBlood),
      req.units_available = .num v → ¬ v < 0 →
      (selectBloodSingle env req.id w).1 = .ok currentBlood →
      (currentBlood.row.hospital_id ≠ req.staff_hospital_id →
        patchBlood env req w =
          (.error 403 (.text "Not authorized to update this hospital"), w)) ∧
      (currentBlood.row.hospital_id = req.staff_hospital_id →
        ∀ error, (patchBlood env req w).1 ≠ .error 403 error)) := by
  refine ⟨?_, ?_⟩
  · intro req v currentBed hv h0 hsel
    refine ⟨fun hne => ?_, fun heq error => ?_⟩
    · rw [patchBed_of_num env req w v hv h0]
      rcases patchBedTry_run env req v w with
        ⟨he, _⟩ | ⟨cur, hc, ⟨_, h⟩ | ⟨he, _, _⟩ | ⟨he, _, _⟩⟩
      · rw [he] at hsel; cases hsel
      · rw [h]
      · rw [hc] at hsel; cases hsel; exact absurd he hne
      · rw [hc] at hsel; cases hsel; exact absurd he hne
    · rw [patchBed_of_num env req w v hv h0]
      rcases patchBedTry_run env req v w with
        ⟨he, _⟩ | ⟨cur, hc, ⟨hne, _⟩ | ⟨_, _, h⟩ | ⟨_, _, h⟩⟩
      · rw [he] at hsel; cases hsel
      · rw [hc] at hsel; cases hsel; exact absurd heq hne
      · rw [h]
        intro hh
        cases hh
      · rw [h]
        rcases patchBed_after_update env req v cur w with h5 | ⟨data, alerts, h2⟩
        · rw [h5]
          intro hh
          cases hh
        · rw [h2]
          intro hh
          cases hh
  · intro req v currentBlood hv h0 hsel
    refine ⟨fun hne => ?_, fun heq error => ?_⟩
    · rw [patchBlood_of_num env req w v hv h0]
      rcases patchBloodTry_run env req v w with ⟨he, _⟩ | ⟨cur, hc, ⟨_, h⟩ | ⟨he, _⟩⟩
      · rw [he] at hsel; cases hsel
      · rw [h]
      · rw [hc] at hsel; cases hsel; exact absurd he hne
    · rw [patchBlood_of_num env req w v hv h0]
      rcases patchBloodTry_run env req v w with ⟨he, _⟩ | ⟨cur, hc, ⟨hne, _⟩ | ⟨_, h⟩⟩
      · rw [he] at hsel; cases hsel
      · rw [hc] at hsel; cases hsel; exact absurd heq hne
      · rw [h]
        rcases patchBlood_after_update env req v cur w with h5 | ⟨data, alerts, h2⟩
        · rw [h5]
          intro hh
          cases hh
        · rw [h2]
          intro hh
          cases hh

/-- Witness of C16: staff of hospital `sion` are refused on the records of
hospital `kem`, staff of hospital `kem` are not. -/
theorem forbidden_iff_foreign_hospital_witness :
    patchBed demoEnv demoBedForeign demoWorld =
      (.error 403 (.text "Not authorized to update this hospital"), demoWorld) ∧
    patchBlood demoEnv demoBloodForeign bloodWorld =
      (.error 403 (.text "Not authorized to update this hospital"), bloodWorld) ∧
    (∀ error, (patchBed demoEnv demoUpdate demoWorld).1 ≠ .error 403 error) ∧
    (∀ error, (patchBlood demoEnv demoBloodUpdate bloodWorld).1 ≠ .error 403 error) :=
  ⟨((forbidden_iff_foreign_hospital demoEnv demoWorld).1 demoBedForeign 4
      { row := demoBed "b1" "kem" "ICU" 10 3,
        hospitals := some { name := "kem", city := none } }
      (by decide) (by decide) (by decide)).1 (by decide),
   ((forbidden_iff_foreign_hospital demoEnv bloodWorld).2 demoBloodForeign 2
      { row := demoBlood "k1" "kem" "O-" 6 1,
        hospitals := some { name := "kem", city := some "Mumbai" } }
      (by decide) (by decide) (by decide)).1 (by decide),
   ((forbidden_iff_foreign_hospital demoEnv demoWorld).1 demoUpdate 4
      { row := demoBed "b1" "kem" "ICU" 10 3,
        hospitals := some { name := "kem", city := none } }
      (by decide) (by decide) (by decide)).2 (by decide),
   ((forbidden_iff_foreign_hospital demoEnv bloodWorld).2 demoBloodUpdate 2
      { row := demoBlood "k1" "kem" "O-" 6 1,
        hospitals := some { name := "kem", city := some "Mumbai" } }
      (by decide) (by decide) (by decide)).2 (by decide)⟩

/-- C17. A bed or blood mutation request is answered with status 400 and the
invalid-value message if and only if the new value is not a number or is
negative; such a request gets that answer from every store in every
environment and leaves the world as it was (the handler returns before it
calls the store); a value that is a non-negative number never gets it. -/
theorem invalid_input_iff (env : Env) (w : World) :
    (∀ req : BedPatchRequest,
      ((patchBed env req w).1 = .error 400 (.text "Invalid available_beds value") ↔
        (req.available_beds.isNumber = false ∨ ∃ v, req.available_beds = .num v ∧ v < 0)) ∧
      ((req.available_beds.isNumber = false ∨ ∃ v, req.available_beds = .num v ∧ v < 0) →
        ∀ (env' : Env) (w' : World),
          patchBed env' req w' = (.error 400 (.text "Invalid available_beds value"), w'))) ∧
    (∀ req : BloodPatchRequest,
      ((patchBlood env req w).1 = .error 400 (.text "Invalid units_available value") ↔
        (req.units_available.isNumber = false ∨ ∃ v, req.units_available = .num v ∧ v < 0)) ∧
      ((req.units_available.isNumber = false ∨ ∃ v, req.units_available = .num v ∧ v < 0) →
        ∀ (env' : Env) (w' : World),
          patchBlood env' req w' =
            (.error 400 (.text "Invalid units_available value"), w'))) := by
  refine ⟨fun req => ?_, fun req => ?_⟩
  · have hrej : (req.available_beds.isNumber = false ∨
        ∃ v, req.available_beds = .num v ∧ v < 0) →
        ∀ (env' : Env) (w' : World),
          patchBed env' req w' = (.error 400 (.text "Invalid available_beds value"), w') := by
      intro h env' w'
      cases hv : req.available_beds with
      | num v =>
        rcases h with h | ⟨v', hv', hneg⟩
        · rw [hv] at h
          cases h
        · rw [hv] at hv'
          cases hv'
          simp only [patchBed, hv, hneg, if_true]
      | undefined => simp only [patchBed, hv]
      | null => simp only [patchBed, hv]
      | bool b => simp only [patchBed, hv]
      | str s => simp only [patchBed, hv]
      | obj => simp only [patchBed, hv]
    refine ⟨⟨fun hres => ?_, fun h => by rw [hrej h env w]⟩, hrej⟩
    cases hv : req.available_beds with
    | num v =>
      by_cases h0 : v < 0
      · exact Or.inr ⟨v, rfl, h0⟩
      · exfalso
        rcases patchBed_valid_answers env req v w hv h0 with h | h | ⟨_, h⟩ | ⟨_, _, h⟩ <;>
          rw [h] at hres <;> cases hres
    | undefined => exact Or.inl rfl
    | null => exact Or.inl rfl
    | bool b => exact Or.inl rfl
    | str s => exact Or.inl rfl
    | obj => exact Or.inl rfl
  · have hrej : (req.units_available.isNumber = false ∨
        ∃ v, req.units_available = .num v ∧ v < 0) →
        ∀ (env' : Env) (w' : World),
          patchBlood env' req w' =
            (.error 400 (.text "Invalid units_available value"), w') := by
      intro h env' w'
      cases hv : req.units_available with
      | num v =>
        rcases h with h | ⟨v', hv', hneg⟩
        · rw [hv] at h
          cases h
        · rw [hv] at hv'
          cases hv'
          simp only [patchBlood, hv, hneg, if_true]
      | undefined => simp only [patchBlood, hv]
      | null => simp only [patchBlood, hv]
      | bool b => simp only [patchBlood, hv]
      | str s => simp only [patchBlood, hv]
      | obj => simp only [patchBlood, hv]
    refine ⟨⟨fun hres => ?_, fun h => by rw [hrej h env w]⟩, hrej⟩
    cases hv : req.units_available with
    | num v =>
      by_cases h0 : v < 0
      · exact Or.inr ⟨v, rfl, h0⟩
      · exfalso
        rcases patchBlood_valid_answers env req v w hv h0 with h | h | ⟨_, _, h⟩ <;>
          rw [h] at hres <;> cases hres
    | undefined => exact Or.inl rfl
    | null => exact Or.inl rfl
    | bool b => exact Or.inl rfl
    | str s => exact Or.inl rfl
    | obj => exact Or.inl rfl

/-- Witness of C17: a string value for a bed record and a negative value for a
blood record are refused as invalid, in any environment and world. -/
theorem invalid_input_iff_witness :
    demoBedText.available_beds.isNumber = false ∧
    (∃ v, demoBloodNegative.units_available = .num v ∧ v < 0) ∧
    patchBed updateFailsEnv demoBedText bloodWorld =
      (.error 400 (.text "Invalid available_beds value"), bloodWorld) ∧
    patchBlood updateFailsEnv demoBloodNegative bloodWorld =
      (.error 400 (.text "Invalid units_available value"), bloodWorld) :=
  ⟨rfl, ⟨.fin (-1), rfl, by decide⟩,
   ((invalid_input_iff demoEnv demoWorld).1 demoBedText).2 (Or.inl rfl) updateFailsEnv
     bloodWorld,
   ((invalid_input_iff demoEnv demoWorld).2 demoBloodNegative).2
     (Or.inr ⟨.fin (-1), rfl, by decide⟩) updateFailsEnv bloodWorld⟩

/-- C18, the code at the failing input: hospital `kem` lies in Mumbai, the bed
update succeeds and raises one alert, and both socket events go to the room
`undefined` instead of the room of the city; the blood route, which selects
`hospitals(name, city)`, sends its events to `Mumbai`. -/
theorem patchBed_emits_to_no_city :
    (demoWorld.hospitals.find? (fun h => h.id = "kem")).map (fun h => h.city) = some "Mumbai" ∧
    (patchBed demoEnv demoUpdate demoWorld).1 = .success demoUpdated [demoWarning] ∧
    (patchBed demoEnv demoUpdate demoWorld).2.emitted =
      [{ room := none, event := "bed_updated",
         payload := .bedUpdated "kem" "kem" "ICU" 4 10 },
       { room := none, event := "alert_created",
         payload := .alertCreated "kem" (.icuWarning 4 "kem") "high" }] ∧
    (patchBlood demoEnv demoBloodUpdate bloodWorld).2.emitted.map (fun e => (e.room, e.event)) =
      [(some "Mumbai", "blood_updated"), (some "Mumbai", "alert_created")] :=
  ⟨by decide, by decide, by decide, by decide⟩

/-! ## `sendCriticalAlert` -/

/-- C19 fails as stated: with an officer phone but no Twilio client the result is
`{ success: false, error: 'Twilio not configured' }`, and without an officer
phone it is `undefined`; neither is success-shaped. -/
theorem sendCriticalAlert_unconfigured_counterexample :
    sendCriticalAlert noClientEnv "KEM Hospital" (.bedsFull "ICU") demoWorld =
      (some (.failed "Twilio not configured"), demoWorld) ∧
    sendCriticalAlert noPhoneEnv "KEM Hospital" (.bedsFull "ICU") demoWorld =
      (none, demoWorld) :=
  ⟨by decide, by decide⟩

/-- C19 as amended. When the SMS channel is unconfigured, `sendCriticalAlert`
performs no send and leaves the world as it was; without a district officer
phone it returns `undefined`, and with a phone but without a Twilio client it
returns `{ success: false, error: 'Twilio not configured' }`. -/
theorem sendCriticalAlert_unconfigured (env : Env) (hospitalName : String)
    (alertMessage : EscalationText) (w : World) :
    (envFalsy env.DISTRICT_OFFICER_PHONE = true →
      sendCriticalAlert env hospitalName alertMessage w = (none, w)) ∧
    (envFalsy env.DISTRICT_OFFICER_PHONE = false → env.client = false →
      sendCriticalAlert env hospitalName alertMessage w =
        (some (.failed "Twilio not configured"), w)) := by
  refine ⟨fun hp => ?_, fun hp hc => ?_⟩
  · unfold sendCriticalAlert
    cases hphone : env.DISTRICT_OFFICER_PHONE with
    | none => rfl
    | some phone =>
      rw [hphone] at hp
      simp only [hp, if_true]
  · unfold sendCriticalAlert
    cases hphone : env.DISTRICT_OFFICER_PHONE with
    | none =>
      rw [hphone] at hp
      cases hp
    | some phone =>
      rw [hphone] at hp
      simp [hp, sendSMS, hc]

/-- Witness of the amended C19 in the two unconfigured demo environments. -/
theorem sendCriticalAlert_unconfigured_witness :
    envFalsy noPhoneEnv.DISTRICT_OFFICER_PHONE = true ∧
    envFalsy noClientEnv.DISTRICT_OFFICER_PHONE = false ∧ noClientEnv.client = false ∧
    sendCriticalAlert noPhoneEnv "KEM Hospital" (.bedsFull "ICU") demoWorld =
      (none, demoWorld) ∧
    sendCriticalAlert noClientEnv "KEM Hospital" (.bedsFull "ICU") demoWorld =
      (some (.failed "Twilio not configured"), demoWorld) :=
  ⟨by decide, by decide, rfl,
   (sendCriticalAlert_unconfigured noPhoneEnv "KEM Hospital" (.bedsFull "ICU") demoWorld).1
     (by decide),
   (sendCriticalAlert_unconfigured noClientEnv "KEM Hospital" (.bedsFull "ICU") demoWorld).2
     (by decide) rfl⟩

/-- C20. `sendCriticalAlert` returns for every hospital name and message: when
the channel is configured and the gateway rejects the message with an error,
the result is `{ success: false, error }` with the message of that error and
nothing is sent; when the gateway accepts it, the result is success-shaped and
the message is recorded; and a threshold check whose alert inserts succeed
returns its alerts whether or not the send fails. -/
theorem sendCriticalAlert_returns (env : Env) (hospitalName : String)
    (alertMessage : EscalationText) (w : World) :
    (∃ result w', sendCriticalAlert env hospitalName alertMessage w = (result, w')) ∧
    (∀ phone message, env.DISTRICT_OFFICER_PHONE = some phone → phone ≠ "" →
      env.client = true → env.smsError = some message →
      sendCriticalAlert env hospitalName alertMessage w = (some (.failed message), w)) ∧
    (∀ phone, env.DISTRICT_OFFICER_PHONE = some phone → phone ≠ "" →
      env.client = true → env.smsError = none →
      sendCriticalAlert env hospitalName alertMessage w =
        (some .sent,
         { w with sms := w.sms ++ [{ toPhone := phone, fromPhone := env.TWILIO_PHONE_NUMBER,
                                     hospitalName := hospitalName,
                                     alertMessage := alertMessage }] })) ∧
    ((∀ k, env.alertError k = false) → ∀ hospitalId bedType availableBeds,
      ∃ alerts,
        (checkBedThresholds env hospitalId bedType availableBeds hospitalName w).1 =
          .ok alerts) := by
  refine ⟨⟨_, _, rfl⟩, ?_, ?_, ?_⟩
  · intro phone message hphone hne hc hf
    simp [sendCriticalAlert, hphone, envFalsy, hne, sendSMS, hc, hf]
  · intro phone hphone hne hc hf
    simp [sendCriticalAlert, hphone, envFalsy, hne, sendSMS, hc, hf]
  · intro hok hospitalId bedType availableBeds
    exact ⟨_, checkBedThresholds_run env hok w hospitalId bedType hospitalName availableBeds⟩

/-- Witness of C20: the gateway rejects with `Authenticate`; the caller gets
`{ success: false, error: 'Authenticate' }` and the critical alert is still
returned by the threshold check. -/
theorem sendCriticalAlert_returns_witness :
    smsFailsEnv.DISTRICT_OFFICER_PHONE = some "+911234567890" ∧
    smsFailsEnv.client = true ∧ smsFailsEnv.smsError = some "Authenticate" ∧
    (∀ k, smsFailsEnv.alertError k = false) ∧
    sendCriticalAlert smsFailsEnv "KEM Hospital" (.bedsFull "ICU") demoWorld =
      (some (.failed "Authenticate"), demoWorld) ∧
    ∃ alerts,
      (checkBedThresholds smsFailsEnv "kem" "general" 0 "KEM Hospital" demoWorld).1 =
        .ok alerts :=
  ⟨rfl, rfl, rfl, fun _ => rfl,
   (sendCriticalAlert_returns smsFailsEnv "KEM Hospital" (.bedsFull "ICU") demoWorld).2.1
     "+911234567890" "Authenticate" rfl (by decide) rfl rfl,
   (sendCriticalAlert_returns smsFailsEnv "KEM Hospital" (.bedsFull "ICU") demoWorld).2.2.2
     (fun _ => rfl) "kem" "general" 0⟩

/-! ## Failures after the update, and the order of the checks -/

theorem createAlert_preserves_of {β : Type} (f : World → β)
    (hf : ∀ (w : World) (alerts : List Alert), f { w with alerts := alerts } = f w)
    (env : Env) (hospitalId alertType : String) (message : AlertMessage) (severity : String) :
    Preserves f (createAlert env hospitalId alertType message severity) := by
  intro w
  unfold createAlert
  split_ifs
  · rfl
  · exact hf w _

theorem sendCriticalAlert_preserves_of {β : Type} (f : World → β)
    (hf : ∀ (w : World) (sms : List Sms), f { w with sms := sms } = f w)
    (env : Env) (hospitalName : String) (m : EscalationText) :
    Preserves f (fun w => (.ok (), (sendCriticalAlert env hospitalName m w).2) : Eff Unit) := by
  intro w
  show f (sendCriticalAlert env hospitalName m w).2 = f w
  unfold sendCriticalAlert sendSMS
  cases env.DISTRICT_OFFICER_PHONE with
  | none => rfl
  | some phone =>
    dsimp only
    split_ifs
    · rfl
    · rfl
    · cases env.smsError with
      | none => exact hf w _
      | some msg => rfl

theorem checkBedThresholds_preserves_of {β : Type} (f : World → β)
    (ha : ∀ (w : World) (alerts : List Alert), f { w with alerts := alerts } = f w)
    (hs : ∀ (w : World) (sms : List Sms), f { w with sms := sms } = f w)
    (env : Env) (hospitalId bedType : String)
    (availableBeds : JsNum) (hospitalName : String) :
    Preserves f (checkBedThresholds env hospitalId bedType availableBeds hospitalName) := by
  unfold checkBedThresholds
  dsimp only
  repeat' first
    | exact preserves_pure _ _
    | exact createAlert_preserves_of f ha _ _ _ _ _
    | exact sendCriticalAlert_preserves_of f hs _ _ _
    | refine preserves_bind ?_ (fun _ => ?_)
    | split_ifs

theorem checkBloodThresholds_preserves_of {β : Type} (f : World → β)
    (ha : ∀ (w : World) (alerts : List Alert), f { w with alerts := alerts } = f w)
    (hs : ∀ (w : World) (sms : List Sms), f { w with sms := sms } = f w)
    (env : Env) (hospitalId bloodGroup : String)
    (unitsAvailable : JsNum) (hospitalName : String) :
    Preserves f (checkBloodThresholds env hospitalId bloodGroup unitsAvailable hospitalName) := by
  unfold checkBloodThresholds
  dsimp only
  repeat' first
    | exact preserves_pure _ _
    | exact createAlert_preserves_of f ha _ _ _ _ _
    | exact sendCriticalAlert_preserves_of f hs _ _ _
    | refine preserves_bind ?_ (fun _ => ?_)
    | split_ifs

theorem insertUpdateLog_ok (env : Env) (entry : UpdateLog) (w : World) :
    insertUpdateLog env entry w = (.ok (), (insertUpdateLog env entry w).2) := by
  unfold insertUpdateLog
  split_ifs <;> rfl

/-- The bed handler after a successful update, when the threshold check throws. -/
theorem patchBedNotify_of_check_error (env : Env) (req : BedPatchRequest) (v : JsNum)
    (currentBed : CurrentBed) (hospitals : HospitalEmbed) (updatedBed : BedRow)
    (w w' : World) (e : Thrown)
    (hh : currentBed.hospitals = some hospitals)
    (hcheck : checkBedThresholds env currentBed.row.hospital_id currentBed.row.bed_type v
      hospitals.name
      (insertUpdateLog env
        { hospital_id := currentBed.row.hospital_id, update_type := "bed",
          field_changed := currentBed.row.bed_type,
          old_value := currentBed.row.available_beds,
          new_value := v, changed_by := req.user_id } w).2 = (.error e, w')) :
    patchBedNotify env req v currentBed updatedBed w = (.error e, w') := by
  unfold patchBedNotify
  rw [hh, bind_of_ok _ _ w _ () (insertUpdateLog_ok env _ w)]
  exact bind_of_error _ _ _ _ _ hcheck

/-- The blood handler after a successful update, when the threshold check throws. -/
theorem patchBloodNotify_of_check_error (env : Env) (req : BloodPatchRequest) (v : JsNum)
    (currentBlood : CurrentBlood) (hospitals : HospitalEmbed) (updateData : BloodUpdateData)
    (updatedBlood : BloodRow) (w w' : World) (e : Thrown)
    (hh : currentBlood.hospitals = some hospitals)
    (hcheck : checkBloodThresholds env currentBlood.row.hospital_id currentBlood.row.blood_group
      v hospitals.name
      (insertUpdateLog env
        { hospital_id := currentBlood.row.hospital_id, update_type := "blood",
          field_changed := currentBlood.row.blood_group,
          old_value := currentBlood.row.units_available,
          new_value := v, changed_by := req.user_id } w).2 = (.error e, w')) :
    patchBloodNotify env req v currentBlood updateData updatedBlood w = (.error e, w') := by
  unfold patchBloodNotify
  rw [hh, bind_of_ok _ _ w _ () (insertUpdateLog_ok env _ w)]
  exact bind_of_error _ _ _ _ _ hcheck

theorem insertUpdateLog_preserves_of {β : Type} (f : World → β)
    (hf : ∀ (w : World) (logs : List UpdateLog), f { w with update_logs := logs } = f w)
    (env : Env) (entry : UpdateLog) : Preserves f (insertUpdateLog env entry) := by
  intro w
  unfold insertUpdateLog
  split_ifs
  · rfl
  · exact hf w _

/-- C21 as amended. For every bed or blood mutation whose inventory update has
been written (`w₁` is the world after it), a throw of the threshold check,
which only a failed alert insert causes, makes the handler answer status 500
with the route's failure message: the caller gets no success response, the
inventory keeps the written value and no socket event is emitted. -/
theorem alert_failure_fails_mutation (env : Env) (w : World) :
    (∀ (req : BedPatchRequest) (v : JsNum) (currentBed : CurrentBed)
        (hospitals : HospitalEmbed) (updatedBed : BedRow) (w₁ w₂ : World) (e : Thrown),
      req.available_beds = .num v → ¬ v < 0 →
      (selectBedSingle env req.id w).1 = .ok currentBed →
      currentBed.hospitals = some hospitals →
      currentBed.row.hospital_id = req.staff_hospital_id → ¬ v > currentBed.row.total_beds →
      updateBedSingle env req.id v req.user_id w = (.ok updatedBed, w₁) →
      checkBedThresholds env currentBed.row.hospital_id currentBed.row.bed_type v
        hospitals.name (insertUpdateLog env (bedLogEntry req v currentBed) w₁).2 =
          (.error e, w₂) →
      patchBed env req w = (.error 500 (.text "Failed to update bed inventory"), w₂) ∧
      w₂.bed_inventory = w₁.bed_inventory ∧ w₂.emitted = w₁.emitted) ∧
    (∀ (req : BloodPatchRequest) (v : JsNum) (currentBlood : CurrentBlood)
        (hospitals : HospitalEmbed) (updatedBlood : BloodRow) (w₁ w₂ : World) (e : Thrown),
      req.units_available = .num v → ¬ v < 0 →
      (selectBloodSingle env req.id w).1 = .ok currentBlood →
      currentBlood.hospitals = some hospitals →
      currentBlood.row.hospital_id = req.staff_hospital_id →
      updateBloodSingle env req.id (bloodUpdateData req v) w = (.ok updatedBlood, w₁) →
      checkBloodThresholds env currentBlood.row.hospital_id currentBlood.row.blood_group v
        hospitals.name (insertUpdateLog env (bloodLogEntry req v currentBlood) w₁).2 =
          (.error e, w₂) →
      patchBlood env req w = (.error 500 (.text "Failed to update blood inventory"), w₂) ∧
      w₂.blood_inventory = w₁.blood_inventory ∧ w₂.emitted = w₁.emitted) := by
  refine ⟨?_, ?_⟩
  · intro req v currentBed hospitals updatedBed w₁ w₂ e hv h0 hsel hh hsame hcap hupd hcheck
    refine ⟨?_, ?_, ?_⟩
    · rw [patchBed_of_num env req w v hv h0]
      rcases patchBedTry_run env req v w with
        ⟨he, _⟩ | ⟨cur, hc, ⟨hne, _⟩ | ⟨_, hgt, _⟩ | ⟨_, _, h⟩⟩
      · rw [he] at hsel; cases hsel
      · rw [hc] at hsel; cases hsel; exact absurd hsame hne
      · rw [hc] at hsel; cases hsel; exact absurd hgt hcap
      · rw [hc] at hsel; cases hsel
        rw [h, bind_of_ok _ _ w w₁ updatedBed hupd,
          patchBedNotify_of_check_error env req v currentBed hospitals updatedBed w₁ w₂ e hh hcheck]
    · have h1 := checkBedThresholds_preserves_of World.bed_inventory (fun _ _ => rfl)
        (fun _ _ => rfl) env currentBed.row.hospital_id currentBed.row.bed_type v
        hospitals.name (insertUpdateLog env (bedLogEntry req v currentBed) w₁).2
      rw [hcheck] at h1
      exact h1.trans (insertUpdateLog_preserves_of World.bed_inventory (fun _ _ => rfl) env _ w₁)
    · have h1 := checkBedThresholds_preserves_of World.emitted (fun _ _ => rfl)
        (fun _ _ => rfl) env currentBed.row.hospital_id currentBed.row.bed_type v
        hospitals.name (insertUpdateLog env (bedLogEntry req v currentBed) w₁).2
      rw [hcheck] at h1
      exact h1.trans (insertUpdateLog_preserves_of World.emitted (fun _ _ => rfl) env _ w₁)
  · intro req v currentBlood hospitals updatedBlood w₁ w₂ e hv h0 hsel hh hsame hupd hcheck
    refine ⟨?_, ?_, ?_⟩
    · rw [patchBlood_of_num env req w v hv h0]
      rcases patchBloodTry_run env req v w with ⟨he, _⟩ | ⟨cur, hc, ⟨hne, _⟩ | ⟨_, h⟩⟩
      · rw [he] at hsel; cases hsel
      · rw [hc] at hsel; cases hsel; exact absurd hsame hne
      · rw [hc] at hsel; cases hsel
        rw [h, bind_of_ok _ _ w w₁ updatedBlood hupd,
          patchBloodNotify_of_check_error env req v currentBlood hospitals _ updatedBlood w₁ w₂ e hh
            hcheck]
    · have h1 := checkBloodThresholds_preserves_of World.blood_inventory (fun _ _ => rfl)
        (fun _ _ => rfl) env currentBlood.row.hospital_id currentBlood.row.blood_group v
        hospitals.name (insertUpdateLog env (bloodLogEntry req v currentBlood) w₁).2
      rw [hcheck] at h1
      exact h1.trans
        (insertUpdateLog_preserves_of World.blood_inventory (fun _ _ => rfl) env _ w₁)
    · have h1 := checkBloodThresholds_preserves_of World.emitted (fun _ _ => rfl)
        (fun _ _ => rfl) env currentBlood.row.hospital_id currentBlood.row.blood_group v
        hospitals.name (insertUpdateLog env (bloodLogEntry req v currentBlood) w₁).2
      rw [hcheck] at h1
      exact h1.trans (insertUpdateLog_preserves_of World.emitted (fun _ _ => rfl) env _ w₁)

/-- C21 fails as stated: with the store refusing alert inserts, a valid bed
update that lands in the warning band is answered with status 500 although the
record has been updated and the log entry written. -/
theorem alert_failure_counterexample :
    (patchBed alertFailsEnv demoUpdate demoWorld).1 =
      .error 500 (.text "Failed to update bed inventory") ∧
    (patchBed alertFailsEnv demoUpdate demoWorld).2.bed_inventory =
      [demoUpdated, demoBed "b2" "sion" "ICU" 8 4, demoBed "b3" "kem" "general" 50 20] ∧
    (patchBed alertFailsEnv demoUpdate demoWorld).2.update_logs.length = 1 ∧
    (patchBed alertFailsEnv demoUpdate demoWorld).2.emitted = [] := by
  refine ⟨by decide, by decide, by decide, by decide⟩

/-- Witness of the amended C21 for the bed and the blood update of the demo
worlds. -/
theorem alert_failure_fails_mutation_witness :
    (patchBed alertFailsEnv demoUpdate demoWorld =
        (.error 500 (.text "Failed to update bed inventory"), demoWorldLogged) ∧
      demoWorldLogged.bed_inventory = demoWorldUpdated.bed_inventory ∧
      demoWorldLogged.emitted = demoWorldUpdated.emitted) ∧
    (patchBlood alertFailsEnv demoBloodUpdate bloodWorld =
        (.error 500 (.text "Failed to update blood inventory"), bloodWorldLogged) ∧
      bloodWorldLogged.blood_inventory = bloodWorldUpdated.blood_inventory ∧
      bloodWorldLogged.emitted = bloodWorldUpdated.emitted) :=
  ⟨(alert_failure_fails_mutation alertFailsEnv demoWorld).1 demoUpdate 4
      { row := demoBed "b1" "kem" "ICU" 10 3, hospitals := some { name := "kem", city := none } }
      { name := "kem", city := none } demoUpdated demoWorldUpdated demoWorldLogged .storeError
      rfl (by decide) (by decide) rfl (by decide) (by decide) (by decide) (by decide),
   (alert_failure_fails_mutation alertFailsEnv bloodWorld).2 demoBloodUpdate 2
      { row := demoBlood "k1" "kem" "O-" 6 1,
        hospitals := some { name := "kem", city := some "Mumbai" } }
      { name := "kem", city := some "Mumbai" }
      { demoBlood "k1" "kem" "O-" 2 1 with updated_by := some "u1" }
      bloodWorldUpdated bloodWorldLogged .storeError
      rfl (by decide) (by decide) rfl (by decide) (by decide) (by decide)⟩

/-- C26 fails as stated: 11 beds on a record of 10, asked for by staff of another
hospital, are answered with the 403 of the authorization check, not with the
capacity rejection that staff of the hospital get. -/
theorem capacity_counterexample :
    (∃ v total, demoOverForeign.available_beds = .num v ∧
      (demoWorld.bed_inventory.filter (fun r => r.id = demoOverForeign.id)).map
        (fun r => r.total_beds) = [total] ∧ v > total) ∧
    patchBed demoEnv demoOverForeign demoWorld =
      (.error 403 (.text "Not authorized to update this hospital"), demoWorld) ∧
    patchBed demoEnv demoOverCapacity demoWorld =
      (.error 400 (.exceedsTotal 11 10), demoWorld) :=
  ⟨⟨11, 10, rfl, by decide, by decide⟩, by decide, by decide⟩

/-- C26 as amended. The capacity check comes after the authorization check: for
every request whose new value is a number greater than the total of the record
(a total that is not negative), the answer is the capacity rejection when the
acting principal belongs to the hospital of the record and the 403 of the
authorization check when not; the world is unchanged in both cases. -/
theorem capacity_check_after_authorization (env : Env) (req : BedPatchRequest) (w : World)
    (v : JsNum) (currentBed : CurrentBed)
    (hv : req.available_beds = .num v)
    (hsel : (selectBedSingle env req.id w).1 = .ok currentBed)
    (htotal : 0 ≤ currentBed.row.total_beds) (hgt : v > currentBed.row.total_beds) :
    (currentBed.row.hospital_id = req.staff_hospital_id →
      patchBed env req w = (.error 400 (.exceedsTotal v currentBed.row.total_beds), w)) ∧
    (currentBed.row.hospital_id ≠ req.staff_hospital_id →
      patchBed env req w =
        (.error 403 (.text "Not authorized to update this hospital"), w)) := by
  have h0 : ¬ v < 0 := fun h => JsNum.blt_asymm (JsNum.blt_of_ble_of_blt htotal hgt) h
  rw [patchBed_of_num env req w v hv h0]
  rcases patchBedTry_run env req v w with
    ⟨he, _⟩ | ⟨cur, hc, ⟨hne, h⟩ | ⟨hsame, _, h⟩ | ⟨_, hle, _⟩⟩
  · rw [he] at hsel; cases hsel
  · rw [hc] at hsel; cases hsel
    rw [h]
    exact ⟨fun hs => absurd hs hne, fun _ => rfl⟩
  · rw [hc] at hsel; cases hsel
    rw [h]
    exact ⟨fun _ => rfl, fun hne => absurd hsame hne⟩
  · rw [hc] at hsel; cases hsel
    exact absurd hgt hle

/-- Witness of the amended C26: 11 beds on the ICU record of hospital `kem`,
asked for by staff of `kem` and by staff of `sion`. -/
theorem capacity_check_after_authorization_witness :
    patchBed demoEnv demoOverCapacity demoWorld =
      (.error 400 (.exceedsTotal 11 10), demoWorld) ∧
    patchBed demoEnv demoOverForeign demoWorld =
      (.error 403 (.text "Not authorized to update this hospital"), demoWorld) :=
  ⟨(capacity_check_after_authorization demoEnv demoOverCapacity demoWorld 11
      { row := demoBed "b1" "kem" "ICU" 10 3, hospitals := some { name := "kem", city := none } }
      rfl (by decide) (by decide) (by decide)).1 (by decide),
   (capacity_check_after_authorization demoEnv demoOverForeign demoWorld 11
      { row := demoBed "b1" "kem" "ICU" 10 3, hospitals := some { name := "kem", city := none } }
      rfl (by decide) (by decide) (by decide)).2 (by decide)⟩

/-- C28, the code at the failing input: the record has 1 reserved unit and
the request sets `units_reserved` to 0; the stored row and the response carry
0, and the `blood_updated` payload carries 1, the old value, because
`updateData.units_reserved || currentBlood.units_reserved` takes 0 for
absent. -/
theorem blood_updated_reserved_zero :
    (patchBlood demoEnv demoBloodReserveZero bloodWorld).1 =
      .success { demoBlood "k1" "kem" "O-" 2 0 with updated_by := some "u1" }
        [{ id := 0, hospital_id := "kem", alert_type := "blood_shortage",
           message := .bloodWarning 2 "O-" "kem", severity := "high", is_resolved := false }] ∧
    (patchBlood demoEnv demoBloodReserveZero bloodWorld).2.blood_inventory =
      [{ demoBlood "k1" "kem" "O-" 2 0 with updated_by := some "u1" },
       demoBlood "s1" "sion" "A+" 9 0] ∧
    (patchBlood demoEnv demoBloodReserveZero bloodWorld).2.emitted.head? =
      some { room := some "Mumbai", event := "blood_updated",
             payload := .bloodUpdated "kem" "kem" "O-" 2 1 } :=
  ⟨by decide, by decide, by decide⟩

/-! ## `POST /api/alerts/:id/resolve` -/

theorem Alert.frame_resolved (a : Alert) (resolved_by resolved_at : String) :
    (a.resolved resolved_by resolved_at).frame = a.frame := rfl

/-- What one resolve operation does to the world. -/
theorem resolveAlert_world (env : Env) (now : String) (req : ResolveRequest) (w : World) :
    (resolveAlert env now req w).2 = w ∨
    (resolveAlert env now req w).2 =
      { w with alerts := w.alerts.map (fun x =>
          if x.id = req.id then x.resolved req.user_id now else x) } := by
  unfold resolveAlert updateAlertSingle
  by_cases he : env.updateError = true
  · rw [if_pos he]
    exact Or.inl rfl
  · rw [if_neg he]
    cases w.alerts.filter (fun a => a.id = req.id) with
    | nil => exact Or.inl rfl
    | cons a rest =>
      cases rest with
      | nil => exact Or.inr rfl
      | cons b rest => exact Or.inl rfl

theorem resolveAll_alerts (ops : List ResolveOp) :
    ∀ w : World, ∃ g : Alert → Alert,
      (resolveAll ops w).alerts = w.alerts.map g ∧
      (∀ a, (g a).frame = a.frame) ∧
      (∀ a, (∀ op ∈ ops, op.req.id ≠ a.id) → g a = a) := by
  induction ops with
  | nil => exact fun w => ⟨id, by simp [resolveAll], fun _ => rfl, fun _ _ => rfl⟩
  | cons op rest ih =>
    intro w
    have hstep : ∃ g₁ : Alert → Alert,
        (resolveAlert op.env op.now op.req w).2.alerts = w.alerts.map g₁ ∧
        (∀ a, (g₁ a).frame = a.frame) ∧ (∀ a, op.req.id ≠ a.id → g₁ a = a) := by
      rcases resolveAlert_world op.env op.now op.req w with h | h
      · exact ⟨id, by rw [h]; simp, fun _ => rfl, fun _ _ => rfl⟩
      · refine ⟨fun x => if x.id = op.req.id then x.resolved op.req.user_id op.now else x,
          by rw [h], fun a => ?_, fun a ha => ?_⟩
        · dsimp only
          split_ifs
          · exact Alert.frame_resolved _ _ _
          · rfl
        · dsimp only
          rw [if_neg (fun h => ha h.symm)]
    obtain ⟨g₁, h₁, hf₁, hu₁⟩ := hstep
    obtain ⟨g₂, h₂, hf₂, hu₂⟩ := ih (resolveAlert op.env op.now op.req w).2
    refine ⟨g₂ ∘ g₁, ?_, fun a => ?_, fun a ha => ?_⟩
    · show (resolveAll rest (resolveAlert op.env op.now op.req w).2).alerts = _
      rw [h₂, h₁, List.map_map]
    · exact (hf₂ (g₁ a)).trans (hf₁ a)
    · show g₂ (g₁ a) = a
      rw [hu₁ a (ha op (List.mem_cons_self _ _))]
      exact hu₂ a (fun op' hop => ha op' (List.mem_cons_of_mem _ hop))

theorem resolveAlert_others (env : Env) (now : String) (req : ResolveRequest) (w : World) :
    (resolveAlert env now req w).2.hospitals = w.hospitals ∧
    (resolveAlert env now req w).2.bed_inventory = w.bed_inventory ∧
    (resolveAlert env now req w).2.blood_inventory = w.blood_inventory ∧
    (resolveAlert env now req w).2.update_logs = w.update_logs ∧
    (resolveAlert env now req w).2.sms = w.sms ∧
    (resolveAlert env now req w).2.emitted = w.emitted := by
  rcases resolveAlert_world env now req w with h | h <;> rw [h] <;>
    exact ⟨rfl, rfl, rfl, rfl, rfl, rfl⟩

theorem resolveAll_others (ops : List ResolveOp) :
    ∀ w : World,
      (resolveAll ops w).hospitals = w.hospitals ∧
      (resolveAll ops w).bed_inventory = w.bed_inventory ∧
      (resolveAll ops w).blood_inventory = w.blood_inventory ∧
      (resolveAll ops w).update_logs = w.update_logs ∧
      (resolveAll ops w).sms = w.sms ∧ (resolveAll ops w).emitted = w.emitted := by
  induction ops with
  | nil => exact fun w => ⟨rfl, rfl, rfl, rfl, rfl, rfl⟩
  | cons op rest ih =>
    intro w
    obtain ⟨h1, h2, h3, h4, h5, h6⟩ := ih (resolveAlert op.env op.now op.req w).2
    obtain ⟨s1, s2, s3, s4, s5, s6⟩ := resolveAlert_others op.env op.now op.req w
    exact ⟨h1.trans s1, h2.trans s2, h3.trans s3, h4.trans s4, h5.trans s5, h6.trans s6⟩

/-- C22. After every sequence of resolve operations, whatever the store
answers to each, the `alerts` table has the same rows in the same order, each
with the `id`, `hospital_id`, `alert_type`, `message`, `severity` and
`created_at` it had before (only `is_resolved`, `resolved_by` and `resolved_at`
can differ), a row whose id no operation names is unchanged, and every other
table is unchanged. -/
theorem resolve_changes_only_resolution (ops : List ResolveOp) (w : World) :
    List.Forall₂
      (fun before after =>
        after.id = before.id ∧ after.hospital_id = before.hospital_id ∧
        after.alert_type = before.alert_type ∧ after.message = before.message ∧
        after.severity = before.severity ∧ after.created_at = before.created_at ∧
        ((∀ op ∈ ops, op.req.id ≠ before.id) → after = before))
      w.alerts (resolveAll ops w).alerts ∧
    (resolveAll ops w).hospitals = w.hospitals ∧
    (resolveAll ops w).bed_inventory = w.bed_inventory ∧
    (resolveAll ops w).blood_inventory = w.blood_inventory ∧
    (resolveAll ops w).update_logs = w.update_logs ∧
    (resolveAll ops w).sms = w.sms ∧ (resolveAll ops w).emitted = w.emitted := by
  refine ⟨?_, resolveAll_others ops w⟩
  obtain ⟨g, hg, hf, hu⟩ := resolveAll_alerts ops w
  rw [hg, List.forall₂_map_right_iff, List.forall₂_same]
  intro a _
  have h := hf a
  simp only [Alert.frame, Prod.mk.injEq] at h
  exact ⟨h.1, h.2.1, h.2.2.1, h.2.2.2.1, h.2.2.2.2.1, h.2.2.2.2.2, hu a⟩

/-- Witness of C22: the alert of id 1 is resolved twice and a missing id once;
the alert of id 0 is unchanged and the alert of id 1 differs in the three
resolution columns only. -/
theorem resolve_changes_only_resolution_witness :
    (resolveAll demoResolveOps alertWorld).alerts =
      [demoAlert 0 "kem" (.icuWarning 4 "kem") "high",
       { demoAlert 1 "sion" (.icuCritical 1 "sion") "critical" with
         is_resolved := true, resolved_by := some "root",
         resolved_at := some "2024-05-03T08:00:00.000Z" }] ∧
    List.Forall₂
      (fun before after =>
        after.id = before.id ∧ after.hospital_id = before.hospital_id ∧
        after.alert_type = before.alert_type ∧ after.message = before.message ∧
        after.severity = before.severity ∧ after.created_at = before.created_at ∧
        ((∀ op ∈ demoResolveOps, op.req.id ≠ before.id) → after = before))
      alertWorld.alerts (resolveAll demoResolveOps alertWorld).alerts :=
  ⟨by decide, (resolve_changes_only_resolution demoResolveOps alertWorld).1⟩

/-- C23 fails as stated: resolving an id that no alert has is answered with
status 500 and `Failed to resolve alert`, the very response a storage failure
on an existing id gets. -/
theorem resolve_missing_counterexample :
    (∀ a ∈ alertWorld.alerts, a.id ≠ demoResolveMissing.id) ∧
    resolveAlert demoEnv "2024-05-02T09:00:00.000Z" demoResolveMissing alertWorld =
      (.error 500 "Failed to resolve alert", alertWorld) ∧
    resolveAlert updateFailsEnv "2024-05-02T09:00:00.000Z" demoResolve alertWorld =
      (.error 500 "Failed to resolve alert", alertWorld) :=
  ⟨by decide, by decide, by decide⟩

/-- C23 as amended. Resolving an alert id that no row of the store has is
answered with status 500 and the message `Failed to resolve alert`, and leaves
the world as it was; a storage failure is answered with the same response, so
the caller cannot tell the two apart. -/
theorem resolve_missing_is_generic_failure (env : Env) (now : String) (req : ResolveRequest)
    (w : World) :
    ((∀ a ∈ w.alerts, a.id ≠ req.id) →
      resolveAlert env now req w = (.error 500 "Failed to resolve alert", w)) ∧
    (env.updateError = true →
      resolveAlert env now req w = (.error 500 "Failed to resolve alert", w)) := by
  refine ⟨fun hmiss => ?_, fun hfail => ?_⟩
  · have hnil : w.alerts.filter (fun a => a.id = req.id) = [] := by
      rw [List.filter_eq_nil_iff]
      intro a ha
      simpa using hmiss a ha
    unfold resolveAlert updateAlertSingle
    rw [hnil]
    split_ifs <;> rfl
  · unfold resolveAlert updateAlertSingle
    rw [if_pos hfail]

/-- Witness of the amended C23 in the demo world: a missing id, and a store
that refuses the update of an existing id. -/
theorem resolve_missing_is_generic_failure_witness :
    resolveAlert demoEnv "2024-05-02T09:00:00.000Z" demoResolveMissing alertWorld =
      (.error 500 "Failed to resolve alert", alertWorld) ∧
    resolveAlert updateFailsEnv "2024-05-02T09:00:00.000Z" demoResolve alertWorld =
      (.error 500 "Failed to resolve alert", alertWorld) :=
  ⟨(resolve_missing_is_generic_failure demoEnv _ demoResolveMissing alertWorld).1 (by decide),
   (resolve_missing_is_generic_failure updateFailsEnv _ demoResolve alertWorld).2 rfl⟩

/-! ## The socket server -/

theorem mem_receivers (s : Sockets) (id : String) (room : Option String) :
    id ∈ receivers s room ↔ (id, roomKey room) ∈ s.rooms := by
  unfold receivers
  simp only [List.mem_map, List.mem_filter, decide_eq_true_eq]
  constructor
  · rintro ⟨⟨i, r⟩, ⟨hmem, hr⟩, hi⟩
    dsimp only at hr hi
    rw [← hr, ← hi]
    exact hmem
  · intro h
    exact ⟨(id, roomKey room), ⟨h, rfl⟩, rfl⟩

theorem mem_cityGroups (s : Sockets) (id : String) (room : JsVal) :
    room ∈ cityGroups s id ↔ (id, room) ∈ s.rooms ∧ room ≠ .str id := by
  unfold cityGroups
  simp only [List.mem_filter, List.mem_map, decide_eq_true_eq]
  constructor
  · rintro ⟨⟨⟨i, r⟩, ⟨hmem, hi⟩, hr⟩, hne⟩
    dsimp only at hr hi
    subst hi hr
    exact ⟨hmem, hne⟩
  · rintro ⟨h, hne⟩
    exact ⟨⟨(id, room), ⟨h, rfl⟩, rfl⟩, hne⟩

theorem onSocketEvent_connection (s : Sockets) (id : String) :
    onSocketEvent s (.connection id) =
      if id ∈ s.connected then s
      else ({ s with connected := s.connected ++ [id] }).joinRoom id (.str id) := rfl

theorem onSocketEvent_join_city (s : Sockets) (id : String) (city : RoomArg) :
    onSocketEvent s (.join_city id city) =
      if id ∈ s.connected then
        { s.join id city with joined_city := (s.join id city).joined_city ++ [(id, city)] }
      else s := rfl

theorem onSocketEvent_leave_city (s : Sockets) (id : String) (city : RoomArg) :
    onSocketEvent s (.leave_city id city) =
      if id ∈ s.connected then s.leave id city else s := rfl

theorem onSocketEvent_disconnect (s : Sockets) (id : String) :
    onSocketEvent s (.disconnect id) =
      { s with connected := s.connected.filter (fun c => c ≠ id),
               rooms := s.rooms.filter (fun p => p.1 ≠ id) } := rfl

theorem run_cons (s : Sockets) (e : SocketEvent) (events : List SocketEvent) :
    s.run (e :: events) = (onSocketEvent s e).run events := rfl

/-- A property of the start state that every handler keeps holds in every
reachable state. -/
theorem run_invariant (P : Sockets → Prop) (hstep : ∀ s e, P s → P (onSocketEvent s e))
    (events : List SocketEvent) : ∀ s, P s → P (s.run events) := by
  induction events with
  | nil => exact fun s h => h
  | cons e rest ih => exact fun s h => ih _ (hstep s e h)

/-- The rooms after a socket is added to one room. -/
theorem joinRoom_rooms (s : Sockets) (id : String) (room : JsVal) :
    ((s.joinRoom id room).rooms = s.rooms ∧ room ≠ .obj ∧ (id, room) ∈ s.rooms) ∨
      ((room = .obj ∨ (id, room) ∉ s.rooms) ∧
        (s.joinRoom id room).rooms = s.rooms ++ [(id, room)]) := by
  unfold Sockets.joinRoom
  split_ifs with h
  · exact Or.inl ⟨rfl, h.1, h.2⟩
  · refine Or.inr ⟨?_, rfl⟩
    by_cases ho : room = .obj
    · exact Or.inl ho
    · exact Or.inr (fun hm => h ⟨ho, hm⟩)

theorem joinRoom_connected (s : Sockets) (id : String) (room : JsVal) :
    (s.joinRoom id room).connected = s.connected := by
  unfold Sockets.joinRoom
  split_ifs <;> rfl

theorem mem_rooms_joinRoom (s : Sockets) (id : String) (room : JsVal)
    (p : String × JsVal) :
    p ∈ (s.joinRoom id room).rooms ↔ p ∈ s.rooms ∨ p = (id, room) := by
  rcases joinRoom_rooms s id room with ⟨h, _, hm⟩ | ⟨_, h⟩
  · rw [h]
    constructor
    · exact Or.inl
    · rintro (hp | hp)
      · exact hp
      · rw [hp]; exact hm
  · rw [h]
    simp

/-- Joining adds rooms of the socket that joins and keeps every membership. -/
theorem join_rooms (s : Sockets) (id : String) (arg : RoomArg) :
    (s.join id arg).connected = s.connected ∧
    (∀ p ∈ s.rooms, p ∈ (s.join id arg).rooms) ∧
    (∀ p ∈ (s.join id arg).rooms, p ∈ s.rooms ∨ p.1 = id) := by
  cases arg with
  | value v =>
    refine ⟨joinRoom_connected s id v, fun p hp => ?_, fun p hp => ?_⟩
    · exact (mem_rooms_joinRoom s id v p).2 (Or.inl hp)
    · rcases (mem_rooms_joinRoom s id v p).1 hp with h | h
      · exact Or.inl h
      · exact Or.inr (by rw [h])
  | array vs =>
    show (vs.foldl (fun joined v => joined.joinRoom id v) s).connected = s.connected ∧ _
    induction vs generalizing s with
    | nil => exact ⟨rfl, fun p hp => hp, fun p hp => Or.inl hp⟩
    | cons v rest ih =>
      obtain ⟨h1, h2, h3⟩ := ih (s.joinRoom id v)
      refine ⟨h1.trans (joinRoom_connected s id v), fun p hp => ?_, fun p hp => ?_⟩
      · exact h2 p ((mem_rooms_joinRoom s id v p).2 (Or.inl hp))
      · rcases h3 p hp with h | h
        · rcases (mem_rooms_joinRoom s id v p).1 h with h | h
          · exact Or.inl h
          · exact Or.inr (by rw [h])
        · exact Or.inr h

/-- Leaving removes memberships only. -/
theorem leave_rooms (s : Sockets) (id : String) (arg : RoomArg) :
    (s.leave id arg).connected = s.connected ∧
    ∃ q : String × JsVal → Bool, (s.leave id arg).rooms = s.rooms.filter q := by
  cases arg with
  | value v =>
    show (if v = .obj then s
      else { s with rooms := s.rooms.filter (fun p => p ≠ (id, v)) }).connected = _ ∧
      ∃ q : String × JsVal → Bool, (if v = .obj then s
      else { s with rooms := s.rooms.filter (fun p => p ≠ (id, v)) }).rooms = _
    split_ifs
    · exact ⟨rfl, fun _ => true, by simp⟩
    · exact ⟨rfl, _, rfl⟩
  | array vs => exact ⟨rfl, fun _ => true, by simp [Sockets.leave]⟩

/-- In every reachable state the sockets in the rooms are connected sockets. -/
theorem rooms_connected_step (s : Sockets) (e : SocketEvent)
    (h : ∀ p ∈ s.rooms, p.1 ∈ s.connected) :
    ∀ p ∈ (onSocketEvent s e).rooms, p.1 ∈ (onSocketEvent s e).connected := by
  cases e with
  | connection id =>
    rw [onSocketEvent_connection]
    split_ifs with hc
    · exact h
    · intro p hp
      rw [joinRoom_connected]
      rcases (mem_rooms_joinRoom _ _ _ _).1 hp with hp | hp
      · exact List.mem_append_left _ (h p hp)
      · rw [hp]
        exact List.mem_append_right _ (List.mem_singleton_self _)
  | join_city id city =>
    rw [onSocketEvent_join_city]
    split_ifs with hc
    · intro p hp
      obtain ⟨h1, _, h3⟩ := join_rooms s id city
      show p.1 ∈ (s.join id city).connected
      rw [h1]
      rcases h3 p hp with hp | hp
      · exact h p hp
      · rw [hp]; exact hc
    · exact h
  | leave_city id city =>
    rw [onSocketEvent_leave_city]
    split_ifs with hc
    · intro p hp
      obtain ⟨h1, q, h2⟩ := leave_rooms s id city
      rw [h1]
      rw [h2] at hp
      exact h p (List.mem_of_mem_filter hp)
    · exact h
  | disconnect id =>
    rw [onSocketEvent_disconnect]
    intro p hp
    have hp' := List.mem_filter.1 hp
    exact List.mem_filter.2 ⟨h p hp'.1, by simpa using hp'.2⟩

/-- C24. In every state the socket server reaches by connections, `join_city`
and `leave_city` messages (whatever their arguments) and disconnections, the
events the mutation pipeline has emitted are delivered as follows: an event
reaches a socket exactly when the socket is in the room the event was emitted
to; every socket reached is a connected one; and a socket that is in the room
`Pune` and not in the room `Mumbai` gets no event emitted to `Mumbai`, whoever
else is in either room. -/
theorem broadcast_isolation (events : List SocketEvent) (emitted : List Emit) (id : String) :
    (∀ e, (id, e) ∈ deliveries (Sockets.start.run events) emitted ↔
      e ∈ emitted ∧ (id, roomKey e.room) ∈ (Sockets.start.run events).rooms) ∧
    (∀ e, (id, e) ∈ deliveries (Sockets.start.run events) emitted →
      id ∈ (Sockets.start.run events).connected) ∧
    ((id, JsVal.str "Pune") ∈ (Sockets.start.run events).rooms →
      (id, JsVal.str "Mumbai") ∉ (Sockets.start.run events).rooms →
      ∀ e ∈ emitted, e.room = some "Mumbai" →
        (id, e) ∉ deliveries (Sockets.start.run events) emitted) := by
  have hdel : ∀ e, (id, e) ∈ deliveries (Sockets.start.run events) emitted ↔
      e ∈ emitted ∧ (id, roomKey e.room) ∈ (Sockets.start.run events).rooms := by
    intro e
    unfold deliveries
    simp only [List.mem_flatMap, List.mem_map, Prod.mk.injEq]
    constructor
    · rintro ⟨e', he', i, hi, hii, hee⟩
      subst hii hee
      exact ⟨he', (mem_receivers _ _ _).1 hi⟩
    · rintro ⟨he, hr⟩
      exact ⟨e, he, id, (mem_receivers _ _ _).2 hr, rfl, rfl⟩
  refine ⟨hdel, fun e he => ?_, fun _ hm e _ hroom hd => ?_⟩
  · exact run_invariant (fun s => ∀ p ∈ s.rooms, p.1 ∈ s.connected) rooms_connected_step
      events Sockets.start (fun p hp => by cases hp) (id, roomKey e.room) ((hdel e).1 he).2
  · apply hm
    have := ((hdel e).1 hd).2
    rw [hroom] at this
    exact this

/-- Witness of C24: with `s1` in Pune and `s2` in Mumbai, the two events of a
blood update of a Mumbai hospital reach `s2` and not `s1`. -/
theorem broadcast_isolation_witness :
    deliveries (Sockets.start.run twoCities) (patchBlood demoEnv demoBloodUpdate bloodWorld).2.emitted =
      [("s2", { room := some "Mumbai", event := "blood_updated",
                payload := .bloodUpdated "kem" "kem" "O-" 2 1 }),
       ("s2", { room := some "Mumbai", event := "alert_created",
                payload := .alertCreated "kem" (.bloodWarning 2 "O-" "kem") "high" })] ∧
    ∀ e ∈ (patchBlood demoEnv demoBloodUpdate bloodWorld).2.emitted, e.room = some "Mumbai" →
      ("s1", e) ∉ deliveries (Sockets.start.run twoCities)
        (patchBlood demoEnv demoBloodUpdate bloodWorld).2.emitted :=
  ⟨by decide,
   (broadcast_isolation twoCities (patchBlood demoEnv demoBloodUpdate bloodWorld).2.emitted
      "s1").2.2 (by decide) (by decide)⟩


theorem cityGroups_of_rooms (s t : Sockets) (id : String) (h : t.rooms = s.rooms) :
    cityGroups t id = cityGroups s id := by
  unfold cityGroups
  rw [h]

theorem cityGroups_append (s t : Sockets) (id i : String) (r : JsVal)
    (h : t.rooms = s.rooms ++ [(i, r)]) :
    cityGroups t id = cityGroups s id ++ (if i = id ∧ r ≠ .str id then [r] else []) := by
  unfold cityGroups
  rw [h, List.filter_append, List.map_append, List.filter_append]
  congr 1
  by_cases hi : i = id
  · by_cases hr : r = .str id
    · simp [hi, hr]
    · simp [hi, hr]
  · simp [hi]

theorem cityGroups_filter_le (s t : Sockets) (id : String)
    (q : String × JsVal → Bool) (h : t.rooms = s.rooms.filter q) :
    (cityGroups t id).length ≤ (cityGroups s id).length := by
  unfold cityGroups
  rw [h]
  exact List.Sublist.length_le
    (((List.filter_sublist _).filter _).map _ |>.filter _)

/-- A socket that joins rooms changes no city group of another socket. -/
theorem cityGroups_joinRoom_other (s : Sockets) (id i : String) (room : JsVal) (hi : i ≠ id) :
    cityGroups (s.joinRoom i room) id = cityGroups s id := by
  rcases joinRoom_rooms s i room with ⟨h, _, _⟩ | ⟨_, h⟩
  · exact cityGroups_of_rooms s _ id h
  · rw [cityGroups_append s _ id i room h]
    simp [hi]

theorem cityGroups_join_other (s : Sockets) (id i : String) (arg : RoomArg) (hi : i ≠ id) :
    cityGroups (s.join i arg) id = cityGroups s id := by
  cases arg with
  | value v => exact cityGroups_joinRoom_other s id i v hi
  | array vs =>
    show cityGroups (vs.foldl (fun joined v => joined.joinRoom i v) s) id = _
    induction vs generalizing s with
    | nil => rfl
    | cons v rest ih => exact (ih (s.joinRoom i v)).trans (cityGroups_joinRoom_other s id i v hi)

/-- An event other than a `join_city` of the socket does not add a city group
to it. -/
theorem cityGroups_step_le (s : Sockets) (e : SocketEvent) (id : String)
    (hnot : ∀ city, e ≠ .join_city id city) :
    (cityGroups (onSocketEvent s e) id).length ≤ (cityGroups s id).length := by
  cases e with
  | connection i =>
    rw [onSocketEvent_connection]
    split_ifs with hc
    · exact le_refl _
    · rcases joinRoom_rooms { s with connected := s.connected ++ [i] } i (.str i) with
        ⟨h, _, _⟩ | ⟨_, h⟩
      · rw [cityGroups_of_rooms s _ id h]
      · rw [cityGroups_append s _ id i (.str i) h]
        by_cases hi : i = id
        · simp [hi]
        · simp [hi]
  | join_city i city =>
    have hi : i ≠ id := fun h => hnot city (by rw [h])
    rw [onSocketEvent_join_city]
    split_ifs with hc
    · exact le_of_eq (congrArg List.length
        ((cityGroups_of_rooms (s.join i city) _ id rfl).trans
          (cityGroups_join_other s id i city hi)))
    · exact le_refl _
  | leave_city i city =>
    rw [onSocketEvent_leave_city]
    split_ifs with hc
    · obtain ⟨_, q, h⟩ := leave_rooms s i city
      exact cityGroups_filter_le s _ id q h
    · exact le_refl _
  | disconnect i =>
    rw [onSocketEvent_disconnect]
    exact cityGroups_filter_le s _ id _ rfl

/-- A `join_city` that names one room, sent by a socket that is in no other
city group, leaves it in at most one. -/
theorem cityGroups_join_le_one (s : Sockets) (id : String) (v : JsVal)
    (hv : v ≠ .obj) (hone : (cityGroups s id).length ≤ 1)
    (hall : ∀ r ∈ cityGroups s id, r = v) :
    (cityGroups (onSocketEvent s (.join_city id (.value v))) id).length ≤ 1 := by
  rw [onSocketEvent_join_city]
  split_ifs with hc
  · rcases joinRoom_rooms s id v with ⟨h, _, _⟩ | ⟨hnew, h⟩
    · exact (le_of_eq (congrArg List.length (cityGroups_of_rooms s _ id h))).trans hone
    · refine (le_of_eq (congrArg List.length (cityGroups_append s _ id id v h))).trans ?_
      have hnot : (id, v) ∉ s.rooms := by
        rcases hnew with ho | hn
        · exact absurd ho hv
        · exact hn
      have hnil : cityGroups s id = [] := by
        rw [List.eq_nil_iff_forall_not_mem]
        intro r hr
        have hrc := hall r hr
        subst hrc
        exact hnot ((mem_cityGroups s id r).1 hr).1
      rw [hnil]
      split_ifs <;> simp
  · exact hone

/-- C25 as amended. After every sequence of events in which each `join_city`
of the socket names one room (its argument is not an array or an object) and
arrives only while the socket is in no other city group, the socket is in at
most one city group; the server itself takes a socket out of no room when it
joins (every membership before a `join_city` is a membership after it,
whatever the argument). -/
theorem one_city_when_leaving_first (id : String) (events : List SocketEvent) :
    (∀ s : Sockets, (cityGroups s id).length ≤ 1 → leavesBeforeJoin s id events = true →
      (cityGroups (s.run events) id).length ≤ 1) ∧
    (∀ (s : Sockets) (city : RoomArg) (p : String × JsVal),
      p ∈ s.rooms → p ∈ (onSocketEvent s (.join_city id city)).rooms) := by
  refine ⟨?_, ?_⟩
  · induction events with
    | nil => exact fun s h _ => h
    | cons e rest ih =>
      intro s hone hl
      rw [run_cons]
      simp only [leavesBeforeJoin, Bool.and_eq_true] at hl
      refine ih _ ?_ hl.2
      by_cases hj : ∃ city, e = .join_city id city
      · obtain ⟨city, rfl⟩ := hj
        have h1 := hl.1
        cases city with
        | value v =>
          simp only [ne_eq, not_true_eq_false, decide_False, Bool.false_or, Bool.and_eq_true,
            decide_eq_true_eq, List.all_eq_true] at h1
          exact cityGroups_join_le_one s id v h1.1 hone h1.2
        | array vs =>
          simp at h1
      · exact (cityGroups_step_le s e id (fun city h => hj ⟨city, h⟩)).trans hone
  · intro s city p hp
    rw [onSocketEvent_join_city]
    split_ifs with hc
    · exact (join_rooms s id city).2.1 p hp
    · exact hp

/-- C25 fails as stated: after `join_city('Pune')` and `join_city('Mumbai')`
the socket is in both city groups, and so it is after the one message
`join_city(['Pune', 'Mumbai'])` sent from no city group. -/
theorem one_city_counterexample :
    cityGroups (Sockets.start.run switchWithoutLeave) "s1" = [.str "Pune", .str "Mumbai"] ∧
    cityGroups (Sockets.start.run joinArray) "s1" = [.str "Pune", .str "Mumbai"] :=
  ⟨by decide, by decide⟩

/-- Witness of the amended C25: the socket leaves Pune before it joins
Mumbai and ends in the Mumbai group alone. -/
theorem one_city_when_leaving_first_witness :
    leavesBeforeJoin Sockets.start "s1" switchWithLeave = true ∧
    cityGroups (Sockets.start.run switchWithLeave) "s1" = [.str "Mumbai"] ∧
    (cityGroups (Sockets.start.run switchWithLeave) "s1").length ≤ 1 :=
  ⟨by decide, by decide,
   (one_city_when_leaving_first "s1" switchWithLeave).1 Sockets.start (by decide) (by decide)⟩

/-! ## Escalation and the client colours -/

theorem sendCriticalAlert_world (env : Env) (hospitalName : String) (m : EscalationText)
    (w : World) :
    ∃ sent : List Sms, sent.length = (if dispatcherWorks env then 1 else 0) ∧
      (sendCriticalAlert env hospitalName m w).2 = { w with sms := w.sms ++ sent } := by
  unfold sendCriticalAlert sendSMS dispatcherWorks
  cases hp : env.DISTRICT_OFFICER_PHONE with
  | none => exact ⟨[], by simp [envFalsy], by simp⟩
  | some phone =>
    by_cases hf : envFalsy (some phone) = true
    · exact ⟨[], by simp [hf], by simp [hf]⟩
    · by_cases hc : env.client = true
      · cases he : env.smsError with
        | none => exact ⟨[_], by simp [hf, hc], by simp [hf, hc]; rfl⟩
        | some msg => exact ⟨[], by simp [hf, hc], by simp [hf, hc]⟩
      · exact ⟨[], by simp [hf, hc], by simp [hf, hc]⟩


theorem criticalCount_append (l₁ l₂ : List Alert) :
    criticalCount (l₁ ++ l₂) = criticalCount l₁ + criticalCount l₂ := by
  simp [criticalCount]

theorem tracks_pure (env : Env) (given : List Alert) :
    Tracks env given (pure given) :=
  fun w => ⟨[], by simp [pure], by simp [pure, criticalCount], fun alerts h => by
    cases h
    simp⟩

theorem tracks_bind (env : Env) (given : List Alert) (m : Eff (List Alert))
    (k : List Alert → Eff (List Alert))
    (hm : Tracks env given m) (hk : ∀ g, Tracks env g (k g)) :
    Tracks env given (m >>= k) := by
  intro w
  obtain ⟨c₁, ha₁, hs₁, hr₁⟩ := hm w
  cases hrun : m w with
  | mk r w₁ =>
    rw [hrun] at ha₁ hs₁ hr₁
    cases r with
    | error e =>
      rw [bind_of_error m k w w₁ e hrun]
      exact ⟨c₁, ha₁, hs₁, fun alerts h => by cases h⟩
    | ok g =>
      rw [bind_of_ok m k w w₁ g hrun]
      obtain ⟨c₂, ha₂, hs₂, hr₂⟩ := hk g w₁
      have hg : g = given ++ c₁ := hr₁ g rfl
      refine ⟨c₁ ++ c₂, ?_, ?_, fun alerts h => ?_⟩
      · rw [ha₂, ha₁, List.append_assoc]
      · rw [hs₂, hs₁, criticalCount_append]
        split_ifs <;> omega
      · rw [hr₂ alerts h, hg, List.append_assoc]

theorem eff_bind_assoc {α β γ : Type} (m : Eff α) (f : α → Eff β) (g : β → Eff γ) :
    (m >>= f) >>= g = m >>= fun a => f a >>= g := by
  funext w
  show (match (match m w with
      | (.ok a, w') => f a w'
      | (.error e, w') => (.error e, w')) with
    | (.ok b, w') => g b w'
    | (.error e, w') => (.error e, w')) =
    (match m w with
      | (.ok a, w') => (f a >>= g) w'
      | (.error e, w') => (.error e, w'))
  rcases m w with ⟨r, w'⟩
  cases r <;> rfl

/-- The step that creates a critical alert and then invokes the dispatcher. -/
theorem tracks_critical (env : Env) (given : List Alert) (hospitalId alertType : String)
    (message : AlertMessage) (hospitalName : String) (text : EscalationText) :
    Tracks env given (do
      let alert ← createAlert env hospitalId alertType message "critical"
      let _ ← (fun w => (.ok (), (sendCriticalAlert env hospitalName text w).2) : Eff Unit)
      pure (given ++ [alert])) := by
  intro w
  by_cases he : env.alertError w.alerts.length = true
  · refine ⟨[], ?_, ?_, ?_⟩ <;> simp [bind, createAlert, he, criticalCount]
  · obtain ⟨sent, hlen, hw⟩ := sendCriticalAlert_world env hospitalName text
      { w with alerts := w.alerts ++ [{ id := w.alerts.length, hospital_id := hospitalId,
                                        alert_type := alertType, message := message,
                                        severity := "critical", is_resolved := false }] }
    refine ⟨[{ id := w.alerts.length, hospital_id := hospitalId, alert_type := alertType,
               message := message, severity := "critical", is_resolved := false }], ?_, ?_, ?_⟩
    · simp [bind, pure, createAlert, he, hw]
    · simp [bind, pure, createAlert, he, hw, hlen, criticalCount]
    · simp [bind, pure, createAlert, he, hw]

/-- The step that creates a high alert; the dispatcher is not invoked. -/
theorem tracks_high (env : Env) (given : List Alert) (hospitalId alertType : String)
    (message : AlertMessage) :
    Tracks env given (do
      let alert ← createAlert env hospitalId alertType message "high"
      pure (given ++ [alert])) := by
  intro w
  by_cases he : env.alertError w.alerts.length = true
  · refine ⟨[], ?_, ?_, ?_⟩ <;> simp [bind, createAlert, he, criticalCount]
  · refine ⟨[{ id := w.alerts.length, hospital_id := hospitalId, alert_type := alertType,
               message := message, severity := "high", is_resolved := false }], ?_, ?_, ?_⟩
    · simp [bind, pure, createAlert, he]
    · simp [bind, pure, createAlert, he, criticalCount]
    · simp [bind, pure, createAlert, he]

/-- The critical step followed by the rest of the check. -/
theorem tracks_critical_then (env : Env) (given : List Alert) (hospitalId alertType : String)
    (message : AlertMessage) (hospitalName : String) (text : EscalationText)
    (k : List Alert → Eff (List Alert)) (hk : ∀ g, Tracks env g (k g)) :
    Tracks env given (do
      let alert ← createAlert env hospitalId alertType message "critical"
      let _ ← (fun w => (.ok (), (sendCriticalAlert env hospitalName text w).2) : Eff Unit)
      let y ← pure (given ++ [alert])
      k y) := by
  have h := tracks_bind env given _ k
    (tracks_critical env given hospitalId alertType message hospitalName text) hk
  rw [eff_bind_assoc] at h
  simp only [eff_bind_assoc] at h
  exact h

/-- The high step followed by the rest of the check. -/
theorem tracks_high_then (env : Env) (given : List Alert) (hospitalId alertType : String)
    (message : AlertMessage) (k : List Alert → Eff (List Alert))
    (hk : ∀ g, Tracks env g (k g)) :
    Tracks env given (do
      let alert ← createAlert env hospitalId alertType message "high"
      let y ← pure (given ++ [alert])
      k y) := by
  have h := tracks_bind env given _ k (tracks_high env given hospitalId alertType message) hk
  rw [eff_bind_assoc] at h
  exact h

theorem checkBedThresholds_tracks (env : Env) (hospitalId bedType : String) (n : JsNum)
    (hospitalName : String) :
    Tracks env [] (checkBedThresholds env hospitalId bedType n hospitalName) := by
  unfold checkBedThresholds
  dsimp only
  split_ifs <;> first
    | exact tracks_critical_then env [] _ _ _ _ _ _ (fun g => tracks_critical env g _ _ _ _ _)
    | exact tracks_critical_then env [] _ _ _ _ _ _ (fun g => tracks_pure env g)
    | exact tracks_high_then env [] _ _ _ _ (fun g => tracks_critical env g _ _ _ _ _)
    | exact tracks_high_then env [] _ _ _ _ (fun g => tracks_pure env g)
    | exact tracks_bind env [] _ _ (tracks_pure env []) (fun g => tracks_critical env g _ _ _ _ _)
    | exact tracks_bind env [] _ _ (tracks_pure env []) (fun g => tracks_pure env g)

theorem checkBloodThresholds_tracks (env : Env) (hospitalId bloodGroup : String) (u : JsNum)
    (hospitalName : String) :
    Tracks env [] (checkBloodThresholds env hospitalId bloodGroup u hospitalName) := by
  unfold checkBloodThresholds
  dsimp only
  split_ifs
  · exact tracks_critical env [] _ _ _ _ _
  · exact tracks_high env [] _ _ _
  · exact tracks_pure env []


/-- C27. For every bed and every blood classification, in every environment
and world: the check appends the alerts `created` to the alerts table; the
number of messages it hands to the SMS gateway is the number of critical alerts
among them when the dispatcher works (each invocation then hands over exactly
one message) and zero otherwise, so a high alert brings no invocation; and the
list the check returns, when it returns, is `created`. -/
theorem dispatcher_once_per_critical (env : Env) (w : World) (hospitalId hospitalName : String) :
    (∀ (bedType : String) (availableBeds : JsNum), ∃ created,
      (checkBedThresholds env hospitalId bedType availableBeds hospitalName w).2.alerts =
        w.alerts ++ created ∧
      (checkBedThresholds env hospitalId bedType availableBeds hospitalName w).2.sms.length =
        w.sms.length + (if dispatcherWorks env then criticalCount created else 0) ∧
      ∀ alerts,
        (checkBedThresholds env hospitalId bedType availableBeds hospitalName w).1 = .ok alerts →
          alerts = created) ∧
    (∀ (bloodGroup : String) (unitsAvailable : JsNum), ∃ created,
      (checkBloodThresholds env hospitalId bloodGroup unitsAvailable hospitalName w).2.alerts =
        w.alerts ++ created ∧
      (checkBloodThresholds env hospitalId bloodGroup unitsAvailable hospitalName w).2.sms.length =
        w.sms.length + (if dispatcherWorks env then criticalCount created else 0) ∧
      ∀ alerts,
        (checkBloodThresholds env hospitalId bloodGroup unitsAvailable hospitalName w).1 =
          .ok alerts → alerts = created) := by
  refine ⟨fun bedType availableBeds => ?_, fun bloodGroup unitsAvailable => ?_⟩
  · obtain ⟨created, h1, h2, h3⟩ :=
      checkBedThresholds_tracks env hospitalId bedType availableBeds hospitalName w
    exact ⟨created, h1, h2, fun alerts h => by simpa using h3 alerts h⟩
  · obtain ⟨created, h1, h2, h3⟩ :=
      checkBloodThresholds_tracks env hospitalId bloodGroup unitsAvailable hospitalName w
    exact ⟨created, h1, h2, fun alerts h => by simpa using h3 alerts h⟩

/-- Witness of C27: zero ICU beds raise two critical alerts and two messages,
four ICU beds raise one high alert and no message. -/
theorem dispatcher_once_per_critical_witness :
    dispatcherWorks demoEnv = true ∧
    (checkBedThresholds demoEnv "kem" "ICU" 0 "KEM" demoWorld).1.toOption.map
      (fun alerts => alerts.map (fun a => a.severity)) = some ["critical", "critical"] ∧
    (checkBedThresholds demoEnv "kem" "ICU" 0 "KEM" demoWorld).2.sms.map
      (fun m => m.alertMessage) = [.icuRemaining 0, .bedsFull "ICU"] ∧
    (checkBedThresholds demoEnv "kem" "ICU" 4 "KEM" demoWorld).1.toOption.map
      (fun alerts => alerts.map (fun a => a.severity)) = some ["high"] ∧
    (checkBedThresholds demoEnv "kem" "ICU" 4 "KEM" demoWorld).2.sms = [] ∧
    ∃ created,
      (checkBedThresholds demoEnv "kem" "ICU" 0 "KEM" demoWorld).2.alerts =
        demoWorld.alerts ++ created ∧
      (checkBedThresholds demoEnv "kem" "ICU" 0 "KEM" demoWorld).2.sms.length =
        demoWorld.sms.length + (if dispatcherWorks demoEnv then criticalCount created else 0) ∧
      ∀ alerts,
        (checkBedThresholds demoEnv "kem" "ICU" 0 "KEM" demoWorld).1 = .ok alerts →
          alerts = created :=
  ⟨by decide, by decide, by decide, by decide, by decide,
   (dispatcher_once_per_critical demoEnv demoWorld "kem" "KEM").1 "ICU" 0⟩

/-- C30. For every unit count `u` (non-negative or not) and a store that
accepts the alert inserts, the colour the client gives to `u` agrees with the
alerts `checkBloodThresholds` raises for `u`: `status-critical` exactly when a
critical alert is raised, `status-warning` exactly when a high alert is raised,
and `status-available` exactly when no alert is raised. -/
theorem getBloodStatusColor_agrees (env : Env) (hok : ∀ k, env.alertError k = false)
    (w : World) (hospitalId bloodGroup hospitalName : String) (u : JsNum) :
    ∃ alerts,
      (checkBloodThresholds env hospitalId bloodGroup u hospitalName w).1 = .ok alerts ∧
      (getBloodStatusColor u = "status-critical" ↔ ∃ a ∈ alerts, a.severity = "critical") ∧
      (getBloodStatusColor u = "status-warning" ↔ ∃ a ∈ alerts, a.severity = "high") ∧
      (getBloodStatusColor u = "status-available" ↔ alerts = []) := by
  refine ⟨_, checkBloodThresholds_run env hok w hospitalId bloodGroup hospitalName u, ?_⟩
  unfold getBloodStatusColor
  by_cases h0 : u = 0
  · simp [h0]
  · by_cases h3 : u ≤ 3
    · simp [h0, h3]
    · simp [h0, h3]

/-- Witness of C30: the colours of 0, 1, 3 and 4 units, and the agreement at
the boundary of 3 units. -/
theorem getBloodStatusColor_agrees_witness :
    (List.map getBloodStatusColor [0, 1, 3, 4] =
      ["status-critical", "status-warning", "status-warning", "status-available"]) ∧
    ∃ alerts,
      (checkBloodThresholds demoEnv "kem" "O-" 3 "KEM" demoWorld).1 = .ok alerts ∧
      (getBloodStatusColor 3 = "status-critical" ↔ ∃ a ∈ alerts, a.severity = "critical") ∧
      (getBloodStatusColor 3 = "status-warning" ↔ ∃ a ∈ alerts, a.severity = "high") ∧
      (getBloodStatusColor 3 = "status-available" ↔ alerts = []) :=
  ⟨by decide,
   getBloodStatusColor_agrees demoEnv (fun _ => rfl) demoWorld "kem" "O-" "KEM" 3⟩

end MediTrack
